import Mathlib

/-!
# murasaki_samples_audio: board glue files

A verification development for the three `murasaki_platform.cpp` board files

* `nucleo-f446re-akashi04-i2s`   (namespace `F446re`)
* `nucleo-f722-akashi02-i2s`     (namespace `F722`)
* `nucleo-h743-144-akashi02-talkthrough` (namespace `H743`)

The C++ functions are embedded as Lean functions with explicit state passing.
Calls into the Murasaki class library and the HAL, whose code is outside these
files, appear as events of a trace or as results supplied by an environment.
-/

namespace Murasaki

/-! ## Data model -/

/-- Address of a HAL handle structure (`UART_HandleTypeDef *`, `I2C_HandleTypeDef *`,
`SAI_HandleTypeDef *`, `I2S_HandleTypeDef *`). -/
abbrev Handle := Nat

/-- The HAL handle objects the board files declare with external linkage; they are
defined in `main.c`. -/
inductive HalSymbol
  | huart2 | huart3 | hlpuart1 | hi2c1 | hi2s1 | hi2s2 | hi2s3 | hsai_BlockA1 | hsai_BlockB1
  deriving DecidableEq, Repr

/-- Where the linker placed each HAL handle object: `addr s` is the value of `&s`. -/
abbrev Linkage := HalSymbol → Handle

/-- The port and pin pairs that `main.h` names (`LD2_GPIO_Port, LD2_Pin`, ...). -/
inductive Pin
  | LD2 | ST0 | ST1 | LED1 | LED2
  deriving DecidableEq, Repr

/-- `#define CODEC_I2C_DEVICE_ADDR 0x38` -/
def CODEC_I2C_DEVICE_ADDR : Nat := 0x38

/-- `#define AUDIO_CHANNEL_LEN 128` -/
def AUDIO_CHANNEL_LEN : Nat := 128

/-- Object `murasaki::DebuggerUart`, constructed over a UART handle. -/
structure DebuggerUart where
  handle : Handle
  deriving DecidableEq, Repr

/-- Object `murasaki::UartLogger`, constructed over the console UART. -/
structure UartLogger where
  uart : DebuggerUart
  deriving DecidableEq, Repr

/-- Object `murasaki::Debugger`, constructed over a logger; `autoRePrint` records
the call `AutoRePrint()`. -/
structure Debugger where
  logger : UartLogger
  autoRePrint : Bool
  deriving DecidableEq, Repr

/-- Object `murasaki::BitOut`, constructed over a port and pin. -/
structure BitOut where
  pin : Pin
  deriving DecidableEq, Repr

/-- Object `murasaki::I2cMaster`, constructed over an I2C handle. -/
structure I2cMaster where
  handle : Handle
  deriving DecidableEq, Repr

/-- Object `murasaki::Adau1361`: sample rate, master clock, I2C port, 7 bit address. -/
structure Adau1361 where
  fs : Nat
  master_clock : Nat
  controller : I2cMaster
  i2c_device_addr : Nat
  deriving DecidableEq, Repr

/-- Object `murasaki::SaiPortAdaptor` (h743) or `murasaki::I2sPortAdapter` (f446re, f722):
the TX and the RX peripheral of the audio port. -/
structure AudioPort where
  tx : Handle
  rx : Handle
  deriving DecidableEq, Repr

/-- Object `murasaki::DuplexAudio`: an audio port and the length of each channel. -/
structure DuplexAudio where
  port : AudioPort
  channel_len : Nat
  deriving DecidableEq, Repr

/-- Object `murasaki::SimpleTask`: name, stack size; priority is `ktpRealtime` and the
body is `TaskBodyFunction` in every board file. -/
structure SimpleTask where
  name : String
  stack_size : Nat
  deriving DecidableEq, Repr

/-- Object `murasaki::Synchronizer`: the readiness gate. `released = false` is the state
not-ready in which it is constructed, `released = true` the state ready. -/
structure Synchronizer where
  released : Bool
  deriving DecidableEq, Repr

/-- The global `murasaki::platform` together with the global `murasaki::debugger`.
A field is `none` while the pointer is null. -/
structure Platform where
  uart_console : Option DebuggerUart := none
  logger : Option UartLogger := none
  debugger : Option Debugger := none
  led : Option BitOut := none
  led_st0 : Option BitOut := none
  led_st1 : Option BitOut := none
  i2c_master : Option I2cMaster := none
  codec : Option Adau1361 := none
  audio_port : Option AudioPort := none
  audio : Option DuplexAudio := none
  audio_task : Option SimpleTask := none
  codec_ready : Option Synchronizer := none
  deriving DecidableEq, Repr

/-- The objects `InitPlatform` creates with `new`. -/
inductive Obj
  | uart_console | logger | debugger | led | led_st0 | led_st1 | i2c_master | codec
  | audio_port | audio | audio_task | codec_ready
  deriving DecidableEq, Repr

/-- Heap behaviour during bring-up: `heap o = true` when `new` for object `o` yields a
non-null pointer. -/
abbrev Heap := Obj → Bool

/-- How a run of `InitPlatform` ends. -/
inductive InitResult
  /-- the function returned, leaving the platform `p` -/
  | completed (p : Platform)
  /-- `while (nullptr == ...) ;` never exits: the function spins after `new` for `o` -/
  | spin (o : Obj) (p : Platform)
  /-- `MURASAKI_ASSERT(nullptr != ...)` failed after `new` for `o` -/
  | assertFailed (o : Obj) (p : Platform)
  deriving DecidableEq, Repr

/-- `x = new T(...); while (nullptr == x) ;` then the rest of the function. -/
def newOrSpin (heap : Heap) (o : Obj) (p : Platform) (store : Platform)
    (k : Platform → InitResult) : InitResult :=
  if heap o then k store else InitResult.spin o p

/-- `x = new T(...); MURASAKI_ASSERT(nullptr != x)` then the rest of the function. -/
def newOrAssert (heap : Heap) (o : Obj) (p : Platform) (store : Platform)
    (k : Platform → InitResult) : InitResult :=
  if heap o then k store else InitResult.assertFailed o p

namespace H743

/-- Function `InitPlatform()` of the h743 board file (lines 54-129). The global platform starts
with every pointer null. `murasaki::InitCycleCounter()` touches no platform field. -/
def InitPlatform (addr : Linkage) (heap : Heap) : InitResult :=
  let p0 : Platform := {}
  let uart : DebuggerUart := ⟨addr HalSymbol.huart3⟩
  newOrSpin heap Obj.uart_console p0 { p0 with uart_console := some uart } fun p1 =>
  let logger : UartLogger := ⟨uart⟩
  newOrSpin heap Obj.logger p1 { p1 with logger := some logger } fun p2 =>
  newOrSpin heap Obj.debugger p2 { p2 with debugger := some ⟨logger, false⟩ } fun p3 =>
  -- murasaki::debugger->AutoRePrint();
  let p4 : Platform := { p3 with debugger := some ⟨logger, true⟩ }
  newOrAssert heap Obj.led p4 { p4 with led := some ⟨Pin.LD2⟩ } fun p5 =>
  newOrAssert heap Obj.led_st0 p5 { p5 with led_st0 := some ⟨Pin.ST0⟩ } fun p6 =>
  newOrAssert heap Obj.led_st1 p6 { p6 with led_st1 := some ⟨Pin.ST1⟩ } fun p7 =>
  let i2c : I2cMaster := ⟨addr HalSymbol.hi2c1⟩
  newOrAssert heap Obj.i2c_master p7 { p7 with i2c_master := some i2c } fun p8 =>
  let codec : Adau1361 := ⟨48000, 12000000, i2c, CODEC_I2C_DEVICE_ADDR⟩
  newOrAssert heap Obj.codec p8 { p8 with codec := some codec } fun p9 =>
  -- SaiPortAdaptor(TX port, RX port)
  let port : AudioPort := ⟨addr HalSymbol.hsai_BlockB1, addr HalSymbol.hsai_BlockA1⟩
  newOrAssert heap Obj.audio_port p9 { p9 with audio_port := some port } fun p10 =>
  let audio : DuplexAudio := ⟨port, AUDIO_CHANNEL_LEN⟩
  newOrAssert heap Obj.audio p10 { p10 with audio := some audio } fun p11 =>
  let task : SimpleTask := ⟨"Audio Task", 256⟩
  newOrAssert heap Obj.audio_task p11 { p11 with audio_task := some task } fun p12 =>
  InitResult.completed p12

end H743

namespace F446re

/-- Function `InitPlatform()` of the f446re board file (lines 140-219; `UART_PORT` is `huart2`, `LED_PORT, LED_PIN` are `LD2_GPIO_Port, LD2_Pin` under `STM32F446xx`). The global platform starts
with every pointer null. `murasaki::InitCycleCounter()` touches no platform field. -/
def InitPlatform (addr : Linkage) (heap : Heap) : InitResult :=
  let p0 : Platform := {}
  let uart : DebuggerUart := ⟨addr HalSymbol.huart2⟩
  newOrSpin heap Obj.uart_console p0 { p0 with uart_console := some uart } fun p1 =>
  let logger : UartLogger := ⟨uart⟩
  newOrSpin heap Obj.logger p1 { p1 with logger := some logger } fun p2 =>
  newOrSpin heap Obj.debugger p2 { p2 with debugger := some ⟨logger, false⟩ } fun p3 =>
  -- murasaki::debugger->AutoRePrint();
  let p4 : Platform := { p3 with debugger := some ⟨logger, true⟩ }
  newOrAssert heap Obj.led p4 { p4 with led := some ⟨Pin.LD2⟩ } fun p5 =>
  newOrAssert heap Obj.led_st0 p5 { p5 with led_st0 := some ⟨Pin.LED1⟩ } fun p6 =>
  newOrAssert heap Obj.led_st1 p6 { p6 with led_st1 := some ⟨Pin.LED2⟩ } fun p7 =>
  let i2c : I2cMaster := ⟨addr HalSymbol.hi2c1⟩
  newOrAssert heap Obj.i2c_master p7 { p7 with i2c_master := some i2c } fun p8 =>
  let codec : Adau1361 := ⟨48000, 12000000, i2c, CODEC_I2C_DEVICE_ADDR⟩
  newOrAssert heap Obj.codec p8 { p8 with codec := some codec } fun p9 =>
  -- I2sPortAdapter(TX port, RX port)
  let port : AudioPort := ⟨addr HalSymbol.hi2s2, addr HalSymbol.hi2s3⟩
  newOrAssert heap Obj.audio_port p9 { p9 with audio_port := some port } fun p10 =>
  let audio : DuplexAudio := ⟨port, AUDIO_CHANNEL_LEN⟩
  newOrAssert heap Obj.audio p10 { p10 with audio := some audio } fun p11 =>
  let task : SimpleTask := ⟨"Audio Task", 256⟩
  newOrAssert heap Obj.audio_task p11 { p11 with audio_task := some task } fun p12 =>
  newOrAssert heap Obj.codec_ready p12 { p12 with codec_ready := some ⟨false⟩ } fun p13 =>
  InitResult.completed p13

end F446re

namespace F722

/-- Function `InitPlatform()` of the f722 board file (lines 53-132). The global platform starts
with every pointer null. `murasaki::InitCycleCounter()` touches no platform field. -/
def InitPlatform (addr : Linkage) (heap : Heap) : InitResult :=
  let p0 : Platform := {}
  let uart : DebuggerUart := ⟨addr HalSymbol.huart3⟩
  newOrSpin heap Obj.uart_console p0 { p0 with uart_console := some uart } fun p1 =>
  let logger : UartLogger := ⟨uart⟩
  newOrSpin heap Obj.logger p1 { p1 with logger := some logger } fun p2 =>
  newOrSpin heap Obj.debugger p2 { p2 with debugger := some ⟨logger, false⟩ } fun p3 =>
  -- murasaki::debugger->AutoRePrint();
  let p4 : Platform := { p3 with debugger := some ⟨logger, true⟩ }
  newOrAssert heap Obj.led p4 { p4 with led := some ⟨Pin.LD2⟩ } fun p5 =>
  newOrAssert heap Obj.led_st0 p5 { p5 with led_st0 := some ⟨Pin.ST0⟩ } fun p6 =>
  newOrAssert heap Obj.led_st1 p6 { p6 with led_st1 := some ⟨Pin.ST1⟩ } fun p7 =>
  let i2c : I2cMaster := ⟨addr HalSymbol.hi2c1⟩
  newOrAssert heap Obj.i2c_master p7 { p7 with i2c_master := some i2c } fun p8 =>
  let codec : Adau1361 := ⟨48000, 12000000, i2c, CODEC_I2C_DEVICE_ADDR⟩
  newOrAssert heap Obj.codec p8 { p8 with codec := some codec } fun p9 =>
  -- I2sPortAdapter(TX port, RX port)
  let port : AudioPort := ⟨addr HalSymbol.hi2s1, addr HalSymbol.hi2s2⟩
  newOrAssert heap Obj.audio_port p9 { p9 with audio_port := some port } fun p10 =>
  let audio : DuplexAudio := ⟨port, AUDIO_CHANNEL_LEN⟩
  newOrAssert heap Obj.audio p10 { p10 with audio := some audio } fun p11 =>
  let task : SimpleTask := ⟨"Audio Task", 256⟩
  newOrAssert heap Obj.audio_task p11 { p11 with audio_task := some task } fun p12 =>
  newOrAssert heap Obj.codec_ready p12 { p12 with codec_ready := some ⟨false⟩ } fun p13 =>
  InitResult.completed p13

end F722

/-! ## Interrupt entry points (h743 board file) -/

/-- The driver object on which an entry point invokes a member function. -/
inductive Receiver
  | uart (d : DebuggerUart)
  | i2c (d : I2cMaster)
  | audio (d : DuplexAudio)
  deriving DecidableEq, Repr

/-- The member functions the entry points invoke; `DmaCallback` carries its second
argument. -/
inductive Method
  | TransmitCompleteCallback
  | ReceiveCompleteCallback
  | HandleError
  | DmaCallback (phase : Nat)
  deriving DecidableEq, Repr

/-- One invocation of a driver member function with a handle pointer. -/
structure Call where
  receiver : Receiver
  method : Method
  arg : Handle
  deriving DecidableEq, Repr

/-- What an invoked library member function does: it returns a `bool`, or it raises
the fatal path and control never comes back to the caller. -/
inductive HandlerResult
  | returns (b : Bool)
  | fatal
  deriving DecidableEq, Repr

/-- Behaviour of the library handlers, which the board file only calls. -/
abbrev Env := Call → HandlerResult

/-- How an entry point ends. -/
inductive Exit
  /-- the function returned to the HAL -/
  | returned
  /-- a callee raised the fatal path; the entry point never returns -/
  | fatal
  /-- a null `murasaki::platform` pointer was dereferenced -/
  | nullDeref
  deriving DecidableEq, Repr

/-- Observable behaviour of one run of an entry point: the member functions it invoked,
in order, and how it ended. -/
structure Outcome where
  calls : List Call
  exit : Exit
  deriving DecidableEq, Repr

/-- Dereference of a platform pointer. -/
def deref {α : Type} (ptr : Option α) (k : α → Outcome) : Outcome :=
  match ptr with
  | none => ⟨[], Exit.nullDeref⟩
  | some d => k d

/-- Invocation of a member function; the continuation receives the returned `bool`. -/
def invoke (env : Env) (c : Call) (k : Bool → Outcome) : Outcome :=
  match env c with
  | HandlerResult.returns b => ⟨c :: (k b).calls, (k b).exit⟩
  | HandlerResult.fatal => ⟨[c], Exit.fatal⟩

/-- Statement `return;` and the end of a `void` function body. -/
def ret : Outcome := ⟨[], Exit.returned⟩

namespace H743

/-- Lines 178-185. -/
def HAL_UART_TxCpltCallback (p : Platform) (env : Env) (huart : Handle) : Outcome :=
  deref p.uart_console fun d =>
  invoke env ⟨Receiver.uart d, Method.TransmitCompleteCallback, huart⟩ fun hit =>
  if hit then ret else ret

/-- Lines 202-209. -/
def HAL_UART_RxCpltCallback (p : Platform) (env : Env) (huart : Handle) : Outcome :=
  deref p.uart_console fun d =>
  invoke env ⟨Receiver.uart d, Method.ReceiveCompleteCallback, huart⟩ fun hit =>
  if hit then ret else ret

/-- Lines 226-232. -/
def HAL_UART_ErrorCallback (p : Platform) (env : Env) (huart : Handle) : Outcome :=
  deref p.uart_console fun d =>
  invoke env ⟨Receiver.uart d, Method.HandleError, huart⟩ fun hit =>
  if hit then ret else ret

/-- Lines 307-315 (the `#if 1` branch). -/
def HAL_I2C_MasterTxCpltCallback (p : Platform) (env : Env) (hi2c : Handle) : Outcome :=
  deref p.i2c_master fun d =>
  invoke env ⟨Receiver.i2c d, Method.TransmitCompleteCallback, hi2c⟩ fun hit =>
  if hit then ret else ret

/-- Lines 331-338 (the `#if 1` branch). -/
def HAL_I2C_MasterRxCpltCallback (p : Platform) (env : Env) (hi2c : Handle) : Outcome :=
  deref p.i2c_master fun d =>
  invoke env ⟨Receiver.i2c d, Method.ReceiveCompleteCallback, hi2c⟩ fun hit =>
  if hit then ret else ret

/-- Lines 402-409 (the `#if 1` branch). -/
def HAL_I2C_ErrorCallback (p : Platform) (env : Env) (hi2c : Handle) : Outcome :=
  deref p.i2c_master fun d =>
  invoke env ⟨Receiver.i2c d, Method.HandleError, hi2c⟩ fun hit =>
  if hit then ret else ret

/-- Lines 424-428. -/
def HAL_SAI_RxHalfCpltCallback (p : Platform) (env : Env) (hsai : Handle) : Outcome :=
  deref p.audio fun d =>
  invoke env ⟨Receiver.audio d, Method.DmaCallback 0, hsai⟩ fun hit =>
  if hit then ret else ret

/-- Lines 439-443. -/
def HAL_SAI_RxCpltCallback (p : Platform) (env : Env) (hsai : Handle) : Outcome :=
  deref p.audio fun d =>
  invoke env ⟨Receiver.audio d, Method.DmaCallback 1, hsai⟩ fun hit =>
  if hit then ret else ret

/-- Lines 455-458. -/
def HAL_SAI_ErrorCallback (p : Platform) (env : Env) (hsai : Handle) : Outcome :=
  deref p.audio fun d =>
  invoke env ⟨Receiver.audio d, Method.HandleError, hsai⟩ fun hit =>
  if hit then ret else ret

/-- The nine interrupt entry points of the board file that invoke a driver. -/
inductive EntryPoint
  | uartTxCplt | uartRxCplt | uartError
  | i2cMasterTxCplt | i2cMasterRxCplt | i2cError
  | saiRxHalfCplt | saiRxCplt | saiError
  deriving DecidableEq, Repr

/-- The function the HAL runs for each entry point. -/
def EntryPoint.run : EntryPoint → Platform → Env → Handle → Outcome
  | uartTxCplt => HAL_UART_TxCpltCallback
  | uartRxCplt => HAL_UART_RxCpltCallback
  | uartError => HAL_UART_ErrorCallback
  | i2cMasterTxCplt => HAL_I2C_MasterTxCpltCallback
  | i2cMasterRxCplt => HAL_I2C_MasterRxCpltCallback
  | i2cError => HAL_I2C_ErrorCallback
  | saiRxHalfCplt => HAL_SAI_RxHalfCpltCallback
  | saiRxCplt => HAL_SAI_RxCpltCallback
  | saiError => HAL_SAI_ErrorCallback

/-- Event category of an entry point, as the hardware defines it. -/
inductive Category
  | transmitComplete | receiveComplete | error | dmaHalf | dmaFull
  deriving DecidableEq, Repr

/-- Peripheral class of an entry point. -/
inductive Peripheral
  | uart | i2c | sai
  deriving DecidableEq, Repr

/-- The peripheral class an entry point belongs to (from its HAL name). -/
def EntryPoint.peripheral : EntryPoint → Peripheral
  | uartTxCplt | uartRxCplt | uartError => Peripheral.uart
  | i2cMasterTxCplt | i2cMasterRxCplt | i2cError => Peripheral.i2c
  | saiRxHalfCplt | saiRxCplt | saiError => Peripheral.sai

/-- The event category an entry point belongs to (from its HAL name). -/
def EntryPoint.category : EntryPoint → Category
  | uartTxCplt | i2cMasterTxCplt => Category.transmitComplete
  | uartRxCplt | i2cMasterRxCplt => Category.receiveComplete
  | uartError | i2cError | saiError => Category.error
  | saiRxHalfCplt => Category.dmaHalf
  | saiRxCplt => Category.dmaFull

/-- The member function that serves an event category. -/
def Category.method : Category → Method
  | transmitComplete => Method.TransmitCompleteCallback
  | receiveComplete => Method.ReceiveCompleteCallback
  | error => Method.HandleError
  | dmaHalf => Method.DmaCallback 0
  | dmaFull => Method.DmaCallback 1

/-- The driver instance of a peripheral class that bring-up created, when there is one. -/
def Peripheral.driver (p : Platform) : Peripheral → Option Receiver
  | uart => p.uart_console.map Receiver.uart
  | i2c => p.i2c_master.map Receiver.i2c
  | sai => p.audio.map Receiver.audio

end H743

/-- A linkage used for concrete runs: the handle objects sit 0x80 bytes apart in SRAM. -/
def demoLinkage : Linkage
  | HalSymbol.huart2 => 0x20000000
  | HalSymbol.huart3 => 0x20000080
  | HalSymbol.hlpuart1 => 0x20000100
  | HalSymbol.hi2c1 => 0x20000180
  | HalSymbol.hi2s1 => 0x20000200
  | HalSymbol.hi2s2 => 0x20000280
  | HalSymbol.hi2s3 => 0x20000300
  | HalSymbol.hsai_BlockA1 => 0x20000380
  | HalSymbol.hsai_BlockB1 => 0x20000400

/-- The platform the h743 bring-up builds from a linkage (all twelve `new` succeed). -/
def H743.readyPlatform (addr : Linkage) : Platform :=
  { uart_console := some ⟨addr HalSymbol.huart3⟩
    logger := some ⟨⟨addr HalSymbol.huart3⟩⟩
    debugger := some ⟨⟨⟨addr HalSymbol.huart3⟩⟩, true⟩
    led := some ⟨Pin.LD2⟩
    led_st0 := some ⟨Pin.ST0⟩
    led_st1 := some ⟨Pin.ST1⟩
    i2c_master := some ⟨addr HalSymbol.hi2c1⟩
    codec := some ⟨48000, 12000000, ⟨addr HalSymbol.hi2c1⟩, CODEC_I2C_DEVICE_ADDR⟩
    audio_port := some ⟨addr HalSymbol.hsai_BlockB1, addr HalSymbol.hsai_BlockA1⟩
    audio := some ⟨⟨addr HalSymbol.hsai_BlockB1, addr HalSymbol.hsai_BlockA1⟩, AUDIO_CHANNEL_LEN⟩
    audio_task := some ⟨"Audio Task", 256⟩
    codec_ready := none }

/-- Modelled from the spec: `murasaki::DuplexAudio::HandleError`, library code that the
board file only calls. Section 4.2: when the streaming engine reports a hardware error the
transport must not silently continue, it surfaces the condition as fatal; the board file
notes that `HandleError()` triggers a hard fault and never returns. An error on a handle
the audio port does not own is not claimed. -/
def DuplexAudio.HandleError (d : DuplexAudio) (h : Handle) : HandlerResult :=
  if h = d.port.tx ∨ h = d.port.rx then HandlerResult.fatal else HandlerResult.returns false

/-! ## Fault capture (h743 board file) -/

/-- Memory as the processor reads it: `mem a` is the word at byte address `a`. -/
abbrev Memory := Nat → Nat

/-- Load of an `unsigned int` (32 bits) from byte address `a`. -/
def loadWord (mem : Memory) (a : Nat) : Nat := mem a % 2 ^ 32

/-- Element `k` of an `unsigned int *`: the word `4 * k` bytes above the pointer. -/
def index32 (mem : Memory) (ptr : Nat) (k : Nat) : Nat := loadWord mem (ptr + 4 * k)

/-- An argument given to `Debugger::Printf` after the format string. -/
inductive PrintfArg
  | word (v : Nat)
  | int (v : Int)
  | str (s : String)
  deriving DecidableEq, Repr

/-- Calls on `murasaki::debugger`. -/
inductive DebuggerCall
  | Printf (fmt : String) (args : List PrintfArg)
  | DoPostMortem
  deriving DecidableEq, Repr

namespace H743

/-- Function `PrintFaultResult(unsigned int *stack_pointer)`, lines 564-587: the calls it
makes on `murasaki::debugger`, in order. -/
def PrintFaultResult (mem : Memory) (stack_pointer : Nat) : List DebuggerCall :=
  [ DebuggerCall.Printf "\nSpurious exception or hardfault occured.  \n" [],
    DebuggerCall.Printf "Stacked R0  : 0x%08X \n" [PrintfArg.word (index32 mem stack_pointer 0)],
    DebuggerCall.Printf "Stacked R1  : 0x%08X \n" [PrintfArg.word (index32 mem stack_pointer 1)],
    DebuggerCall.Printf "Stacked R2  : 0x%08X \n" [PrintfArg.word (index32 mem stack_pointer 2)],
    DebuggerCall.Printf "Stacked R3  : 0x%08X \n" [PrintfArg.word (index32 mem stack_pointer 3)],
    DebuggerCall.Printf "Stacked R12 : 0x%08X \n" [PrintfArg.word (index32 mem stack_pointer 4)],
    DebuggerCall.Printf "Stacked LR  : 0x%08X \n" [PrintfArg.word (index32 mem stack_pointer 5)],
    DebuggerCall.Printf "Stacked PC  : 0x%08X \n" [PrintfArg.word (index32 mem stack_pointer 6)],
    DebuggerCall.Printf "Stacked PSR : 0x%08X \n" [PrintfArg.word (index32 mem stack_pointer 7)],
    DebuggerCall.Printf "       CFSR : 0x%08X \n" [PrintfArg.word (loadWord mem 0xE000ED28)],
    DebuggerCall.Printf "       HFSR : 0x%08X \n" [PrintfArg.word (loadWord mem 0xE000ED2C)],
    DebuggerCall.Printf "       DFSR : 0x%08X \n" [PrintfArg.word (loadWord mem 0xE000ED30)],
    DebuggerCall.Printf "       AFSR : 0x%08X \n" [PrintfArg.word (loadWord mem 0xE000ED3C)],
    DebuggerCall.Printf "       MMAR : 0x%08X \n" [PrintfArg.word (loadWord mem 0xE000ED34)],
    DebuggerCall.Printf "       BFAR : 0x%08X \n" [PrintfArg.word (loadWord mem 0xE000ED38)],
    DebuggerCall.Printf
      "(Note : To avoid the stacking by C compiler, use release build to investigate the fault. ) \n"
      [],
    DebuggerCall.DoPostMortem ]

end H743

/-! ## Startup synchronizer -/

/-- Modelled from the spec: `murasaki::Synchronizer::Release`, library code that the board
files only call. Section 4.3: the single transition not-ready to ready; idempotent. -/
def Synchronizer.Release (_g : Synchronizer) : Synchronizer := ⟨true⟩

/-- Modelled from the spec: `murasaki::Synchronizer::Wait`, library code that the board
files only call. Section 4.3: blocks the caller until `Release` has been called at least
once and returns at once when it already has (state, not edge-triggered). The result is
`none` while the caller stays blocked, and the gate as the call leaves it once it returns. -/
def Synchronizer.Wait (g : Synchronizer) : Option Synchronizer :=
  if g.released then some g else none

/-- The operations on a readiness gate. -/
inductive GateOp
  | Wait
  | Release
  deriving DecidableEq, Repr

/-- The gate after one operation is attempted on it; a `Wait` that blocks leaves it as
it is. -/
def Synchronizer.apply (g : Synchronizer) : GateOp → Synchronizer
  | GateOp.Wait => (g.Wait).getD g
  | GateOp.Release => g.Release

/-! ## ExecPlatform and the audio task -/

/-- A `float` sample, by its IEEE-754 bit pattern; `0.0` is the pattern 0. The board
files only store and copy samples. -/
abbrev Sample := Nat

/-- Codec channels named by the board files. -/
inductive CodecChannel
  | kccLineInput
  | kccHeadphoneOutput
  deriving DecidableEq, Repr

/-- Calls that leave the board file, in the order they complete. -/
inductive Event
  /-- call `audio_task->Start()` -/
  | taskStart
  /-- call `codec->Start()` -/
  | codecStart
  /-- call `codec->SetGain(channel, left, right)`, gains in dB as `float` -/
  | setGain (channel : CodecChannel) (left right : Sample)
  /-- call `codec->Mute(channel, mute)` -/
  | mute (channel : CodecChannel) (mute : Bool)
  /-- return of `codec_ready->Wait()` -/
  | syncWait
  /-- call `codec_ready->Release()` -/
  | syncRelease
  /-- call `murasaki::Sleep(ms)` -/
  | sleep (ms : Nat)
  /-- call `Clear()` on the `BitOut` of a pin -/
  | ledClear (pin : Pin)
  /-- call `Set()` on the `BitOut` of a pin -/
  | ledSet (pin : Pin)
  /-- call `Toggle()` on the `BitOut` of a pin -/
  | ledToggle (pin : Pin)
  /-- call `audio->TransmitAndReceive(tx_left, tx_right, rx_left, rx_right)`, with the
  content of the two transmit buffers at the call -/
  | transmitAndReceive (tx_left tx_right : List Sample)
  /-- call `murasaki::debugger->Printf(fmt, args...)` -/
  | printf (fmt : String) (args : List PrintfArg)
  deriving DecidableEq, Repr

/-- Program points of `ExecPlatform` over the three board files, one per statement that
calls out of the file. A board file uses the points whose statement it contains. -/
inductive ExecPc
  | ledClear | ledSet | taskStart | wait | sleep30 | muteLine | muteHp | hello | sleep500
  deriving DecidableEq, Repr

/-- Program points of `TaskBodyFunction` over the three board files. `entry` covers the
four allocations and the zero-fill loop, `copy` the talk-through loop. -/
inductive TaskPc
  | entry | codecStart | gainLine | gainHp | release | muteLine | muteHp | ledClear | ledSet
  | transmitAndReceive | copy | toggle0 | toggle1
  deriving DecidableEq, Repr

/-- One block as the transport returns it: sample `i` of the left and of the right
channel. -/
structure Block where
  left : Nat → Sample
  right : Nat → Sample

/-- What the board file does not decide: the blocks the transport returns, call after
call, and the content of freshly allocated memory (`garbage b i` is element `i` of the
`b`-th array the task allocates). -/
structure World where
  input : Nat → Block
  garbage : Nat → Nat → Sample

/-- The state of the system: the global platform, the locals of `ExecPlatform` and of
the audio task with their program points, the GPIO outputs, and the calls completed so
far. -/
structure Sys where
  platform : Platform
  execPc : ExecPc
  count : Int
  taskRunning : Bool
  taskPc : TaskPc
  tx_left : List Sample
  tx_right : List Sample
  rx_left : List Sample
  rx_right : List Sample
  received : Nat
  pins : Pin → Bool
  crashed : Bool
  trace : List Event

/-- Append a completed call to the trace. -/
def emit (e : Event) (s : Sys) : Sys := { s with trace := s.trace ++ [e] }

/-- A null pointer dereference or an access outside an array: the run stops. -/
def crash (s : Sys) : Sys := { s with crashed := true }

/-- Expression `new float[n]`: an array of `n` samples with arbitrary content. -/
def newFloatArray (n : Nat) (content : Nat → Sample) : List Sample := (List.range n).map content

/-- Assignment `buf[i] = v`; `none` when `i` is outside the array. -/
def store (buf : List Sample) (i : Nat) (v : Sample) : Option (List Sample) :=
  if i < buf.length then some (buf.set i v) else none

/-- Expression `buf[i]`; `none` when `i` is outside the array. -/
def load (buf : List Sample) (i : Nat) : Option Sample := buf[i]?

/-- Loop `for (int i = start; i < start + n; i++) body`, the body run on a state `σ`. -/
def forLoop {σ : Type} (body : Nat → σ → Option σ) : Nat → Nat → σ → Option σ
  | _, 0, st => some st
  | i, n + 1, st => (body i st).bind (forLoop body (i + 1) n)

/-- The loop of each `TaskBodyFunction` that fills the transmit buffers with zero:
`for (int i = 0; i < AUDIO_CHANNEL_LEN; i++) { tx_left[i] = 0.0; tx_right[i] = 0.0; }`. -/
def zeroFill (tx : List Sample × List Sample) : Option (List Sample × List Sample) :=
  forLoop (fun i st =>
      (store st.1 i 0).bind fun l =>
      (store st.2 i 0).bind fun r =>
      some (l, r))
    0 AUDIO_CHANNEL_LEN tx

/-- The talk-through loop of each `TaskBodyFunction`:
`for (int i = 0; i < AUDIO_CHANNEL_LEN; i++) { tx_left[i] = rx_left[i]; tx_right[i] = rx_right[i]; }`. -/
def talkThrough (rx_left rx_right : List Sample) (tx : List Sample × List Sample) :
    Option (List Sample × List Sample) :=
  forLoop (fun i st =>
      (load rx_left i).bind fun vl =>
      (store st.1 i vl).bind fun l =>
      (load rx_right i).bind fun vr =>
      (store st.2 i vr).bind fun r =>
      some (l, r))
    0 AUDIO_CHANNEL_LEN tx

/-- Modelled from the spec: `murasaki::DuplexAudio::TransmitAndReceive`, library code that
the board files only call. Section 4.2: caller-owned buffers of fixed frame length; on
return `rx_left` and `rx_right` contain the most recently completed receive region. The
transport works on `channel_len` samples of each buffer, the length it was constructed
with; a shorter buffer is accessed outside its bounds. -/
def DuplexAudio.TransmitAndReceive (d : DuplexAudio) (blk : Block)
    (tx_left tx_right rx_left rx_right : List Sample) : Option (List Sample × List Sample) :=
  if d.channel_len ≤ tx_left.length ∧ d.channel_len ≤ tx_right.length ∧
      d.channel_len ≤ rx_left.length ∧ d.channel_len ≤ rx_right.length then
    some ((List.range d.channel_len).map blk.left ++ rx_left.drop d.channel_len,
      (List.range d.channel_len).map blk.right ++ rx_right.drop d.channel_len)
  else none

/-- Statement `count++` on an `int`; past `INT_MAX` the value wraps as the processor
does. -/
def incrementInt (count : Int) : Int :=
  if count + 1 < 2 ^ 31 then count + 1 else count + 1 - 2 ^ 32

/-- Use of a platform pointer by a statement: a null pointer stops the run. -/
def withPtr {α : Type} (ptr : Option α) (s : Sys) (k : α → Sys) : Sys :=
  match ptr with
  | none => crash s
  | some a => k a

namespace F446re

/-- One statement of `ExecPlatform()` (lines 221-256), at the program point `s.execPc`. A
`Wait()` that blocks leaves the state as it is. -/
def ExecPlatform (s : Sys) : Sys :=
  match s.execPc with
  | ExecPc.taskStart =>
    withPtr s.platform.audio_task s fun _ =>
    { emit Event.taskStart s with taskRunning := true, execPc := ExecPc.wait }
  | ExecPc.wait =>
    withPtr s.platform.codec_ready s fun g =>
    match g.Wait with
    | none => s
    | some g2 =>
      { emit Event.syncWait s with
        platform := { s.platform with codec_ready := some g2 }, execPc := ExecPc.sleep30 }
  | ExecPc.sleep30 => { emit (Event.sleep 30) s with execPc := ExecPc.muteLine }
  | ExecPc.muteLine =>
    withPtr s.platform.codec s fun _ =>
    { emit (Event.mute CodecChannel.kccLineInput false) s with execPc := ExecPc.muteHp }
  | ExecPc.muteHp =>
    withPtr s.platform.codec s fun _ =>
    { emit (Event.mute CodecChannel.kccHeadphoneOutput false) s with execPc := ExecPc.hello }
  | ExecPc.hello =>
    withPtr s.platform.debugger s fun _ =>
    { emit (Event.printf "Hello %d \n" [PrintfArg.int s.count]) s with
      count := incrementInt s.count, execPc := ExecPc.sleep500 }
  | ExecPc.sleep500 => { emit (Event.sleep 500) s with execPc := ExecPc.hello }
  | ExecPc.ledClear => s
  | ExecPc.ledSet => s

/-- The program point at which `ExecPlatform()` starts (after `int count = 0;`). -/
def execEntry : ExecPc := ExecPc.taskStart

/-- One statement of `TaskBodyFunction()` (lines 268-326), at the program point `s.taskPc`. -/
def TaskBodyFunction (w : World) (s : Sys) : Sys :=
  match s.taskPc with
  | TaskPc.entry =>
    match zeroFill (newFloatArray AUDIO_CHANNEL_LEN (w.garbage 0),
        newFloatArray AUDIO_CHANNEL_LEN (w.garbage 1)) with
    | none => crash s
    | some (l, r) =>
      { s with
        tx_left := l, tx_right := r,
        rx_left := newFloatArray AUDIO_CHANNEL_LEN (w.garbage 2),
        rx_right := newFloatArray AUDIO_CHANNEL_LEN (w.garbage 3),
        taskPc := TaskPc.codecStart }
  | TaskPc.codecStart =>
    withPtr s.platform.codec s fun _ =>
    { emit Event.codecStart s with taskPc := TaskPc.gainLine }
  | TaskPc.gainLine =>
    withPtr s.platform.codec s fun _ =>
    { emit (Event.setGain CodecChannel.kccLineInput 0 0) s with taskPc := TaskPc.gainHp }
  | TaskPc.gainHp =>
    withPtr s.platform.codec s fun _ =>
    { emit (Event.setGain CodecChannel.kccHeadphoneOutput 0 0) s with taskPc := TaskPc.release }
  | TaskPc.release =>
    withPtr s.platform.codec_ready s fun g =>
    { emit Event.syncRelease s with
      platform := { s.platform with codec_ready := some g.Release }, taskPc := TaskPc.ledClear }
  | TaskPc.ledClear =>
    withPtr s.platform.led_st0 s fun b =>
    { emit (Event.ledClear b.pin) s with
      pins := Function.update s.pins b.pin false, taskPc := TaskPc.ledSet }
  | TaskPc.ledSet =>
    withPtr s.platform.led_st1 s fun b =>
    { emit (Event.ledSet b.pin) s with
      pins := Function.update s.pins b.pin true, taskPc := TaskPc.transmitAndReceive }
  | TaskPc.transmitAndReceive =>
    withPtr s.platform.audio s fun d =>
    match d.TransmitAndReceive (w.input s.received) s.tx_left s.tx_right s.rx_left s.rx_right with
    | none => crash s
    | some (l, r) =>
      { emit (Event.transmitAndReceive s.tx_left s.tx_right) s with
        rx_left := l, rx_right := r, received := s.received + 1, taskPc := TaskPc.copy }
  | TaskPc.copy =>
    match talkThrough s.rx_left s.rx_right (s.tx_left, s.tx_right) with
    | none => crash s
    | some (l, r) => { s with tx_left := l, tx_right := r, taskPc := TaskPc.toggle0 }
  | TaskPc.toggle0 =>
    withPtr s.platform.led_st0 s fun b =>
    { emit (Event.ledToggle b.pin) s with
      pins := Function.update s.pins b.pin (!s.pins b.pin), taskPc := TaskPc.toggle1 }
  | TaskPc.toggle1 =>
    withPtr s.platform.led_st1 s fun b =>
    { emit (Event.ledToggle b.pin) s with
      pins := Function.update s.pins b.pin (!s.pins b.pin),
      taskPc := TaskPc.transmitAndReceive }
  | TaskPc.muteLine => s
  | TaskPc.muteHp => s

end F446re

namespace F722

/-- One statement of `ExecPlatform()` (lines 133-168), at the program point `s.execPc`. A
`Wait()` that blocks leaves the state as it is. -/
def ExecPlatform (s : Sys) : Sys :=
  match s.execPc with
  | ExecPc.taskStart =>
    withPtr s.platform.audio_task s fun _ =>
    { emit Event.taskStart s with taskRunning := true, execPc := ExecPc.wait }
  | ExecPc.wait =>
    withPtr s.platform.codec_ready s fun g =>
    match g.Wait with
    | none => s
    | some g2 =>
      { emit Event.syncWait s with
        platform := { s.platform with codec_ready := some g2 }, execPc := ExecPc.sleep30 }
  | ExecPc.sleep30 => { emit (Event.sleep 30) s with execPc := ExecPc.muteLine }
  | ExecPc.muteLine =>
    withPtr s.platform.codec s fun _ =>
    { emit (Event.mute CodecChannel.kccLineInput false) s with execPc := ExecPc.muteHp }
  | ExecPc.muteHp =>
    withPtr s.platform.codec s fun _ =>
    { emit (Event.mute CodecChannel.kccHeadphoneOutput false) s with execPc := ExecPc.hello }
  | ExecPc.hello =>
    withPtr s.platform.debugger s fun _ =>
    { emit (Event.printf "Hello %d \n" [PrintfArg.int s.count]) s with
      count := incrementInt s.count, execPc := ExecPc.sleep500 }
  | ExecPc.sleep500 => { emit (Event.sleep 500) s with execPc := ExecPc.hello }
  | ExecPc.ledClear => s
  | ExecPc.ledSet => s

/-- The program point at which `ExecPlatform()` starts (after `int count = 0;`). -/
def execEntry : ExecPc := ExecPc.taskStart

/-- One statement of `TaskBodyFunction()` (lines 180-238), at the program point `s.taskPc`. -/
def TaskBodyFunction (w : World) (s : Sys) : Sys :=
  match s.taskPc with
  | TaskPc.entry =>
    match zeroFill (newFloatArray AUDIO_CHANNEL_LEN (w.garbage 0),
        newFloatArray AUDIO_CHANNEL_LEN (w.garbage 1)) with
    | none => crash s
    | some (l, r) =>
      { s with
        tx_left := l, tx_right := r,
        rx_left := newFloatArray AUDIO_CHANNEL_LEN (w.garbage 2),
        rx_right := newFloatArray AUDIO_CHANNEL_LEN (w.garbage 3),
        taskPc := TaskPc.codecStart }
  | TaskPc.codecStart =>
    withPtr s.platform.codec s fun _ =>
    { emit Event.codecStart s with taskPc := TaskPc.gainLine }
  | TaskPc.gainLine =>
    withPtr s.platform.codec s fun _ =>
    { emit (Event.setGain CodecChannel.kccLineInput 0 0) s with taskPc := TaskPc.gainHp }
  | TaskPc.gainHp =>
    withPtr s.platform.codec s fun _ =>
    { emit (Event.setGain CodecChannel.kccHeadphoneOutput 0 0) s with taskPc := TaskPc.release }
  | TaskPc.release =>
    withPtr s.platform.codec_ready s fun g =>
    { emit Event.syncRelease s with
      platform := { s.platform with codec_ready := some g.Release }, taskPc := TaskPc.ledClear }
  | TaskPc.ledClear =>
    withPtr s.platform.led_st0 s fun b =>
    { emit (Event.ledClear b.pin) s with
      pins := Function.update s.pins b.pin false, taskPc := TaskPc.ledSet }
  | TaskPc.ledSet =>
    withPtr s.platform.led_st1 s fun b =>
    { emit (Event.ledSet b.pin) s with
      pins := Function.update s.pins b.pin true, taskPc := TaskPc.transmitAndReceive }
  | TaskPc.transmitAndReceive =>
    withPtr s.platform.audio s fun d =>
    match d.TransmitAndReceive (w.input s.received) s.tx_left s.tx_right s.rx_left s.rx_right with
    | none => crash s
    | some (l, r) =>
      { emit (Event.transmitAndReceive s.tx_left s.tx_right) s with
        rx_left := l, rx_right := r, received := s.received + 1, taskPc := TaskPc.copy }
  | TaskPc.copy =>
    match talkThrough s.rx_left s.rx_right (s.tx_left, s.tx_right) with
    | none => crash s
    | some (l, r) => { s with tx_left := l, tx_right := r, taskPc := TaskPc.toggle0 }
  | TaskPc.toggle0 =>
    withPtr s.platform.led_st0 s fun b =>
    { emit (Event.ledToggle b.pin) s with
      pins := Function.update s.pins b.pin (!s.pins b.pin), taskPc := TaskPc.toggle1 }
  | TaskPc.toggle1 =>
    withPtr s.platform.led_st1 s fun b =>
    { emit (Event.ledToggle b.pin) s with
      pins := Function.update s.pins b.pin (!s.pins b.pin),
      taskPc := TaskPc.transmitAndReceive }
  | TaskPc.muteLine => s
  | TaskPc.muteHp => s

end F722

namespace H743

/-- One statement of `ExecPlatform()` (lines 131-159), at the program point `s.execPc`. -/
def ExecPlatform (s : Sys) : Sys :=
  match s.execPc with
  | ExecPc.ledClear =>
    withPtr s.platform.led_st0 s fun b =>
    { emit (Event.ledClear b.pin) s with
      pins := Function.update s.pins b.pin false, execPc := ExecPc.ledSet }
  | ExecPc.ledSet =>
    withPtr s.platform.led_st1 s fun b =>
    { emit (Event.ledSet b.pin) s with
      pins := Function.update s.pins b.pin true, execPc := ExecPc.taskStart }
  | ExecPc.taskStart =>
    withPtr s.platform.audio_task s fun _ =>
    { emit Event.taskStart s with taskRunning := true, execPc := ExecPc.hello }
  | ExecPc.hello =>
    withPtr s.platform.debugger s fun _ =>
    { emit (Event.printf "Hello %d \n" [PrintfArg.int s.count]) s with
      count := incrementInt s.count, execPc := ExecPc.sleep500 }
  | ExecPc.sleep500 => { emit (Event.sleep 500) s with execPc := ExecPc.hello }
  | ExecPc.wait => s
  | ExecPc.sleep30 => s
  | ExecPc.muteLine => s
  | ExecPc.muteHp => s

/-- The program point at which `ExecPlatform()` starts (after `int count = 0;`). -/
def execEntry : ExecPc := ExecPc.ledClear

/-- One statement of `TaskBodyFunction()` (lines 613-668), at the program point
`s.taskPc`. -/
def TaskBodyFunction (w : World) (s : Sys) : Sys :=
  match s.taskPc with
  | TaskPc.entry =>
    match zeroFill (newFloatArray AUDIO_CHANNEL_LEN (w.garbage 0),
        newFloatArray AUDIO_CHANNEL_LEN (w.garbage 1)) with
    | none => crash s
    | some (l, r) =>
      { s with
        tx_left := l, tx_right := r,
        rx_left := newFloatArray AUDIO_CHANNEL_LEN (w.garbage 2),
        rx_right := newFloatArray AUDIO_CHANNEL_LEN (w.garbage 3),
        taskPc := TaskPc.codecStart }
  | TaskPc.codecStart =>
    withPtr s.platform.codec s fun _ =>
    { emit Event.codecStart s with taskPc := TaskPc.gainLine }
  | TaskPc.gainLine =>
    withPtr s.platform.codec s fun _ =>
    { emit (Event.setGain CodecChannel.kccLineInput 0 0) s with taskPc := TaskPc.gainHp }
  | TaskPc.gainHp =>
    withPtr s.platform.codec s fun _ =>
    { emit (Event.setGain CodecChannel.kccHeadphoneOutput 0 0) s with taskPc := TaskPc.muteLine }
  | TaskPc.muteLine =>
    withPtr s.platform.codec s fun _ =>
    { emit (Event.mute CodecChannel.kccLineInput false) s with taskPc := TaskPc.muteHp }
  | TaskPc.muteHp =>
    withPtr s.platform.codec s fun _ =>
    { emit (Event.mute CodecChannel.kccHeadphoneOutput false) s with
      taskPc := TaskPc.transmitAndReceive }
  | TaskPc.transmitAndReceive =>
    withPtr s.platform.audio s fun d =>
    match d.TransmitAndReceive (w.input s.received) s.tx_left s.tx_right s.rx_left s.rx_right with
    | none => crash s
    | some (l, r) =>
      { emit (Event.transmitAndReceive s.tx_left s.tx_right) s with
        rx_left := l, rx_right := r, received := s.received + 1, taskPc := TaskPc.copy }
  | TaskPc.copy =>
    match talkThrough s.rx_left s.rx_right (s.tx_left, s.tx_right) with
    | none => crash s
    | some (l, r) => { s with tx_left := l, tx_right := r, taskPc := TaskPc.toggle0 }
  | TaskPc.toggle0 =>
    withPtr s.platform.led_st0 s fun b =>
    { emit (Event.ledToggle b.pin) s with
      pins := Function.update s.pins b.pin (!s.pins b.pin), taskPc := TaskPc.toggle1 }
  | TaskPc.toggle1 =>
    withPtr s.platform.led_st1 s fun b =>
    { emit (Event.ledToggle b.pin) s with
      pins := Function.update s.pins b.pin (!s.pins b.pin),
      taskPc := TaskPc.transmitAndReceive }
  | TaskPc.release => s
  | TaskPc.ledClear => s
  | TaskPc.ledSet => s

end H743

/-- The three board files. -/
inductive Variant
  | f446re | f722 | h743
  deriving DecidableEq, Repr

/-- Function `InitPlatform` of a board file. -/
def Variant.InitPlatform : Variant → Linkage → Heap → InitResult
  | f446re => F446re.InitPlatform
  | f722 => F722.InitPlatform
  | h743 => H743.InitPlatform

/-- Function `ExecPlatform` of a board file, statement by statement. -/
def Variant.ExecPlatform : Variant → Sys → Sys
  | f446re => F446re.ExecPlatform
  | f722 => F722.ExecPlatform
  | h743 => H743.ExecPlatform

/-- Function `TaskBodyFunction` of a board file, statement by statement. -/
def Variant.TaskBodyFunction : Variant → World → Sys → Sys
  | f446re => F446re.TaskBodyFunction
  | f722 => F722.TaskBodyFunction
  | h743 => H743.TaskBodyFunction

/-- Where `ExecPlatform` of a board file starts. -/
def Variant.execEntry : Variant → ExecPc
  | f446re => F446re.execEntry
  | f722 => F722.execEntry
  | h743 => H743.execEntry

/-- Whether a board file uses the readiness gate `codec_ready`. -/
def Variant.usesGate : Variant → Bool
  | f446re => true
  | f722 => true
  | h743 => false

/-- The two threads of control: `ExecPlatform`, run by the default task, and the audio
task, which runs `TaskBodyFunction` once `audio_task->Start()` has been called. -/
inductive Tid
  | exec
  | audio
  deriving DecidableEq, Repr

/-- The system when `ExecPlatform` is entered: the platform as bring-up left it, the GPIO
outputs in some state, the audio task not yet started, nothing called yet. -/
def boot (v : Variant) (p : Platform) (pins : Pin → Bool) : Sys :=
  { platform := p, execPc := v.execEntry, count := 0, taskRunning := false,
    taskPc := TaskPc.entry, tx_left := [], tx_right := [], rx_left := [], rx_right := [],
    received := 0, pins := pins, crashed := false, trace := [] }

/-- The scheduler gives the processor to thread `t` for one statement. A crashed system
and a task that was not started do nothing. -/
def step (v : Variant) (w : World) (s : Sys) (t : Tid) : Sys :=
  if s.crashed then s
  else
    match t with
    | Tid.exec => v.ExecPlatform s
    | Tid.audio => if s.taskRunning then v.TaskBodyFunction w s else s

/-- A run under a schedule: the threads take their statements in the order the schedule
lists them. Every interleaving of the two threads is the run of some schedule. -/
def run (v : Variant) (w : World) (sched : List Tid) (s : Sys) : Sys :=
  sched.foldl (step v w) s

/-- The content of a world used for concrete runs: the transport returns a ramp, and
fresh memory holds a pattern. -/
def demoWorld : World :=
  { input := fun n => ⟨fun i => 1000 * n + i, fun i => 1000 * n + 500 + i⟩
    garbage := fun b i => 7 * b + i + 1 }

/-- GPIO outputs all low. -/
def pinsLow : Pin → Bool := fun _ => false

/-! ## Properties of traces -/

/-- Codec configuration is complete in a trace: `Start` and both `SetGain` calls are in
it. -/
def Configured (tr : List Event) : Prop :=
  Event.codecStart ∈ tr ∧ Event.setGain CodecChannel.kccLineInput 0 0 ∈ tr ∧
    Event.setGain CodecChannel.kccHeadphoneOutput 0 0 ∈ tr

/-- An unmute call: `Mute(channel, false)`. -/
def isUnmute : Event → Bool
  | Event.mute _ false => true
  | _ => false

/-- Every event of the trace that `trig` selects comes after a part of the trace that
satisfies `req`. -/
def PrecededBy (trig : Event → Bool) (req : List Event → Prop) (tr : List Event) : Prop :=
  ∀ (i : Nat) (e : Event), tr[i]? = some e → trig e = true → req (tr.take i)

/-- The return of `codec_ready->Wait()`. -/
def isWait : Event → Bool
  | Event.syncWait => true
  | _ => false

/-- The call `codec_ready->Release()`. -/
def isRelease : Event → Bool
  | Event.syncRelease => true
  | _ => false

/-- What holds of every state a board file with the readiness gate reaches: the trace
records how far the audio task has come with the codec, the gate is released only after
the codec configuration, `ExecPlatform` is past `Wait()` only after the gate was released,
and the order properties of the trace. -/
structure GatedInv (s : Sys) : Prop where
  gainLine : s.taskPc = TaskPc.gainLine → Event.codecStart ∈ s.trace
  gainHp : s.taskPc = TaskPc.gainHp →
    Event.codecStart ∈ s.trace ∧ Event.setGain CodecChannel.kccLineInput 0 0 ∈ s.trace
  release : s.taskPc = TaskPc.release → Configured s.trace
  gate : s.platform.codec_ready = some ⟨true⟩ →
    Configured s.trace ∧ Event.syncRelease ∈ s.trace
  waited : s.execPc = ExecPc.sleep30 ∨ s.execPc = ExecPc.muteLine ∨ s.execPc = ExecPc.muteHp →
    Configured s.trace ∧ Event.syncWait ∈ s.trace
  unmuteCfg : PrecededBy isUnmute Configured s.trace
  unmuteWait : PrecededBy isUnmute (fun pre => Event.syncWait ∈ pre) s.trace
  releaseCfg : PrecededBy isRelease Configured s.trace
  waitRelease : PrecededBy isWait (fun pre => Event.syncRelease ∈ pre) s.trace

/-- The platform the f446re bring-up builds from a linkage (all twelve `new` succeed). -/
def F446re.readyPlatform (addr : Linkage) : Platform :=
  { uart_console := some ⟨addr HalSymbol.huart2⟩
    logger := some ⟨⟨addr HalSymbol.huart2⟩⟩
    debugger := some ⟨⟨⟨addr HalSymbol.huart2⟩⟩, true⟩
    led := some ⟨Pin.LD2⟩
    led_st0 := some ⟨Pin.LED1⟩
    led_st1 := some ⟨Pin.LED2⟩
    i2c_master := some ⟨addr HalSymbol.hi2c1⟩
    codec := some ⟨48000, 12000000, ⟨addr HalSymbol.hi2c1⟩, CODEC_I2C_DEVICE_ADDR⟩
    audio_port := some ⟨addr HalSymbol.hi2s2, addr HalSymbol.hi2s3⟩
    audio := some ⟨⟨addr HalSymbol.hi2s2, addr HalSymbol.hi2s3⟩, AUDIO_CHANNEL_LEN⟩
    audio_task := some ⟨"Audio Task", 256⟩
    codec_ready := some ⟨false⟩ }

/-- The platform the f722 bring-up builds from a linkage (all twelve `new` succeed). -/
def F722.readyPlatform (addr : Linkage) : Platform :=
  { uart_console := some ⟨addr HalSymbol.huart3⟩
    logger := some ⟨⟨addr HalSymbol.huart3⟩⟩
    debugger := some ⟨⟨⟨addr HalSymbol.huart3⟩⟩, true⟩
    led := some ⟨Pin.LD2⟩
    led_st0 := some ⟨Pin.ST0⟩
    led_st1 := some ⟨Pin.ST1⟩
    i2c_master := some ⟨addr HalSymbol.hi2c1⟩
    codec := some ⟨48000, 12000000, ⟨addr HalSymbol.hi2c1⟩, CODEC_I2C_DEVICE_ADDR⟩
    audio_port := some ⟨addr HalSymbol.hi2s1, addr HalSymbol.hi2s2⟩
    audio := some ⟨⟨addr HalSymbol.hi2s1, addr HalSymbol.hi2s2⟩, AUDIO_CHANNEL_LEN⟩
    audio_task := some ⟨"Audio Task", 256⟩
    codec_ready := some ⟨false⟩ }

/-- The platform a board file builds when every allocation succeeds. -/
def Variant.readyPlatform : Variant → Linkage → Platform
  | f446re => F446re.readyPlatform
  | f722 => F722.readyPlatform
  | h743 => H743.readyPlatform

/-- What holds of every state the h743 board file reaches: the trace records how far
the audio task has come with the codec, and every unmute call comes after the codec
configuration. -/
structure UngatedInv (s : Sys) : Prop where
  gainLine : s.taskPc = TaskPc.gainLine → Event.codecStart ∈ s.trace
  gainHp : s.taskPc = TaskPc.gainHp →
    Event.codecStart ∈ s.trace ∧ Event.setGain CodecChannel.kccLineInput 0 0 ∈ s.trace
  unmute : s.taskPc = TaskPc.muteLine ∨ s.taskPc = TaskPc.muteHp → Configured s.trace
  unmuteCfg : PrecededBy isUnmute Configured s.trace

/-- A schedule used for concrete runs: `ExecPlatform` starts the audio task and reaches
`Wait()` before the task has configured the codec; the task then runs up to its loop and
`ExecPlatform` up to its loop. -/
def demoSchedule : List Tid :=
  [Tid.audio, Tid.exec, Tid.exec, Tid.audio, Tid.audio, Tid.exec, Tid.audio, Tid.audio,
    Tid.audio, Tid.exec, Tid.exec, Tid.exec, Tid.exec, Tid.exec, Tid.audio, Tid.audio]

/-- The left channel of a block as an array of `AUDIO_CHANNEL_LEN` samples. -/
def Block.leftSamples (blk : Block) : List Sample := (List.range AUDIO_CHANNEL_LEN).map blk.left

/-- The right channel of a block as an array of `AUDIO_CHANNEL_LEN` samples. -/
def Block.rightSamples (blk : Block) : List Sample :=
  (List.range AUDIO_CHANNEL_LEN).map blk.right

/-- The state a concrete run of the f446re board file reaches: the audio task is at
the top of its loop. -/
def demoLoopState : Sys :=
  run Variant.f446re demoWorld demoSchedule
    (boot Variant.f446re (F446re.readyPlatform demoLinkage) pinsLow)

/-! ## Fault capture: registers and trampoline -/

/-- Whether a call on the debugger prints one word of the machine (a line of the fault
record that shows a register). -/
def DebuggerCall.printsWord : DebuggerCall → Bool
  | DebuggerCall.Printf _ [PrintfArg.word _] => true
  | _ => false

/-- The memory-mapped registers of the System Control Block that describe a fault, in
the order the record shows them: the four fault status registers, then the two fault
address registers. -/
def faultRegisters : List (String × Nat) :=
  [("CFSR", 0xE000ED28), ("HFSR", 0xE000ED2C), ("DFSR", 0xE000ED30), ("AFSR", 0xE000ED3C),
    ("MMAR", 0xE000ED34), ("BFAR", 0xE000ED38)]

/-- The line that shows a memory-mapped register: its name after seven blanks, then the
value as eight hexadecimal digits. -/
def registerLine (name : String) (v : Nat) : DebuggerCall :=
  DebuggerCall.Printf ("       " ++ name ++ " : 0x%08X \n") [PrintfArg.word v]

/-- A memory in which every word holds its own address: a printed word shows which
address was read. -/
def addressMemory : Memory := fun a => a

/-- A memory of zeros. -/
def zeroMemory : Memory := fun _ => 0

/-- A memory of zeros but for the register CFSR, which holds 1. -/
def cfsrMemory : Memory := fun a => if a = 0xE000ED28 then 1 else 0

/-- A memory of zeros but for one word of SRAM outside the stack frame used in
concrete runs. -/
def sramMemory : Memory := fun a => if a = 0x20000000 then 1 else 0

namespace H743

/-- The fault trampoline `CustomDefaultHandler` (lines 540-555), instruction by
instruction on 32 bit registers; `lr`, `psp` and `msp` are the link register and the two
stack pointers on entry. The result is the run of `PrintFaultResult`, entered with `r0`
as its argument. -/
def CustomDefaultHandler (mem : Memory) (lr psp msp : Nat) : List DebuggerCall :=
  -- movs r0,#4
  let r0 := 4
  -- movs r1, lr
  let r1 := lr % 2 ^ 32
  -- tst r0, r1
  let z := (r0 &&& r1) == 0
  -- beq _MSP ; mrs r0, psp ; b _HALT ; _MSP: mrs r0, msp
  let r0 := if z then msp % 2 ^ 32 else psp % 2 ^ 32
  -- _HALT: ldr r1,[r0,#20]
  let _r1 := loadWord mem (r0 + 20)
  -- b PrintFaultResult
  PrintFaultResult mem r0

end H743

/-! ## Assertion and stack overflow hooks (h743 board file) -/

namespace H743

end H743

/-! ## Shape of a failed bring-up -/

/-- The three objects whose allocation `InitPlatform` guards with a `while` loop. -/
def Obj.guardedBySpin : Obj → Bool
  | Obj.uart_console => true
  | Obj.logger => true
  | Obj.debugger => true
  | _ => false

/-- How bring-up may end under a heap: it completes, or it spins on one of the three
first objects whose allocation failed, or an assertion fails on a later object whose
allocation failed. -/
def FailureShape (heap : Heap) : InitResult → Prop
  | InitResult.completed _ => True
  | InitResult.spin o _ => heap o = false ∧ o.guardedBySpin = true
  | InitResult.assertFailed o _ => heap o = false ∧ o.guardedBySpin = false

/-- A heap that fails the allocation of the console UART and serves every other one. -/
def noConsoleHeap : Heap := fun o => decide (o ≠ Obj.uart_console)

/-- A heap that fails the allocation of the codec and serves every other one. -/
def noCodecHeap : Heap := fun o => decide (o ≠ Obj.codec)

/-! ## Ownership of handles -/

/-- Whether a driver instance owns a handle: the console and the I2C master own the
handle they were constructed over, the transport owns the TX and the RX handle of its
audio port. -/
def Receiver.owns : Receiver → Handle → Bool
  | Receiver.uart d, h => decide (h = d.handle)
  | Receiver.i2c d, h => decide (h = d.handle)
  | Receiver.audio d, h => decide (h = d.port.tx) || decide (h = d.port.rx)

/-- The driver instances of a platform that serve interrupts, as far as bring-up
created them. -/
def Platform.receivers (p : Platform) : List Receiver :=
  (p.uart_console.map Receiver.uart).toList ++ (p.i2c_master.map Receiver.i2c).toList ++
    (p.audio.map Receiver.audio).toList

/-- The handles bound to driver instances by bring-up: console, I2C master, and the TX
and RX side of the audio port. -/
def Platform.boundHandles (p : Platform) : List Handle :=
  (p.uart_console.map fun d => d.handle).toList ++
    (p.i2c_master.map fun d => d.handle).toList ++
    (p.audio_port.map fun d => [d.tx, d.rx]).getD []

/-! ## Invariants of the audio buffers -/

/-- An array of `AUDIO_CHANNEL_LEN` samples `0.0`. -/
def zeroBlock : List Sample := List.replicate AUDIO_CHANNEL_LEN 0

/-- The transmit arrays handed over by a `TransmitAndReceive` call. -/
def Event.transmitted : Event → Option (List Sample × List Sample)
  | Event.transmitAndReceive l r => some (l, r)
  | _ => none

/-- The transmit arrays of the first `TransmitAndReceive` call of a trace, when there is
one. -/
def firstTransmit (tr : List Event) : Option (List Sample × List Sample) :=
  tr.findSome? Event.transmitted

/-- What holds of every state reached after a completed bring-up: the run has not
stopped on a null pointer or an access outside an array, the pointers the statements
use are the ones bring-up stored, and once allocated the four arrays of the audio task
have `AUDIO_CHANNEL_LEN` samples, as have the arrays of every `TransmitAndReceive` call
made. -/
structure SoundInv (v : Variant) (addr : Linkage) (s : Sys) : Prop where
  running : s.crashed = false
  audio_task : s.platform.audio_task = (v.readyPlatform addr).audio_task
  codec : s.platform.codec = (v.readyPlatform addr).codec
  debugger : s.platform.debugger = (v.readyPlatform addr).debugger
  led_st0 : s.platform.led_st0 = (v.readyPlatform addr).led_st0
  led_st1 : s.platform.led_st1 = (v.readyPlatform addr).led_st1
  audio : s.platform.audio = (v.readyPlatform addr).audio
  gate : v.usesGate = true → s.platform.codec_ready ≠ none
  buffers : s.taskPc ≠ TaskPc.entry →
    s.tx_left.length = AUDIO_CHANNEL_LEN ∧ s.tx_right.length = AUDIO_CHANNEL_LEN ∧
      s.rx_left.length = AUDIO_CHANNEL_LEN ∧ s.rx_right.length = AUDIO_CHANNEL_LEN
  transmitted : ∀ l r, Event.transmitAndReceive l r ∈ s.trace →
    l.length = AUDIO_CHANNEL_LEN ∧ r.length = AUDIO_CHANNEL_LEN

/-- What holds of every state as to the first block: until the first
`TransmitAndReceive` call both transmit arrays, once filled, hold zeros, and the first
call recorded in the trace was made with two arrays of zeros. -/
structure ZeroInv (s : Sys) : Prop where
  none_yet : s.received = 0 → firstTransmit s.trace = none
  zeros : s.received = 0 → s.taskPc ≠ TaskPc.entry →
    s.tx_left = zeroBlock ∧ s.tx_right = zeroBlock
  first : s.received ≠ 0 → firstTransmit s.trace = some (zeroBlock, zeroBlock)
  inLoop : s.taskPc = TaskPc.copy ∨ s.taskPc = TaskPc.toggle0 ∨ s.taskPc = TaskPc.toggle1 →
    s.received ≠ 0

/-! ## The startup protocol -/

/-- An operation on the readiness gate. -/
def isGateOp : Event → Bool
  | Event.syncWait => true
  | Event.syncRelease => true
  | _ => false

/-- An operation of the startup protocol: on the readiness gate or on the codec. -/
def isProtocol : Event → Bool
  | Event.codecStart => true
  | Event.setGain _ _ _ => true
  | Event.mute _ _ => true
  | Event.syncWait => true
  | Event.syncRelease => true
  | _ => false

/-- A schedule that lets the audio task of the concrete runs make its first two
`TransmitAndReceive` calls. -/
def demoLoopSchedule : List Tid :=
  demoSchedule ++ [Tid.audio, Tid.audio, Tid.audio, Tid.audio, Tid.audio]

/-! ## The stream of transmitted blocks -/

/-- The transmit arrays of the `TransmitAndReceive` calls of a trace, call after call. -/
def transmits (tr : List Event) : List (List Sample × List Sample) :=
  tr.filterMap Event.transmitted

/-- The stream a talk-through with a delay of one block transmits: zeros at the first
call (call 0), and at call `n + 1` the block that call `n` returned. -/
def expectedTransmit (w : World) : Nat → List Sample × List Sample
  | 0 => (zeroBlock, zeroBlock)
  | n + 1 => ((w.input n).leftSamples, (w.input n).rightSamples)

/-- What holds of every state as to the stream of blocks: the calls made so far
transmitted the expected stream, the block just returned is the next one to transmit,
and after the copy the transmit arrays hold it. -/
structure StreamInv (w : World) (s : Sys) : Prop where
  stream : transmits s.trace = (List.range s.received).map (expectedTransmit w)
  atCopy : s.taskPc = TaskPc.copy →
    (s.rx_left, s.rx_right) = expectedTransmit w s.received
  atLoop : s.taskPc = TaskPc.toggle0 ∨ s.taskPc = TaskPc.toggle1 ∨
      s.taskPc = TaskPc.transmitAndReceive →
    (s.tx_left, s.tx_right) = expectedTransmit w s.received
  preLoop : s.received ≠ 0 →
    s.taskPc = TaskPc.transmitAndReceive ∨ s.taskPc = TaskPc.copy ∨
      s.taskPc = TaskPc.toggle0 ∨ s.taskPc = TaskPc.toggle1

/-! ## Entry points with an empty body (h743 board file) -/

namespace H743

/-- Function `HAL_SPI_TxRxCpltCallback` (lines 253-260): the polling statement is
under `#if 0`, the body is empty. -/
def HAL_SPI_TxRxCpltCallback (_p : Platform) (_env : Env) (_hspi : Handle) : Outcome := ret

/-- Function `HAL_SPI_ErrorCallback` (lines 277-284): the polling statement is
under `#if 0`, the body is empty. -/
def HAL_SPI_ErrorCallback (_p : Platform) (_env : Env) (_hspi : Handle) : Outcome := ret

/-- Function `HAL_I2C_SlaveTxCpltCallback` (lines 354-362): the polling statement is
under `#if 0`, the body is empty. -/
def HAL_I2C_SlaveTxCpltCallback (_p : Platform) (_env : Env) (_hi2c : Handle) : Outcome := ret

/-- Function `HAL_I2C_SlaveRxCpltCallback` (lines 378-385): the polling statement is
under `#if 0`, the body is empty. -/
def HAL_I2C_SlaveRxCpltCallback (_p : Platform) (_env : Env) (_hi2c : Handle) : Outcome := ret

/-- The four interrupt entry points of lines 178-458 that invoke no driver. -/
inductive IdleEntryPoint
  | spiTxRxCplt | spiError | i2cSlaveTxCplt | i2cSlaveRxCplt
  deriving DecidableEq, Repr

/-- The function the HAL runs for each of them. -/
def IdleEntryPoint.run : IdleEntryPoint → Platform → Env → Handle → Outcome
  | spiTxRxCplt => HAL_SPI_TxRxCpltCallback
  | spiError => HAL_SPI_ErrorCallback
  | i2cSlaveTxCplt => HAL_I2C_SlaveTxCpltCallback
  | i2cSlaveRxCplt => HAL_I2C_SlaveRxCpltCallback

end H743

/-- An environment in which every handler declines the event. -/
def declineEnv : Env := fun _ => HandlerResult.returns false

/-! ## The status LEDs -/

/-- The number of `Toggle()` calls on the `BitOut` of a pin in a trace. -/
def toggles (pin : Pin) (tr : List Event) : Nat := tr.count (Event.ledToggle pin)

/-- Whether a program point of `TaskBodyFunction` lies in the `while (true)` loop. -/
def TaskPc.inLoop : TaskPc → Bool
  | TaskPc.transmitAndReceive => true
  | TaskPc.copy => true
  | TaskPc.toggle0 => true
  | TaskPc.toggle1 => true
  | _ => false

/-- How many of the two `Toggle()` calls of the current iteration are still to come, for
`led_st0` and for `led_st1`, once `TransmitAndReceive` of that iteration has returned. -/
def TaskPc.pendingToggles : TaskPc → Nat × Nat
  | TaskPc.copy => (1, 1)
  | TaskPc.toggle0 => (1, 1)
  | TaskPc.toggle1 => (0, 1)
  | _ => (0, 0)

/-- The levels of `led_st0` and of `led_st1` at a program point of the task when `n`
calls of `TransmitAndReceive` have returned: `led_st0` is high after an odd number of
completed iterations, `led_st1` after an even number. -/
def TaskPc.ledLevels : TaskPc → Nat → Bool × Bool
  | TaskPc.copy, n => (!Nat.bodd n, Nat.bodd n)
  | TaskPc.toggle0, n => (!Nat.bodd n, Nat.bodd n)
  | TaskPc.toggle1, n => (Nat.bodd n, Nat.bodd n)
  | _, n => (Nat.bodd n, !Nat.bodd n)

/-- The statement `led_st0->Clear()` of the board file is behind and `led_st1->Set()` is
next: in the task of the f446re and f722 board files, in `ExecPlatform` of the h743 board
file. -/
def Variant.ledsHalf (v : Variant) (s : Sys) : Prop :=
  match v with
  | Variant.h743 => s.execPc = ExecPc.ledSet
  | _ => s.taskPc = TaskPc.ledSet

/-- Both statements `led_st0->Clear()` and `led_st1->Set()` of the board file are
behind. -/
def Variant.ledsReady (v : Variant) (s : Sys) : Prop :=
  match v with
  | Variant.h743 => s.execPc ≠ ExecPc.ledClear ∧ s.execPc ≠ ExecPc.ledSet
  | _ => s.taskPc.inLoop = true

/-- What holds of every state as to the two status LEDs `b0` (`led_st0`) and `b1`
(`led_st1`): the task runs only after `ExecPlatform` has started it, the `Toggle()` calls
made so far are one per `TransmitAndReceive` call on each LED, less the ones still to
come in the current iteration, and once cleared and set the level of each output is
given by the parity of the `TransmitAndReceive` calls that have returned. -/
structure LedInv (v : Variant) (b0 b1 : BitOut) (s : Sys) : Prop where
  led0 : s.platform.led_st0 = some b0
  led1 : s.platform.led_st1 = some b1
  notStarted : s.execPc = ExecPc.ledClear ∨ s.execPc = ExecPc.ledSet ∨
    s.execPc = ExecPc.taskStart → s.taskRunning = false
  idle : s.taskRunning = false → s.taskPc = TaskPc.entry
  count0 : toggles b0.pin s.trace + s.taskPc.pendingToggles.1 = s.received
  count1 : toggles b1.pin s.trace + s.taskPc.pendingToggles.2 = s.received
  preLoop : s.taskPc.inLoop = false → s.received = 0
  half : v.ledsHalf s → s.pins b0.pin = false
  ready : v.ledsReady s → s.pins b0.pin = (s.taskPc.ledLevels s.received).1 ∧
    s.pins b1.pin = (s.taskPc.ledLevels s.received).2

/-- A schedule that takes the audio task of the concrete f446re run through one
iteration of its loop and back to the top. -/
def demoIterationSchedule : List Tid :=
  demoSchedule ++ [Tid.audio, Tid.audio, Tid.audio, Tid.audio]

/-- A schedule for the h743 board file: `ExecPlatform` clears and sets the LEDs and starts
the task, the task configures the codec and runs one iteration of its loop, back to the
top. -/
def h743IterationSchedule : List Tid :=
  [Tid.exec, Tid.exec, Tid.exec, Tid.audio, Tid.audio, Tid.audio, Tid.audio, Tid.audio,
    Tid.audio, Tid.exec, Tid.audio, Tid.audio, Tid.audio, Tid.audio]

/-! ## Correspondence of the f446re and the f722 board file -/

/-- The peripheral handle the f722 board file binds where the f446re board file binds
`x`: the console is `huart3` for `huart2` (`UART_PORT`), the audio port is
`hi2s1`, `hi2s2` for `hi2s2`, `hi2s3`; the I2C master is `hi2c1` in both. -/
def boardSymbol : HalSymbol → HalSymbol
  | HalSymbol.huart2 => HalSymbol.huart3
  | HalSymbol.hi2s2 => HalSymbol.hi2s1
  | HalSymbol.hi2s3 => HalSymbol.hi2s2
  | x => x

/-- The LED pin the f722 board file binds where the f446re board file binds `x`, and
back: `ST0`, `ST1` for `LED1`, `LED2`; `LD2` in both. -/
def boardPin : Pin → Pin
  | Pin.LED1 => Pin.ST0
  | Pin.LED2 => Pin.ST1
  | Pin.ST0 => Pin.LED1
  | Pin.ST1 => Pin.LED2
  | Pin.LD2 => Pin.LD2

/-- A platform with every peripheral handle replaced along `h` and every LED pin along
`r`; nothing else changes. -/
def Platform.rebind (h : Handle → Handle) (r : Pin → Pin) (p : Platform) : Platform :=
  { uart_console := p.uart_console.map fun d => ⟨h d.handle⟩
    logger := p.logger.map fun l => ⟨⟨h l.uart.handle⟩⟩
    debugger := p.debugger.map fun d => ⟨⟨⟨h d.logger.uart.handle⟩⟩, d.autoRePrint⟩
    led := p.led.map fun b => ⟨r b.pin⟩
    led_st0 := p.led_st0.map fun b => ⟨r b.pin⟩
    led_st1 := p.led_st1.map fun b => ⟨r b.pin⟩
    i2c_master := p.i2c_master.map fun d => ⟨h d.handle⟩
    codec := p.codec.map fun c =>
      ⟨c.fs, c.master_clock, ⟨h c.controller.handle⟩, c.i2c_device_addr⟩
    audio_port := p.audio_port.map fun a => ⟨h a.tx, h a.rx⟩
    audio := p.audio.map fun a => ⟨⟨h a.port.tx, h a.port.rx⟩, a.channel_len⟩
    audio_task := p.audio_task
    codec_ready := p.codec_ready }

/-- The result of a bring-up with handles and pins replaced. -/
def InitResult.rebind (h : Handle → Handle) (r : Pin → Pin) : InitResult → InitResult
  | InitResult.completed p => InitResult.completed (p.rebind h r)
  | InitResult.spin o p => InitResult.spin o (p.rebind h r)
  | InitResult.assertFailed o p => InitResult.assertFailed o (p.rebind h r)

/-- A call with the pin of an LED operation replaced along `r`; calls on the codec, the
gate, the transport and the console are left as they are, arguments included. -/
def Event.repin (r : Pin → Pin) : Event → Event
  | Event.ledClear p => Event.ledClear (r p)
  | Event.ledSet p => Event.ledSet (r p)
  | Event.ledToggle p => Event.ledToggle (r p)
  | e => e

/-- A state of the system seen on another board: handles and pins of the platform
replaced, the GPIO outputs read through `r`, the LED calls of the trace moved to the
pins of that board. -/
def Sys.rebind (h : Handle → Handle) (r : Pin → Pin) (s : Sys) : Sys :=
  { s with
    platform := s.platform.rebind h r, pins := s.pins ∘ r, trace := s.trace.map (Event.repin r) }

/-! ## Fault capture: status and address registers -/

/-- The four fault status registers of the System Control Block and their addresses:
the configurable, the hard, the debug and the auxiliary fault status register. -/
def faultStatusRegisters : List (String × Nat) :=
  [("CFSR", 0xE000ED28), ("HFSR", 0xE000ED2C), ("DFSR", 0xE000ED30), ("AFSR", 0xE000ED3C)]

/-- The two fault address registers of the System Control Block and their addresses, under
the names the record prints: the MemManage and the BusFault address register. -/
def faultAddressRegisters : List (String × Nat) :=
  [("MMAR", 0xE000ED34), ("BFAR", 0xE000ED38)]

/-- The register a line of the record names: the last word before the colon of the
format. -/
def registerName (fmt : String) : List Char :=
  ((((fmt.data.takeWhile fun c => c ≠ ':').reverse.dropWhile fun c => c = ' ').takeWhile
    fun c => c ≠ ' ')).reverse

/-- Whether a call on the debugger prints a fault status register: a word of the machine
under a register name that ends in `FSR`. -/
def DebuggerCall.showsFaultStatus : DebuggerCall → Bool
  | DebuggerCall.Printf fmt [PrintfArg.word _] =>
    decide ((registerName fmt).reverse.take 3 = ['R', 'S', 'F'])
  | _ => false

/-! ## Order of the allocations of bring-up -/

/-- The objects `InitPlatform` of a board file creates, in the order of the `new`
expressions. -/
def Variant.objects : Variant → List Obj
  | Variant.h743 =>
    [Obj.uart_console, Obj.logger, Obj.debugger, Obj.led, Obj.led_st0, Obj.led_st1,
      Obj.i2c_master, Obj.codec, Obj.audio_port, Obj.audio, Obj.audio_task]
  | _ =>
    [Obj.uart_console, Obj.logger, Obj.debugger, Obj.led, Obj.led_st0, Obj.led_st1,
      Obj.i2c_master, Obj.codec, Obj.audio_port, Obj.audio, Obj.audio_task, Obj.codec_ready]

/-- The first object of a list whose allocation fails under a heap. -/
def firstFailure (heap : Heap) (objs : List Obj) : Option Obj :=
  objs.find? fun o => !heap o

/-- How a bring-up that creates the objects `objs` in order ends under a heap: it
completes when every allocation succeeds; at the first allocation that fails it spins
when the object is guarded by a `while` loop, and fails the assertion otherwise. -/
def EndsAtFirstFailure (heap : Heap) (objs : List Obj) (r : InitResult) : Prop :=
  match firstFailure heap objs with
  | none => ∃ p, r = InitResult.completed p
  | some o =>
    ∃ p, r = if o.guardedBySpin then InitResult.spin o p else InitResult.assertFailed o p

/-- A heap that fails the allocation of the audio task and serves every other one. -/
def noTaskHeap : Heap := fun o => decide (o ≠ Obj.audio_task)

end Murasaki


namespace Murasaki

/-! ## Theorems -/

/-- A `new ... while (nullptr == ...)` step that lets bring-up complete succeeded. -/
theorem newOrSpin_completed {heap : Heap} {o : Obj} {p st q : Platform}
    {k : Platform → InitResult} (h : newOrSpin heap o p st k = InitResult.completed q) :
    heap o = true ∧ k st = InitResult.completed q := by
  unfold newOrSpin at h
  by_cases ho : heap o = true
  · rw [if_pos ho] at h
    exact ⟨ho, h⟩
  · rw [if_neg ho] at h
    cases h

/-- A `new ... MURASAKI_ASSERT` step that lets bring-up complete succeeded. -/
theorem newOrAssert_completed {heap : Heap} {o : Obj} {p st q : Platform}
    {k : Platform → InitResult} (h : newOrAssert heap o p st k = InitResult.completed q) :
    heap o = true ∧ k st = InitResult.completed q := by
  unfold newOrAssert at h
  by_cases ho : heap o = true
  · rw [if_pos ho] at h
    exact ⟨ho, h⟩
  · rw [if_neg ho] at h
    cases h

/-- The platform that `H743.InitPlatform` leaves when it returns. -/
theorem h743_InitPlatform_completed {addr : Linkage} {heap : Heap} {p : Platform}
    (h : H743.InitPlatform addr heap = InitResult.completed p) :
    p = H743.readyPlatform addr := by
  unfold H743.InitPlatform at h
  obtain ⟨-, h⟩ := newOrSpin_completed h
  obtain ⟨-, h⟩ := newOrSpin_completed h
  obtain ⟨-, h⟩ := newOrSpin_completed h
  obtain ⟨-, h⟩ := newOrAssert_completed h
  obtain ⟨-, h⟩ := newOrAssert_completed h
  obtain ⟨-, h⟩ := newOrAssert_completed h
  obtain ⟨-, h⟩ := newOrAssert_completed h
  obtain ⟨-, h⟩ := newOrAssert_completed h
  obtain ⟨-, h⟩ := newOrAssert_completed h
  obtain ⟨-, h⟩ := newOrAssert_completed h
  obtain ⟨-, h⟩ := newOrAssert_completed h
  injection h with h
  exact h.symm

/-- When every allocation succeeds, `H743.InitPlatform` returns. -/
theorem h743_InitPlatform_allocated (addr : Linkage) :
    H743.InitPlatform addr (fun _ => true) = InitResult.completed (H743.readyPlatform addr) :=
  rfl

/-- What each h743 entry point does on the platform bring-up leaves. -/
theorem h743_entry_readyPlatform (addr : Linkage) (e : H743.EntryPoint) (env : Env) (h : Handle) :
    ∃ d, H743.Peripheral.driver (H743.readyPlatform addr) e.peripheral = some d ∧
      e.run (H743.readyPlatform addr) env h =
        invoke env ⟨d, e.category.method, h⟩ fun hit => if hit then ret else ret := by
  cases e <;> exact ⟨_, rfl, rfl⟩

/-- An invocation whose continuation invokes nothing is the only invocation. -/
theorem invoke_ret_calls (env : Env) (c : Call) :
    (invoke env c fun hit => if hit then ret else ret).calls = [c] := by
  unfold invoke
  cases env c with
  | returns b => cases b <;> rfl
  | fatal => rfl

/-- Claim C1. After bring-up of the h743 board has completed, every one of the nine
interrupt entry points, for every handle `h` and whatever the library handlers answer,
invokes exactly one member function: the one of its event category, on the one driver
instance of its peripheral class, with `h` unchanged. The list of invocations has that
single element, so no other instance is invoked and none is invoked twice. -/
theorem C1_entry_point_invokes_one_handler (addr : Linkage) (heap : Heap) (p : Platform)
    (hinit : H743.InitPlatform addr heap = InitResult.completed p)
    (e : H743.EntryPoint) (env : Env) (h : Handle) :
    ∃ d, H743.Peripheral.driver p e.peripheral = some d ∧
      (e.run p env h).calls = [⟨d, e.category.method, h⟩] := by
  rw [h743_InitPlatform_completed hinit]
  obtain ⟨d, hd, hrun⟩ := h743_entry_readyPlatform addr e env h
  exact ⟨d, hd, by rw [hrun, invoke_ret_calls]⟩

/-- Claim C1 at a concrete bring-up: all allocations succeed, and the SAI receive
complete interrupt arrives with the RX handle. -/
theorem C1_entry_point_invokes_one_handler_witness :
    H743.InitPlatform demoLinkage (fun _ => true) =
        InitResult.completed (H743.readyPlatform demoLinkage) ∧
      ∃ d, H743.Peripheral.driver (H743.readyPlatform demoLinkage)
            H743.EntryPoint.saiRxCplt.peripheral = some d ∧
        (H743.EntryPoint.saiRxCplt.run (H743.readyPlatform demoLinkage)
            (fun _ => HandlerResult.returns false) (demoLinkage HalSymbol.hsai_BlockA1)).calls =
          [⟨d, H743.EntryPoint.saiRxCplt.category.method, demoLinkage HalSymbol.hsai_BlockA1⟩] :=
  ⟨rfl, C1_entry_point_invokes_one_handler demoLinkage (fun _ => true) _ rfl
    H743.EntryPoint.saiRxCplt (fun _ => HandlerResult.returns false) _⟩

/-- Claim C2. After bring-up of the h743 board has completed, when the driver instance
an entry point probes does not claim the handle (its handler returns false), the entry
point returns to its caller: it ends neither in the fatal path nor anywhere else, and its
whole observable behaviour is the one it has when the handler claims the event. -/
theorem C2_unclaimed_event_returns (addr : Linkage) (heap : Heap) (p : Platform)
    (hinit : H743.InitPlatform addr heap = InitResult.completed p)
    (e : H743.EntryPoint) (env : Env) (h : Handle) (d : Receiver)
    (hd : H743.Peripheral.driver p e.peripheral = some d)
    (hmiss : env ⟨d, e.category.method, h⟩ = HandlerResult.returns false) :
    (e.run p env h).exit = Exit.returned ∧
      ∀ env2 : Env, env2 ⟨d, e.category.method, h⟩ = HandlerResult.returns true →
        e.run p env2 h = e.run p env h := by
  rw [h743_InitPlatform_completed hinit] at hd ⊢
  obtain ⟨d2, hd2, hrun⟩ := h743_entry_readyPlatform addr e env h
  have hdd : d2 = d := Option.some.inj (hd2.symm.trans hd)
  subst hdd
  refine ⟨by rw [hrun]; simp [invoke, hmiss, ret], fun env2 hclaim => ?_⟩
  obtain ⟨d3, hd3, hrun3⟩ := h743_entry_readyPlatform addr e env2 h
  have hdd : d3 = d2 := Option.some.inj (hd3.symm.trans hd)
  subst hdd
  rw [hrun, hrun3]
  simp [invoke, hmiss, hclaim, ret]

/-- Claim C2 at a concrete run: a UART transmit complete interrupt for a handle the
console does not own. -/
theorem C2_unclaimed_event_returns_witness :
    (H743.EntryPoint.uartTxCplt.run (H743.readyPlatform demoLinkage)
        (fun _ => HandlerResult.returns false) 0x20000000).exit = Exit.returned ∧
      ∀ env2 : Env,
        env2 ⟨Receiver.uart ⟨0x20000080⟩, Method.TransmitCompleteCallback, 0x20000000⟩ =
            HandlerResult.returns true →
          H743.EntryPoint.uartTxCplt.run (H743.readyPlatform demoLinkage) env2 0x20000000 =
            H743.EntryPoint.uartTxCplt.run (H743.readyPlatform demoLinkage)
              (fun _ => HandlerResult.returns false) 0x20000000 :=
  C2_unclaimed_event_returns demoLinkage (fun _ => true) (H743.readyPlatform demoLinkage) rfl
    H743.EntryPoint.uartTxCplt (fun _ => HandlerResult.returns false) 0x20000000
    (Receiver.uart ⟨0x20000080⟩) rfl rfl

/-- Claim C7. On a platform whose `audio` pointer is the transport `d`, an SAI error
interrupt on a handle of the audio port (its TX or its RX block) makes
`HAL_SAI_ErrorCallback` invoke `HandleError` of the transport with that same handle and
nothing else; with the transport behaving as the design describes it, the entry point
ends in the fatal path and never returns to the interrupted context. -/
theorem C7_sai_error_is_fatal (p : Platform)
    (env : Env) (h : Handle) (d : DuplexAudio) (hd : p.audio = some d)
    (hport : h = d.port.tx ∨ h = d.port.rx)
    (hlib : env ⟨Receiver.audio d, Method.HandleError, h⟩ = DuplexAudio.HandleError d h) :
    H743.HAL_SAI_ErrorCallback p env h =
      ⟨[⟨Receiver.audio d, Method.HandleError, h⟩], Exit.fatal⟩ := by
  have hfatal : DuplexAudio.HandleError d h = HandlerResult.fatal := by
    unfold DuplexAudio.HandleError
    rw [if_pos hport]
  rw [hfatal] at hlib
  simp [H743.HAL_SAI_ErrorCallback, deref, hd, invoke, hlib]

/-- Claim C7 at a concrete run: the error interrupt arrives with the RX block handle. -/
theorem C7_sai_error_is_fatal_witness :
    H743.HAL_SAI_ErrorCallback (H743.readyPlatform demoLinkage)
        (fun c => match c.receiver with
          | Receiver.audio a => DuplexAudio.HandleError a c.arg
          | _ => HandlerResult.returns false) 0x20000380 =
      ⟨[⟨Receiver.audio ⟨⟨0x20000400, 0x20000380⟩, 128⟩, Method.HandleError, 0x20000380⟩],
        Exit.fatal⟩ :=
  C7_sai_error_is_fatal (H743.readyPlatform demoLinkage)
    _ 0x20000380 ⟨⟨0x20000400, 0x20000380⟩, 128⟩ rfl (Or.inr rfl) rfl

/-- Claim C8. After bring-up of the h743 board has completed, for every SAI handle `h`
the receive half complete entry point forwards exactly `DmaCallback(h, 0)` to the
transport and the receive complete entry point forwards exactly `DmaCallback(h, 1)`;
no phase value is forwarded by both entry points, whatever the handles. -/
theorem C8_dma_phase_of_entry_point (addr : Linkage) (heap : Heap) (p : Platform)
    (hinit : H743.InitPlatform addr heap = InitResult.completed p) :
    ∃ d, p.audio = some d ∧
      (∀ (env : Env) (h : Handle),
        (H743.HAL_SAI_RxHalfCpltCallback p env h).calls =
            [⟨Receiver.audio d, Method.DmaCallback 0, h⟩] ∧
          (H743.HAL_SAI_RxCpltCallback p env h).calls =
            [⟨Receiver.audio d, Method.DmaCallback 1, h⟩]) ∧
      ∀ (env1 env2 : Env) (h1 h2 : Handle) (c1 c2 : Call) (phase : Nat),
        c1 ∈ (H743.HAL_SAI_RxHalfCpltCallback p env1 h1).calls →
        c2 ∈ (H743.HAL_SAI_RxCpltCallback p env2 h2).calls →
        c1.method = Method.DmaCallback phase → c2.method ≠ Method.DmaCallback phase := by
  rw [h743_InitPlatform_completed hinit]
  have key : ∀ (env : Env) (h : Handle),
      (H743.HAL_SAI_RxHalfCpltCallback (H743.readyPlatform addr) env h).calls =
          [⟨Receiver.audio ⟨⟨addr HalSymbol.hsai_BlockB1, addr HalSymbol.hsai_BlockA1⟩,
            AUDIO_CHANNEL_LEN⟩, Method.DmaCallback 0, h⟩] ∧
        (H743.HAL_SAI_RxCpltCallback (H743.readyPlatform addr) env h).calls =
          [⟨Receiver.audio ⟨⟨addr HalSymbol.hsai_BlockB1, addr HalSymbol.hsai_BlockA1⟩,
            AUDIO_CHANNEL_LEN⟩, Method.DmaCallback 1, h⟩] := by
    intro env h
    exact ⟨invoke_ret_calls env _, invoke_ret_calls env _⟩
  refine ⟨_, rfl, key, ?_⟩
  intro env1 env2 h1 h2 c1 c2 phase hc1 hc2 hm1 hm2
  rw [(key env1 h1).1, List.mem_singleton] at hc1
  rw [(key env2 h2).2, List.mem_singleton] at hc2
  subst hc1 hc2
  simp only [Method.DmaCallback.injEq] at hm1 hm2
  omega

/-- Claim C8 at a concrete bring-up. -/
theorem C8_dma_phase_of_entry_point_witness :
    ∃ d, (H743.readyPlatform demoLinkage).audio = some d ∧
      (∀ (env : Env) (h : Handle),
        (H743.HAL_SAI_RxHalfCpltCallback (H743.readyPlatform demoLinkage) env h).calls =
            [⟨Receiver.audio d, Method.DmaCallback 0, h⟩] ∧
          (H743.HAL_SAI_RxCpltCallback (H743.readyPlatform demoLinkage) env h).calls =
            [⟨Receiver.audio d, Method.DmaCallback 1, h⟩]) ∧
      ∀ (env1 env2 : Env) (h1 h2 : Handle) (c1 c2 : Call) (phase : Nat),
        c1 ∈ (H743.HAL_SAI_RxHalfCpltCallback (H743.readyPlatform demoLinkage) env1 h1).calls →
        c2 ∈ (H743.HAL_SAI_RxCpltCallback (H743.readyPlatform demoLinkage) env2 h2).calls →
        c1.method = Method.DmaCallback phase → c2.method ≠ Method.DmaCallback phase :=
  C8_dma_phase_of_entry_point demoLinkage (fun _ => true) (H743.readyPlatform demoLinkage) rfl

/-- A requirement on the past stays met when the trace grows. -/
theorem configured_append {tr : List Event} (h : Configured tr) (e : Event) :
    Configured (tr ++ [e]) :=
  ⟨List.mem_append_left _ h.1, List.mem_append_left _ h.2.1, List.mem_append_left _ h.2.2⟩

/-- Nothing precedes the empty trace. -/
theorem precededBy_nil (trig : Event → Bool) (req : List Event → Prop) :
    PrecededBy trig req [] := by
  intro i e h
  simp at h

/-- Appending an event keeps `PrecededBy` when the new event, if selected, meets the
requirement on the trace so far. -/
theorem precededBy_snoc {trig : Event → Bool} {req : List Event → Prop} {tr : List Event}
    (h : PrecededBy trig req tr) (e : Event) (he : trig e = true → req tr) :
    PrecededBy trig req (tr ++ [e]) := by
  intro i x hx ht
  rcases Nat.lt_or_ge i tr.length with hi | hi
  · rw [List.getElem?_append_left hi] at hx
    rw [List.take_append_of_le_length (Nat.le_of_lt hi)]
    exact h i x hx ht
  · rw [List.getElem?_append_right hi] at hx
    have hlen : i - tr.length = 0 := by
      by_contra hne
      have : ([e] : List Event)[i - tr.length]? = none := by
        apply List.getElem?_eq_none
        simp only [List.length_singleton]
        omega
      rw [this] at hx
      cases hx
    have hi2 : i = tr.length := by omega
    subst hi2
    simp only [Nat.sub_self, List.getElem?_cons_zero, Option.some.injEq] at hx
    subst hx
    simp only [List.take_left']
    exact he ht

/-- The platform that `F446re.InitPlatform` leaves when it returns. -/
theorem f446re_InitPlatform_completed {addr : Linkage} {heap : Heap} {p : Platform}
    (h : F446re.InitPlatform addr heap = InitResult.completed p) :
    p = F446re.readyPlatform addr := by
  unfold F446re.InitPlatform at h
  obtain ⟨-, h⟩ := newOrSpin_completed h
  obtain ⟨-, h⟩ := newOrSpin_completed h
  obtain ⟨-, h⟩ := newOrSpin_completed h
  obtain ⟨-, h⟩ := newOrAssert_completed h
  obtain ⟨-, h⟩ := newOrAssert_completed h
  obtain ⟨-, h⟩ := newOrAssert_completed h
  obtain ⟨-, h⟩ := newOrAssert_completed h
  obtain ⟨-, h⟩ := newOrAssert_completed h
  obtain ⟨-, h⟩ := newOrAssert_completed h
  obtain ⟨-, h⟩ := newOrAssert_completed h
  obtain ⟨-, h⟩ := newOrAssert_completed h
  obtain ⟨-, h⟩ := newOrAssert_completed h
  injection h with h
  exact h.symm

/-- The platform that `F722.InitPlatform` leaves when it returns. -/
theorem f722_InitPlatform_completed {addr : Linkage} {heap : Heap} {p : Platform}
    (h : F722.InitPlatform addr heap = InitResult.completed p) :
    p = F722.readyPlatform addr := by
  unfold F722.InitPlatform at h
  obtain ⟨-, h⟩ := newOrSpin_completed h
  obtain ⟨-, h⟩ := newOrSpin_completed h
  obtain ⟨-, h⟩ := newOrSpin_completed h
  obtain ⟨-, h⟩ := newOrAssert_completed h
  obtain ⟨-, h⟩ := newOrAssert_completed h
  obtain ⟨-, h⟩ := newOrAssert_completed h
  obtain ⟨-, h⟩ := newOrAssert_completed h
  obtain ⟨-, h⟩ := newOrAssert_completed h
  obtain ⟨-, h⟩ := newOrAssert_completed h
  obtain ⟨-, h⟩ := newOrAssert_completed h
  obtain ⟨-, h⟩ := newOrAssert_completed h
  obtain ⟨-, h⟩ := newOrAssert_completed h
  injection h with h
  exact h.symm

/-- The platform a board file leaves when its bring-up returns. -/
theorem variant_InitPlatform_completed {v : Variant} {addr : Linkage} {heap : Heap}
    {p : Platform} (h : v.InitPlatform addr heap = InitResult.completed p) :
    p = v.readyPlatform addr := by
  cases v
  · exact f446re_InitPlatform_completed h
  · exact f722_InitPlatform_completed h
  · exact h743_InitPlatform_completed h

/-- When every allocation succeeds, bring-up returns. -/
theorem variant_InitPlatform_allocated (v : Variant) (addr : Linkage) :
    v.InitPlatform addr (fun _ => true) = InitResult.completed (v.readyPlatform addr) := by
  cases v <;> rfl

/-! ### Invariants of the runs -/

/-- A statement of `F446re.ExecPlatform` keeps the invariant. -/
theorem f446re_exec_inv (s : Sys) (h : GatedInv s) : GatedInv (F446re.ExecPlatform s) := by
  obtain ⟨i1, i2, i3, i4, i5, i6, i7, i8, i9⟩ := h
  unfold F446re.ExecPlatform
  split
  case h_2 hpc =>
    unfold withPtr
    split
    · exact ⟨i1, i2, i3, i4, i5, i6, i7, i8, i9⟩
    · rename_i g hg
      rcases g with ⟨_ | _⟩
      · exact ⟨i1, i2, i3, i4, i5, i6, i7, i8, i9⟩
      · have hcfg := i4 hg
        show GatedInv { emit Event.syncWait s with
          platform := { s.platform with codec_ready := some ⟨true⟩ }, execPc := ExecPc.sleep30 }
        constructor <;> simp only [emit] <;>
        first
        | (refine precededBy_snoc (by assumption) _ ?_
           intro hc
           simp_all [Configured, isUnmute, isWait, isRelease])
        | (intro hp
           simp_all [Configured])
  all_goals first
    | exact ⟨i1, i2, i3, i4, i5, i6, i7, i8, i9⟩
    | skip
  all_goals try unfold withPtr
  all_goals try split
  all_goals first
    | exact ⟨i1, i2, i3, i4, i5, i6, i7, i8, i9⟩
    | skip
  all_goals
    constructor <;> simp only [emit] <;>
    first
    | (refine precededBy_snoc (by assumption) _ ?_
       intro hc
       simp_all [Configured, isUnmute, isWait, isRelease])
    | (intro hp
       simp_all [Configured])

/-- A statement of `F446re.TaskBodyFunction` keeps the invariant. -/
theorem f446re_task_inv (w : World) (s : Sys) (h : GatedInv s) :
    GatedInv (F446re.TaskBodyFunction w s) := by
  obtain ⟨i1, i2, i3, i4, i5, i6, i7, i8, i9⟩ := h
  unfold F446re.TaskBodyFunction
  split
  all_goals try unfold withPtr
  all_goals try split
  all_goals try beta_reduce
  all_goals try split
  all_goals first
    | exact ⟨i1, i2, i3, i4, i5, i6, i7, i8, i9⟩
    | skip
  all_goals
    constructor <;> simp only [emit] <;>
    first
    | (refine precededBy_snoc (by assumption) _ ?_
       intro hc
       simp_all [Configured, isUnmute, isWait, isRelease])
    | assumption
    | (intro hp
       simp_all [Configured, Synchronizer.Release])

/-- A statement of `F722.ExecPlatform` keeps the invariant. -/
theorem f722_exec_inv (s : Sys) (h : GatedInv s) : GatedInv (F722.ExecPlatform s) := by
  obtain ⟨i1, i2, i3, i4, i5, i6, i7, i8, i9⟩ := h
  unfold F722.ExecPlatform
  split
  case h_2 hpc =>
    unfold withPtr
    split
    · exact ⟨i1, i2, i3, i4, i5, i6, i7, i8, i9⟩
    · rename_i g hg
      rcases g with ⟨_ | _⟩
      · exact ⟨i1, i2, i3, i4, i5, i6, i7, i8, i9⟩
      · have hcfg := i4 hg
        show GatedInv { emit Event.syncWait s with
          platform := { s.platform with codec_ready := some ⟨true⟩ }, execPc := ExecPc.sleep30 }
        constructor <;> simp only [emit] <;>
        first
        | (refine precededBy_snoc (by assumption) _ ?_
           intro hc
           simp_all [Configured, isUnmute, isWait, isRelease])
        | (intro hp
           simp_all [Configured])
  all_goals first
    | exact ⟨i1, i2, i3, i4, i5, i6, i7, i8, i9⟩
    | skip
  all_goals try unfold withPtr
  all_goals try split
  all_goals first
    | exact ⟨i1, i2, i3, i4, i5, i6, i7, i8, i9⟩
    | skip
  all_goals
    constructor <;> simp only [emit] <;>
    first
    | (refine precededBy_snoc (by assumption) _ ?_
       intro hc
       simp_all [Configured, isUnmute, isWait, isRelease])
    | (intro hp
       simp_all [Configured])

/-- A statement of `F722.TaskBodyFunction` keeps the invariant. -/
theorem f722_task_inv (w : World) (s : Sys) (h : GatedInv s) :
    GatedInv (F722.TaskBodyFunction w s) := by
  obtain ⟨i1, i2, i3, i4, i5, i6, i7, i8, i9⟩ := h
  unfold F722.TaskBodyFunction
  split
  all_goals try unfold withPtr
  all_goals try split
  all_goals try beta_reduce
  all_goals try split
  all_goals first
    | exact ⟨i1, i2, i3, i4, i5, i6, i7, i8, i9⟩
    | skip
  all_goals
    constructor <;> simp only [emit] <;>
    first
    | (refine precededBy_snoc (by assumption) _ ?_
       intro hc
       simp_all [Configured, isUnmute, isWait, isRelease])
    | assumption
    | (intro hp
       simp_all [Configured, Synchronizer.Release])

/-- A statement of `H743.ExecPlatform` keeps the invariant. -/
theorem h743_exec_inv (s : Sys) (h : UngatedInv s) : UngatedInv (H743.ExecPlatform s) := by
  obtain ⟨i1, i2, i3, i4⟩ := h
  unfold H743.ExecPlatform
  split
  all_goals try unfold withPtr
  all_goals try split
  all_goals first
    | exact ⟨i1, i2, i3, i4⟩
    | skip
  all_goals
    constructor <;> simp only [emit] <;>
    first
    | (refine precededBy_snoc (by assumption) _ ?_
       intro hc
       simp_all [Configured, isUnmute])
    | (intro hp
       simp_all [Configured])

/-- A statement of `H743.TaskBodyFunction` keeps the invariant. -/
theorem h743_task_inv (w : World) (s : Sys) (h : UngatedInv s) :
    UngatedInv (H743.TaskBodyFunction w s) := by
  obtain ⟨i1, i2, i3, i4⟩ := h
  unfold H743.TaskBodyFunction
  split
  all_goals try unfold withPtr
  all_goals try split
  all_goals try beta_reduce
  all_goals try split
  all_goals first
    | exact ⟨i1, i2, i3, i4⟩
    | skip
  all_goals
    constructor <;> simp only [emit] <;>
    first
    | (refine precededBy_snoc (by assumption) _ ?_
       intro hc
       simp_all [Configured, isUnmute])
    | assumption
    | (intro hp
       simp_all [Configured])

/-- Every step of a board file with the readiness gate keeps the invariant. -/
theorem gatedInv_step {v : Variant} (hv : v.usesGate = true) (w : World) {s : Sys}
    (h : GatedInv s) (t : Tid) : GatedInv (step v w s t) := by
  unfold Murasaki.step
  split
  · exact h
  · cases t with
    | exec =>
      cases v with
      | f446re => exact f446re_exec_inv s h
      | f722 => exact f722_exec_inv s h
      | h743 => cases hv
    | audio =>
      show GatedInv (if s.taskRunning = true then v.TaskBodyFunction w s else s)
      split
      · cases v with
        | f446re => exact f446re_task_inv w s h
        | f722 => exact f722_task_inv w s h
        | h743 => cases hv
      · exact h

/-- Every state a run of a board file with the readiness gate reaches satisfies the
invariant. -/
theorem gatedInv_run {v : Variant} (hv : v.usesGate = true) (w : World) (sched : List Tid) :
    ∀ {s : Sys}, GatedInv s → GatedInv (run v w sched s) := by
  induction sched with
  | nil => intro s h; exact h
  | cons t ts ih => intro s h; exact ih (gatedInv_step hv w h t)

/-- The invariant holds when `ExecPlatform` is entered with the gate not released. -/
theorem gatedInv_boot (v : Variant) (p : Platform) (pins : Pin → Bool)
    (hp : p.codec_ready ≠ some ⟨true⟩) : GatedInv (boot v p pins) := by
  constructor
  · intro h; cases h
  · intro h; cases h
  · intro h; cases h
  · intro h; exact absurd h hp
  · intro h
    cases v <;> rcases h with h | h | h <;> cases h
  · exact precededBy_nil _ _
  · exact precededBy_nil _ _
  · exact precededBy_nil _ _
  · exact precededBy_nil _ _

/-- Every step of the h743 board file keeps the invariant. -/
theorem ungatedInv_step (w : World) {s : Sys} (h : UngatedInv s) (t : Tid) :
    UngatedInv (step Variant.h743 w s t) := by
  unfold Murasaki.step
  split
  · exact h
  · cases t with
    | exec => exact h743_exec_inv s h
    | audio =>
      show UngatedInv (if s.taskRunning = true then H743.TaskBodyFunction w s else s)
      split
      · exact h743_task_inv w s h
      · exact h

/-- Every state a run of the h743 board file reaches satisfies the invariant. -/
theorem ungatedInv_run (w : World) (sched : List Tid) :
    ∀ {s : Sys}, UngatedInv s → UngatedInv (run Variant.h743 w sched s) := by
  induction sched with
  | nil => intro s h; exact h
  | cons t ts ih => intro s h; exact ih (ungatedInv_step w h t)

/-- The invariant holds when `ExecPlatform` of the h743 board file is entered. -/
theorem ungatedInv_boot (p : Platform) (pins : Pin → Bool) :
    UngatedInv (boot Variant.h743 p pins) := by
  constructor
  · intro h; cases h
  · intro h; cases h
  · intro h; rcases h with h | h <;> cases h
  · exact precededBy_nil _ _

/-- Bring-up of a board file with the gate leaves the gate not released. -/
theorem variant_readyPlatform_gate (v : Variant) (addr : Linkage) :
    (v.readyPlatform addr).codec_ready ≠ some ⟨true⟩ := by
  cases v <;> simp [Variant.readyPlatform, F446re.readyPlatform, F722.readyPlatform,
    H743.readyPlatform]

/-- Claim C5. In every board file, after a bring-up that completed, under every world
and every schedule of `ExecPlatform` and the audio task, each unmute call `Mute(_, false)`
of the run comes after `codec->Start()` and both `SetGain` calls. In the board files with
the readiness gate, each unmute call also comes after the return of `codec_ready->Wait()`,
and each `codec_ready->Release()` comes after the codec configuration. -/
theorem C5_unmute_after_codec_configuration (v : Variant) (addr : Linkage) (heap : Heap)
    (p : Platform) (hinit : v.InitPlatform addr heap = InitResult.completed p)
    (w : World) (pins : Pin → Bool) (sched : List Tid) :
    PrecededBy isUnmute Configured (run v w sched (boot v p pins)).trace ∧
      (v.usesGate = true →
        PrecededBy isUnmute (fun pre => Event.syncWait ∈ pre)
            (run v w sched (boot v p pins)).trace ∧
          PrecededBy isRelease Configured (run v w sched (boot v p pins)).trace) := by
  rw [variant_InitPlatform_completed hinit]
  by_cases hv : v.usesGate = true
  · have h := gatedInv_run hv w sched
      (gatedInv_boot v (v.readyPlatform addr) pins (variant_readyPlatform_gate v addr))
    exact ⟨h.unmuteCfg, fun _ => ⟨h.unmuteWait, h.releaseCfg⟩⟩
  · have hv2 : v = Variant.h743 := by
      cases v
      · exact absurd rfl hv
      · exact absurd rfl hv
      · rfl
    subst hv2
    exact ⟨(ungatedInv_run w sched (ungatedInv_boot _ pins)).unmuteCfg, fun h => absurd h hv⟩

set_option maxRecDepth 100000 in
/-- Claim C5 at a concrete run of the f446re board file, in which both unmute calls
occur. -/
theorem C5_unmute_after_codec_configuration_witness :
    F446re.InitPlatform demoLinkage (fun _ => true) =
        InitResult.completed (F446re.readyPlatform demoLinkage) ∧
      (run Variant.f446re demoWorld demoSchedule
          (boot Variant.f446re (F446re.readyPlatform demoLinkage) pinsLow)).trace =
        [Event.taskStart, Event.codecStart, Event.setGain CodecChannel.kccLineInput 0 0,
          Event.setGain CodecChannel.kccHeadphoneOutput 0 0, Event.syncRelease, Event.syncWait,
          Event.sleep 30, Event.mute CodecChannel.kccLineInput false,
          Event.mute CodecChannel.kccHeadphoneOutput false,
          Event.printf "Hello %d \n" [PrintfArg.int 0], Event.ledClear Pin.LED1,
          Event.ledSet Pin.LED2] ∧
      PrecededBy isUnmute Configured
        (run Variant.f446re demoWorld demoSchedule
          (boot Variant.f446re (F446re.readyPlatform demoLinkage) pinsLow)).trace ∧
      (Variant.f446re.usesGate = true →
        PrecededBy isUnmute (fun pre => Event.syncWait ∈ pre)
            (run Variant.f446re demoWorld demoSchedule
              (boot Variant.f446re (F446re.readyPlatform demoLinkage) pinsLow)).trace ∧
          PrecededBy isRelease Configured
            (run Variant.f446re demoWorld demoSchedule
              (boot Variant.f446re (F446re.readyPlatform demoLinkage) pinsLow)).trace) :=
  ⟨rfl, rfl,
    C5_unmute_after_codec_configuration Variant.f446re demoLinkage (fun _ => true) _ rfl
      demoWorld pinsLow demoSchedule⟩

/-! ### The talk-through loop -/

/-- The talk-through loop, started at index `i` with the first `i` samples already
copied, ends with the transmit arrays equal to the receive arrays. -/
theorem talkThrough_loop (rl rr : List Sample) (hrr : rr.length = rl.length) :
    ∀ (n i : Nat) (tl tr : List Sample), i + n = rl.length → tl.length = rl.length →
      tr.length = rl.length → (∀ j, j < i → tl[j]? = rl[j]?) →
      (∀ j, j < i → tr[j]? = rr[j]?) →
      forLoop (fun i st =>
          (load rl i).bind fun vl =>
          (store st.1 i vl).bind fun l =>
          (load rr i).bind fun vr =>
          (store st.2 i vr).bind fun r =>
          some (l, r)) i n (tl, tr) = some (rl, rr) := by
  intro n
  induction n with
  | zero =>
    intro i tl tr hi hl hr hpl hpr
    have e1 : tl = rl := by
      apply List.ext_getElem?
      intro j
      by_cases hj : j < i
      · exact hpl j hj
      · rw [List.getElem?_eq_none (by omega), List.getElem?_eq_none (by omega)]
    have e2 : tr = rr := by
      apply List.ext_getElem?
      intro j
      by_cases hj : j < i
      · exact hpr j hj
      · rw [List.getElem?_eq_none (by omega), List.getElem?_eq_none (by omega)]
    rw [e1, e2]
    rfl
  | succ n ih =>
    intro i tl tr hi hl hr hpl hpr
    have hil : i < rl.length := by omega
    have hir : i < rr.length := by omega
    have h1 : load rl i = some (rl[i]) := List.getElem?_eq_getElem hil
    have h2 : load rr i = some (rr[i]) := List.getElem?_eq_getElem hir
    have h3 : store tl i (rl[i]) = some (tl.set i (rl[i])) := by
      unfold store
      rw [if_pos (by omega)]
    have h4 : store tr i (rr[i]) = some (tr.set i (rr[i])) := by
      unfold store
      rw [if_pos (by omega)]
    rw [forLoop]
    simp only [h1, h2, h3, h4, Option.some_bind, Option.bind_eq_bind]
    apply ih (i + 1) _ _ (by omega) (by simpa using hl) (by simpa using hr)
    · intro j hj
      by_cases hji : i = j
      · subst hji
        rw [List.getElem?_set_self (by omega), List.getElem?_eq_getElem hil]
      · rw [List.getElem?_set_ne hji]
        exact hpl j (by omega)
    · intro j hj
      by_cases hji : i = j
      · subst hji
        rw [List.getElem?_set_self (by omega), List.getElem?_eq_getElem hir]
      · rw [List.getElem?_set_ne hji]
        exact hpr j (by omega)

/-- On arrays of `AUDIO_CHANNEL_LEN` samples the talk-through loop copies the receive
arrays into the transmit arrays. -/
theorem talkThrough_eq (rl rr tl tr : List Sample) (hrl : rl.length = AUDIO_CHANNEL_LEN)
    (hrr : rr.length = AUDIO_CHANNEL_LEN) (htl : tl.length = AUDIO_CHANNEL_LEN)
    (htr : tr.length = AUDIO_CHANNEL_LEN) : talkThrough rl rr (tl, tr) = some (rl, rr) := by
  unfold talkThrough
  exact talkThrough_loop rl rr (by omega) AUDIO_CHANNEL_LEN 0 tl tr (by omega) (by omega)
    (by omega) (fun j hj => absurd hj (Nat.not_lt_zero j)) (fun j hj => absurd hj (Nat.not_lt_zero j))

/-- On arrays of the channel length the transport returns the block in the receive
arrays. -/
theorem transmitAndReceive_eq (d : DuplexAudio) (blk : Block) (tl tr rl rr : List Sample)
    (hd : d.channel_len = AUDIO_CHANNEL_LEN)
    (hrl : rl.length = AUDIO_CHANNEL_LEN) (hrr : rr.length = AUDIO_CHANNEL_LEN)
    (htl : tl.length = AUDIO_CHANNEL_LEN) (htr : tr.length = AUDIO_CHANNEL_LEN) :
    d.TransmitAndReceive blk tl tr rl rr = some (blk.leftSamples, blk.rightSamples) := by
  unfold DuplexAudio.TransmitAndReceive
  rw [if_pos (by omega), hd, List.drop_of_length_le (by omega),
    List.drop_of_length_le (by omega), List.append_nil, List.append_nil]
  rfl

/-- The statement at `transmitAndReceive`, on arrays of the channel length. -/
theorem task_step_transmitAndReceive (v : Variant) (w : World) (s : Sys) (d : DuplexAudio)
    (hpc : s.taskPc = TaskPc.transmitAndReceive) (haudio : s.platform.audio = some d)
    (hd : d.channel_len = AUDIO_CHANNEL_LEN)
    (htl : s.tx_left.length = AUDIO_CHANNEL_LEN) (htr : s.tx_right.length = AUDIO_CHANNEL_LEN)
    (hrl : s.rx_left.length = AUDIO_CHANNEL_LEN) (hrr : s.rx_right.length = AUDIO_CHANNEL_LEN) :
    v.TaskBodyFunction w s =
      { emit (Event.transmitAndReceive s.tx_left s.tx_right) s with
        rx_left := (w.input s.received).leftSamples,
        rx_right := (w.input s.received).rightSamples,
        received := s.received + 1, taskPc := TaskPc.copy } := by
  have h := transmitAndReceive_eq d (w.input s.received) s.tx_left s.tx_right s.rx_left
    s.rx_right hd hrl hrr htl htr
  cases v <;>
    simp only [Variant.TaskBodyFunction, F446re.TaskBodyFunction, F722.TaskBodyFunction,
      H743.TaskBodyFunction, hpc, withPtr, haudio, h]

/-- The statement at `copy`, on arrays of the channel length. -/
theorem task_step_copy (v : Variant) (w : World) (s : Sys)
    (hpc : s.taskPc = TaskPc.copy)
    (htl : s.tx_left.length = AUDIO_CHANNEL_LEN) (htr : s.tx_right.length = AUDIO_CHANNEL_LEN)
    (hrl : s.rx_left.length = AUDIO_CHANNEL_LEN) (hrr : s.rx_right.length = AUDIO_CHANNEL_LEN) :
    v.TaskBodyFunction w s =
      { s with tx_left := s.rx_left, tx_right := s.rx_right, taskPc := TaskPc.toggle0 } := by
  have h := talkThrough_eq s.rx_left s.rx_right s.tx_left s.tx_right hrl hrr htl htr
  cases v <;>
    simp only [Variant.TaskBodyFunction, F446re.TaskBodyFunction, F722.TaskBodyFunction,
      H743.TaskBodyFunction, hpc, h]

/-- The statement at `toggle0`. -/
theorem task_step_toggle0 (v : Variant) (w : World) (s : Sys) (b : BitOut)
    (hpc : s.taskPc = TaskPc.toggle0) (hled : s.platform.led_st0 = some b) :
    v.TaskBodyFunction w s =
      { emit (Event.ledToggle b.pin) s with
        pins := Function.update s.pins b.pin (!s.pins b.pin), taskPc := TaskPc.toggle1 } := by
  cases v <;>
    simp only [Variant.TaskBodyFunction, F446re.TaskBodyFunction, F722.TaskBodyFunction,
      H743.TaskBodyFunction, hpc, withPtr, hled]

/-- The statement at `toggle1`. -/
theorem task_step_toggle1 (v : Variant) (w : World) (s : Sys) (b : BitOut)
    (hpc : s.taskPc = TaskPc.toggle1) (hled : s.platform.led_st1 = some b) :
    v.TaskBodyFunction w s =
      { emit (Event.ledToggle b.pin) s with
        pins := Function.update s.pins b.pin (!s.pins b.pin),
        taskPc := TaskPc.transmitAndReceive } := by
  cases v <;>
    simp only [Variant.TaskBodyFunction, F446re.TaskBodyFunction, F722.TaskBodyFunction,
      H743.TaskBodyFunction, hpc, withPtr, hled]

/-- A block has `AUDIO_CHANNEL_LEN` samples on the left. -/
theorem leftSamples_length (blk : Block) : blk.leftSamples.length = AUDIO_CHANNEL_LEN := by
  simp [Block.leftSamples]

/-- A block has `AUDIO_CHANNEL_LEN` samples on the right. -/
theorem rightSamples_length (blk : Block) : blk.rightSamples.length = AUDIO_CHANNEL_LEN := by
  simp [Block.rightSamples]

/-- Claim C4. In every board file, take the audio task at the top of its loop with its
four arrays of 128 samples, and let the transport return any block. After the
`TransmitAndReceive` call and the talk-through copy of that iteration, `tx_left` and
`tx_right` equal `rx_left` and `rx_right`, which hold the returned block sample for
sample: `tx_left[i]` is sample `i` of the left channel and `tx_right[i]` sample `i` of the
right channel for every `i` below 128. After the two LED toggles, the next
`TransmitAndReceive` call is made with exactly these arrays. -/
theorem C4_talk_through_copy (v : Variant) (w : World) (s : Sys) (d : DuplexAudio)
    (b0 b1 : BitOut)
    (hpc : s.taskPc = TaskPc.transmitAndReceive) (haudio : s.platform.audio = some d)
    (hd : d.channel_len = AUDIO_CHANNEL_LEN)
    (hled0 : s.platform.led_st0 = some b0) (hled1 : s.platform.led_st1 = some b1)
    (htl : s.tx_left.length = AUDIO_CHANNEL_LEN) (htr : s.tx_right.length = AUDIO_CHANNEL_LEN)
    (hrl : s.rx_left.length = AUDIO_CHANNEL_LEN) (hrr : s.rx_right.length = AUDIO_CHANNEL_LEN) :
    ((v.TaskBodyFunction w)^[2] s).rx_left = (w.input s.received).leftSamples ∧
      ((v.TaskBodyFunction w)^[2] s).rx_right = (w.input s.received).rightSamples ∧
      ((v.TaskBodyFunction w)^[2] s).tx_left = ((v.TaskBodyFunction w)^[2] s).rx_left ∧
      ((v.TaskBodyFunction w)^[2] s).tx_right = ((v.TaskBodyFunction w)^[2] s).rx_right ∧
      (∀ i, i < 128 →
        ((v.TaskBodyFunction w)^[2] s).tx_left[i]? = some ((w.input s.received).left i) ∧
          ((v.TaskBodyFunction w)^[2] s).tx_right[i]? = some ((w.input s.received).right i)) ∧
      ((v.TaskBodyFunction w)^[5] s).trace =
        s.trace ++
          [Event.transmitAndReceive s.tx_left s.tx_right, Event.ledToggle b0.pin,
            Event.ledToggle b1.pin,
            Event.transmitAndReceive ((v.TaskBodyFunction w)^[2] s).tx_left
              ((v.TaskBodyFunction w)^[2] s).tx_right] := by
  have hL := leftSamples_length (w.input s.received)
  have hR := rightSamples_length (w.input s.received)
  have e1 := task_step_transmitAndReceive v w s d hpc haudio hd htl htr hrl hrr
  have e2 := task_step_copy v w (v.TaskBodyFunction w s) (by rw [e1]) (by rw [e1]; exact htl)
    (by rw [e1]; exact htr) (by rw [e1]; exact hL) (by rw [e1]; exact hR)
  have e3 := task_step_toggle0 v w (v.TaskBodyFunction w (v.TaskBodyFunction w s)) b0
    (by rw [e2]) (by rw [e2, e1]; exact hled0)
  have e4 := task_step_toggle1 v w
    (v.TaskBodyFunction w (v.TaskBodyFunction w (v.TaskBodyFunction w s))) b1
    (by rw [e3]) (by rw [e3, e2, e1]; exact hled1)
  have e5 := task_step_transmitAndReceive v w
    (v.TaskBodyFunction w (v.TaskBodyFunction w (v.TaskBodyFunction w (v.TaskBodyFunction w s))))
    d (by rw [e4]) (by rw [e4, e3, e2, e1]; exact haudio) hd
    (by rw [e4, e3, e2, e1]; exact hL) (by rw [e4, e3, e2, e1]; exact hR)
    (by rw [e4, e3, e2, e1]; exact hL) (by rw [e4, e3, e2, e1]; exact hR)
  have s2 : (v.TaskBodyFunction w)^[2] s = v.TaskBodyFunction w (v.TaskBodyFunction w s) := rfl
  have s5 : (v.TaskBodyFunction w)^[5] s =
      v.TaskBodyFunction w (v.TaskBodyFunction w (v.TaskBodyFunction w
        (v.TaskBodyFunction w (v.TaskBodyFunction w s)))) := rfl
  rw [s5, s2]
  refine ⟨by rw [e2, e1], by rw [e2, e1], by rw [e2], by rw [e2], ?_, ?_⟩
  · intro i hi
    rw [e2, e1]
    have hi2 : i < AUDIO_CHANNEL_LEN := hi
    simp [Block.leftSamples, Block.rightSamples, List.getElem?_range hi2]
  · rw [e5, e4, e3, e2, e1]
    simp [emit]

set_option maxRecDepth 100000 in
/-- Claim C4 at a concrete state: the f446re audio task at the top of its loop after a
run from bring-up, its transmit arrays filled with zero. -/
theorem C4_talk_through_copy_witness :
    demoLoopState.taskPc = TaskPc.transmitAndReceive ∧
      demoLoopState.tx_left.length = AUDIO_CHANNEL_LEN ∧
      ((Variant.f446re.TaskBodyFunction demoWorld)^[2] demoLoopState).rx_left =
        (demoWorld.input demoLoopState.received).leftSamples ∧
      ((Variant.f446re.TaskBodyFunction demoWorld)^[2] demoLoopState).rx_right =
        (demoWorld.input demoLoopState.received).rightSamples ∧
      ((Variant.f446re.TaskBodyFunction demoWorld)^[2] demoLoopState).tx_left =
        ((Variant.f446re.TaskBodyFunction demoWorld)^[2] demoLoopState).rx_left ∧
      ((Variant.f446re.TaskBodyFunction demoWorld)^[2] demoLoopState).tx_right =
        ((Variant.f446re.TaskBodyFunction demoWorld)^[2] demoLoopState).rx_right ∧
      (∀ i, i < 128 →
        ((Variant.f446re.TaskBodyFunction demoWorld)^[2] demoLoopState).tx_left[i]? =
            some ((demoWorld.input demoLoopState.received).left i) ∧
          ((Variant.f446re.TaskBodyFunction demoWorld)^[2] demoLoopState).tx_right[i]? =
            some ((demoWorld.input demoLoopState.received).right i)) ∧
      ((Variant.f446re.TaskBodyFunction demoWorld)^[5] demoLoopState).trace =
        demoLoopState.trace ++
          [Event.transmitAndReceive demoLoopState.tx_left demoLoopState.tx_right,
            Event.ledToggle Pin.LED1, Event.ledToggle Pin.LED2,
            Event.transmitAndReceive
              ((Variant.f446re.TaskBodyFunction demoWorld)^[2] demoLoopState).tx_left
              ((Variant.f446re.TaskBodyFunction demoWorld)^[2] demoLoopState).tx_right] :=
  ⟨rfl, rfl,
    C4_talk_through_copy Variant.f446re demoWorld demoLoopState
      ⟨⟨0x20000280, 0x20000300⟩, 128⟩ ⟨Pin.LED1⟩ ⟨Pin.LED2⟩ rfl rfl rfl rfl rfl rfl rfl rfl rfl⟩

/-! ### The readiness gate -/

/-- While nobody calls `Release`, a gate constructed not ready stays as it is. -/
theorem gate_stays_not_ready (ops : List GateOp) (h : GateOp.Release ∉ ops) :
    ops.foldl Synchronizer.apply ⟨false⟩ = ⟨false⟩ := by
  induction ops with
  | nil => rfl
  | cons op ops ih =>
    cases op with
    | Wait => exact ih (fun hm => h (List.mem_cons_of_mem _ hm))
    | Release => exact absurd (List.mem_cons_self _ _) h

/-- Once released, a gate stays released whatever is called on it. -/
theorem gate_stays_ready (ops : List GateOp) :
    ops.foldl Synchronizer.apply ⟨true⟩ = ⟨true⟩ := by
  induction ops with
  | nil => rfl
  | cons op ops ih => cases op <;> exact ih

/-- Claim C6. The readiness gate `codec_ready` of the board files that use it is
one-shot. Bring-up constructs it not ready, and as long as `Release` has not been called a
`Wait` on it blocks; in every run of `ExecPlatform` and the audio task the return of
`Wait()` comes after the call of `Release()`. A `Wait` entered after `Release` returns at
once and leaves the gate ready. A second `Release` leaves the gate as the first one left
it, and no sequence of `Wait` and `Release` calls takes a released gate back to not
ready. -/
theorem C6_readiness_gate_one_shot (v : Variant) (hv : v.usesGate = true) (addr : Linkage)
    (heap : Heap) (p : Platform) (hinit : v.InitPlatform addr heap = InitResult.completed p)
    (w : World) (pins : Pin → Bool) (sched : List Tid) :
    p.codec_ready = some ⟨false⟩ ∧
      (∀ ops : List GateOp, GateOp.Release ∉ ops →
        (ops.foldl Synchronizer.apply ⟨false⟩).Wait = none) ∧
      PrecededBy isWait (fun pre => Event.syncRelease ∈ pre)
        (run v w sched (boot v p pins)).trace ∧
      (∀ g : Synchronizer, g.Release.Wait = some g.Release) ∧
      (∀ g : Synchronizer, g.Release.Release = g.Release) ∧
      ∀ (g : Synchronizer) (ops : List GateOp),
        ops.foldl Synchronizer.apply g.Release = g.Release := by
  rw [variant_InitPlatform_completed hinit]
  refine ⟨?_, ?_, ?_, fun _ => rfl, fun _ => rfl, fun _ ops => gate_stays_ready ops⟩
  · cases v
    · rfl
    · rfl
    · cases hv
  · intro ops hops
    rw [gate_stays_not_ready ops hops]
    rfl
  · exact (gatedInv_run hv w sched
      (gatedInv_boot v (v.readyPlatform addr) pins (variant_readyPlatform_gate v addr))).waitRelease

set_option maxRecDepth 100000 in
/-- Claim C6 at a concrete run of the f722 board file in which `Wait()` is entered
before `Release()` is called. -/
theorem C6_readiness_gate_one_shot_witness :
    Variant.f722.usesGate = true ∧
      F722.InitPlatform demoLinkage (fun _ => true) =
        InitResult.completed (F722.readyPlatform demoLinkage) ∧
      ((run Variant.f722 demoWorld demoSchedule
          (boot Variant.f722 (F722.readyPlatform demoLinkage) pinsLow)).trace.take 6 =
        [Event.taskStart, Event.codecStart, Event.setGain CodecChannel.kccLineInput 0 0,
          Event.setGain CodecChannel.kccHeadphoneOutput 0 0, Event.syncRelease,
          Event.syncWait]) ∧
      (F722.readyPlatform demoLinkage).codec_ready = some ⟨false⟩ ∧
      (∀ ops : List GateOp, GateOp.Release ∉ ops →
        (ops.foldl Synchronizer.apply ⟨false⟩).Wait = none) ∧
      PrecededBy isWait (fun pre => Event.syncRelease ∈ pre)
        (run Variant.f722 demoWorld demoSchedule
          (boot Variant.f722 (F722.readyPlatform demoLinkage) pinsLow)).trace ∧
      (∀ g : Synchronizer, g.Release.Wait = some g.Release) ∧
      (∀ g : Synchronizer, g.Release.Release = g.Release) ∧
      ∀ (g : Synchronizer) (ops : List GateOp),
        ops.foldl Synchronizer.apply g.Release = g.Release :=
  ⟨rfl, rfl, rfl,
    C6_readiness_gate_one_shot Variant.f722 rfl demoLinkage (fun _ => true) _ rfl demoWorld
      pinsLow demoSchedule⟩

/-! ### Bring-up and handles -/

/-- A `new ... while (nullptr == ...)` step whose allocation succeeds goes on. -/
theorem newOrSpin_pos {heap : Heap} {o : Obj} (ho : heap o = true) (p st : Platform)
    (k : Platform → InitResult) : newOrSpin heap o p st k = k st := by
  unfold newOrSpin
  rw [if_pos ho]

/-- A `new ... MURASAKI_ASSERT` step whose allocation succeeds goes on. -/
theorem newOrAssert_pos {heap : Heap} {o : Obj} (ho : heap o = true) (p st : Platform)
    (k : Platform → InitResult) : newOrAssert heap o p st k = k st := by
  unfold newOrAssert
  rw [if_pos ho]

/-- Bring-up of the h743 board looks at no handle: whatever the addresses of the handle
objects, it completes exactly when its eleven allocations succeed, and it then leaves
each driver bound to the handle the board file names. -/
theorem h743_InitPlatform_completes_iff (addr : Linkage) (heap : Heap) :
    (H743.InitPlatform addr heap = InitResult.completed (H743.readyPlatform addr) ↔
        ∀ o, o ≠ Obj.codec_ready → heap o = true) ∧
      ∀ p, H743.InitPlatform addr heap = InitResult.completed p →
        p.uart_console = some ⟨addr HalSymbol.huart3⟩ ∧
          p.i2c_master = some ⟨addr HalSymbol.hi2c1⟩ ∧
          p.audio_port = some ⟨addr HalSymbol.hsai_BlockB1, addr HalSymbol.hsai_BlockA1⟩ := by
  refine ⟨⟨fun h => ?_, fun h => ?_⟩, fun p hp => ?_⟩
  · unfold H743.InitPlatform at h
    obtain ⟨h1, h⟩ := newOrSpin_completed h
    obtain ⟨h2, h⟩ := newOrSpin_completed h
    obtain ⟨h3, h⟩ := newOrSpin_completed h
    obtain ⟨h4, h⟩ := newOrAssert_completed h
    obtain ⟨h5, h⟩ := newOrAssert_completed h
    obtain ⟨h6, h⟩ := newOrAssert_completed h
    obtain ⟨h7, h⟩ := newOrAssert_completed h
    obtain ⟨h8, h⟩ := newOrAssert_completed h
    obtain ⟨h9, h⟩ := newOrAssert_completed h
    obtain ⟨h10, h⟩ := newOrAssert_completed h
    obtain ⟨h11, -⟩ := newOrAssert_completed h
    intro o ho
    cases o <;> first | assumption | exact absurd rfl ho
  · unfold H743.InitPlatform
    rw [newOrSpin_pos (h _ (by decide)), newOrSpin_pos (h _ (by decide)),
      newOrSpin_pos (h _ (by decide)), newOrAssert_pos (h _ (by decide)),
      newOrAssert_pos (h _ (by decide)), newOrAssert_pos (h _ (by decide)),
      newOrAssert_pos (h _ (by decide)), newOrAssert_pos (h _ (by decide)),
      newOrAssert_pos (h _ (by decide)), newOrAssert_pos (h _ (by decide)),
      newOrAssert_pos (h _ (by decide))]
    rfl
  · rw [h743_InitPlatform_completed hp]
    exact ⟨rfl, rfl, rfl⟩

/-! ### Fault capture -/

/-- Claim C11. For every memory and stack pointer, the lines of the fault record that
show a fault status register are exactly four: CFSR, HFSR, DFSR and AFSR, in this order,
each with the word read from its fixed address 0xE000ED28, 0xE000ED2C, 0xE000ED30,
0xE000ED3C. Besides them the record shows the eight stacked words before, and the two
fault address registers MMAR and BFAR after, and no other word of the machine. -/
theorem C11_four_fault_status_registers (mem : Memory) (sp : Nat) :
    (H743.PrintFaultResult mem sp).filter DebuggerCall.showsFaultStatus =
        faultStatusRegisters.map (fun r => registerLine r.1 (loadWord mem r.2)) ∧
      ((H743.PrintFaultResult mem sp).filter DebuggerCall.showsFaultStatus).length = 4 ∧
      ((H743.PrintFaultResult mem sp).drop 9).take 4 =
        faultStatusRegisters.map (fun r => registerLine r.1 (loadWord mem r.2)) ∧
      (H743.PrintFaultResult mem sp).filter DebuggerCall.printsWord =
        ((H743.PrintFaultResult mem sp).drop 1).take 8 ++
          faultStatusRegisters.map (fun r => registerLine r.1 (loadWord mem r.2)) ++
          faultAddressRegisters.map (fun r => registerLine r.1 (loadWord mem r.2)) ∧
      (((H743.PrintFaultResult mem sp).drop 1).take 8).filter
        DebuggerCall.showsFaultStatus = [] ∧
      (faultAddressRegisters.map (fun r => registerLine r.1 (loadWord mem r.2))).filter
        DebuggerCall.showsFaultStatus = [] ∧
      faultRegisters = faultStatusRegisters ++ faultAddressRegisters := by
  refine ⟨?_, ?_, ?_, ?_, ?_, ?_, ?_⟩ <;> rfl

/-- Claim C12 fails on the code. Two memories hold the same eight stacked words at the
same stack pointer and differ in the register CFSR: the two fault records differ. -/
theorem C12_output_depends_on_fault_registers :
    (∀ k, k < 8 → index32 zeroMemory 0x20001000 k = index32 cfsrMemory 0x20001000 k) ∧
      H743.PrintFaultResult zeroMemory 0x20001000 ≠
        H743.PrintFaultResult cfsrMemory 0x20001000 := by
  constructor
  · intro k hk
    interval_cases k <;> decide
  · decide

/-- Claim C12 as amended. Two runs of `PrintFaultResult` whose eight stacked words are
the same and whose six memory-mapped fault registers hold the same values make the same
calls on the debugger with the same arguments, so the text is the same under every
formatting function: the output depends on the stack snapshot and on these six registers
and on nothing else. -/
theorem C12_output_determined_by_fourteen_words (mem1 mem2 : Memory) (sp1 sp2 : Nat)
    (hstack : ∀ k, k < 8 → index32 mem1 sp1 k = index32 mem2 sp2 k)
    (hregs : ∀ r ∈ faultRegisters, loadWord mem1 r.2 = loadWord mem2 r.2)
    (render : DebuggerCall → String) :
    H743.PrintFaultResult mem1 sp1 = H743.PrintFaultResult mem2 sp2 ∧
      (H743.PrintFaultResult mem1 sp1).map render =
        (H743.PrintFaultResult mem2 sp2).map render := by
  have h : H743.PrintFaultResult mem1 sp1 = H743.PrintFaultResult mem2 sp2 := by
    unfold H743.PrintFaultResult
    rw [hstack 0 (by omega), hstack 1 (by omega), hstack 2 (by omega), hstack 3 (by omega),
      hstack 4 (by omega), hstack 5 (by omega), hstack 6 (by omega), hstack 7 (by omega),
      hregs ("CFSR", 0xE000ED28) (by simp [faultRegisters]),
      hregs ("HFSR", 0xE000ED2C) (by simp [faultRegisters]),
      hregs ("DFSR", 0xE000ED30) (by simp [faultRegisters]),
      hregs ("AFSR", 0xE000ED3C) (by simp [faultRegisters]),
      hregs ("MMAR", 0xE000ED34) (by simp [faultRegisters]),
      hregs ("BFAR", 0xE000ED38) (by simp [faultRegisters])]
  exact ⟨h, by rw [h]⟩

/-- Claim C12 as amended, at two memories that differ in a word outside the stack
frame and the fault registers, and at one stack pointer. -/
theorem C12_output_determined_by_fourteen_words_witness :
    (∀ k, k < 8 → index32 zeroMemory 0x20001000 k = index32 sramMemory 0x20001000 k) ∧
      (∀ r ∈ faultRegisters, loadWord zeroMemory r.2 = loadWord sramMemory r.2) ∧
      zeroMemory 0x20000000 ≠ sramMemory 0x20000000 ∧
      H743.PrintFaultResult zeroMemory 0x20001000 =
        H743.PrintFaultResult sramMemory 0x20001000 ∧
      (H743.PrintFaultResult zeroMemory 0x20001000).map (fun c => toString (repr c)) =
        (H743.PrintFaultResult sramMemory 0x20001000).map (fun c => toString (repr c)) :=
  ⟨fun k hk => by interval_cases k <;> decide, by decide, by decide,
    C12_output_determined_by_fourteen_words zeroMemory sramMemory 0x20001000 0x20001000
      (fun k hk => by interval_cases k <;> decide) (by decide) _⟩

/-- Bit 2 of a word decides its conjunction with 4. -/
theorem four_and_eq (x : Nat) : 4 &&& x = if x.testBit 2 then 4 else 0 := by
  apply Nat.eq_of_testBit_eq
  intro i
  have h4 : ∀ j, Nat.testBit 4 j = decide (2 = j) := fun j =>
    Nat.testBit_two_pow (n := 2) (m := j)
  rw [Nat.testBit_and, h4]
  by_cases hi : 2 = i
  · subst hi
    cases hx : x.testBit 2
    · simp
    · rw [if_pos rfl, h4]
      simp
  · cases hx : x.testBit 2
    · simp [hi]
    · rw [if_pos rfl, h4]
      simp [hi]

/-- Claim C13. For every link register value, every memory and every pair of stack
pointers (32 bit registers), the fault trampoline enters `PrintFaultResult` with the
process stack pointer when `lr AND 4` is not zero and with the main stack pointer when it
is zero; two link register values with the same bit 2 lead to the same run. -/
theorem C13_stack_pointer_selection (mem : Memory) (lr psp msp : Nat) :
    H743.CustomDefaultHandler mem lr psp msp =
        H743.PrintFaultResult mem (if lr % 2 ^ 32 &&& 4 ≠ 0 then psp % 2 ^ 32 else msp % 2 ^ 32) ∧
      ∀ lr2 : Nat, lr2.testBit 2 = lr.testBit 2 →
        H743.CustomDefaultHandler mem lr2 psp msp = H743.CustomDefaultHandler mem lr psp msp := by
  have key : ∀ l : Nat, H743.CustomDefaultHandler mem l psp msp =
      H743.PrintFaultResult mem (if l.testBit 2 then psp % 2 ^ 32 else msp % 2 ^ 32) := by
    intro l
    unfold H743.CustomDefaultHandler
    simp only [four_and_eq, Nat.testBit_mod_two_pow]
    cases l.testBit 2 <;> simp
  refine ⟨?_, fun lr2 h => by rw [key, key, h]⟩
  rw [key, Nat.and_comm, four_and_eq, Nat.testBit_mod_two_pow]
  cases lr.testBit 2 <;> simp

/-- Claim C13 at two link register values of an exception return: 0xFFFFFFFD (thread
mode, process stack) and 0xFFFFFFED, which differ in bit 4 only. -/
theorem C13_stack_pointer_selection_witness :
    Nat.testBit 0xFFFFFFED 2 = Nat.testBit 0xFFFFFFFD 2 ∧
      H743.CustomDefaultHandler addressMemory 0xFFFFFFFD 0x20001000 0x2001FF00 =
        H743.PrintFaultResult addressMemory 0x20001000 ∧
      H743.CustomDefaultHandler addressMemory 0xFFFFFFF9 0x20001000 0x2001FF00 =
        H743.PrintFaultResult addressMemory 0x2001FF00 ∧
      H743.CustomDefaultHandler addressMemory 0xFFFFFFED 0x20001000 0x2001FF00 =
        H743.CustomDefaultHandler addressMemory 0xFFFFFFFD 0x20001000 0x2001FF00 :=
  ⟨by decide, by decide, by decide,
    (C13_stack_pointer_selection addressMemory 0xFFFFFFFD 0x20001000 0x2001FF00).2 0xFFFFFFED
      (by decide)⟩

/-- A `new ... while (nullptr == ...)` step whose allocation fails spins. -/
theorem newOrSpin_neg {heap : Heap} {o : Obj} (ho : heap o = false) (p st : Platform)
    (k : Platform → InitResult) : newOrSpin heap o p st k = InitResult.spin o p := by
  unfold newOrSpin
  rw [if_neg (by rw [ho]; exact Bool.false_ne_true)]

/-- A `new ... MURASAKI_ASSERT` step whose allocation fails ends in the assertion. -/
theorem newOrAssert_neg {heap : Heap} {o : Obj} (ho : heap o = false) (p st : Platform)
    (k : Platform → InitResult) : newOrAssert heap o p st k = InitResult.assertFailed o p := by
  unfold newOrAssert
  rw [if_neg (by rw [ho]; exact Bool.false_ne_true)]

/-- A guarded `while` step keeps the shape of the result. -/
theorem failureShape_newOrSpin {heap : Heap} {o : Obj} (ho : o.guardedBySpin = true)
    (p st : Platform) (k : Platform → InitResult) (hk : FailureShape heap (k st)) :
    FailureShape heap (newOrSpin heap o p st k) := by
  cases h : heap o
  · rw [newOrSpin_neg h]
    exact ⟨h, ho⟩
  · rw [newOrSpin_pos h]
    exact hk

/-- An asserted step keeps the shape of the result. -/
theorem failureShape_newOrAssert {heap : Heap} {o : Obj} (ho : o.guardedBySpin = false)
    (p st : Platform) (k : Platform → InitResult) (hk : FailureShape heap (k st)) :
    FailureShape heap (newOrAssert heap o p st k) := by
  cases h : heap o
  · rw [newOrAssert_neg h]
    exact ⟨h, ho⟩
  · rw [newOrAssert_pos h]
    exact hk

/-- Every run of bring-up has the shape of `FailureShape`. -/
theorem variant_InitPlatform_shape (v : Variant) (addr : Linkage) (heap : Heap) :
    FailureShape heap (v.InitPlatform addr heap) := by
  cases v
  · unfold Variant.InitPlatform F446re.InitPlatform
    refine failureShape_newOrSpin (by rfl) _ _ _ ?_
    refine failureShape_newOrSpin (by rfl) _ _ _ ?_
    refine failureShape_newOrSpin (by rfl) _ _ _ ?_
    refine failureShape_newOrAssert (by rfl) _ _ _ ?_
    refine failureShape_newOrAssert (by rfl) _ _ _ ?_
    refine failureShape_newOrAssert (by rfl) _ _ _ ?_
    refine failureShape_newOrAssert (by rfl) _ _ _ ?_
    refine failureShape_newOrAssert (by rfl) _ _ _ ?_
    refine failureShape_newOrAssert (by rfl) _ _ _ ?_
    refine failureShape_newOrAssert (by rfl) _ _ _ ?_
    refine failureShape_newOrAssert (by rfl) _ _ _ ?_
    refine failureShape_newOrAssert (by rfl) _ _ _ ?_
    exact True.intro
  · unfold Variant.InitPlatform F722.InitPlatform
    refine failureShape_newOrSpin (by rfl) _ _ _ ?_
    refine failureShape_newOrSpin (by rfl) _ _ _ ?_
    refine failureShape_newOrSpin (by rfl) _ _ _ ?_
    refine failureShape_newOrAssert (by rfl) _ _ _ ?_
    refine failureShape_newOrAssert (by rfl) _ _ _ ?_
    refine failureShape_newOrAssert (by rfl) _ _ _ ?_
    refine failureShape_newOrAssert (by rfl) _ _ _ ?_
    refine failureShape_newOrAssert (by rfl) _ _ _ ?_
    refine failureShape_newOrAssert (by rfl) _ _ _ ?_
    refine failureShape_newOrAssert (by rfl) _ _ _ ?_
    refine failureShape_newOrAssert (by rfl) _ _ _ ?_
    refine failureShape_newOrAssert (by rfl) _ _ _ ?_
    exact True.intro
  · unfold Variant.InitPlatform H743.InitPlatform
    refine failureShape_newOrSpin (by rfl) _ _ _ ?_
    refine failureShape_newOrSpin (by rfl) _ _ _ ?_
    refine failureShape_newOrSpin (by rfl) _ _ _ ?_
    refine failureShape_newOrAssert (by rfl) _ _ _ ?_
    refine failureShape_newOrAssert (by rfl) _ _ _ ?_
    refine failureShape_newOrAssert (by rfl) _ _ _ ?_
    refine failureShape_newOrAssert (by rfl) _ _ _ ?_
    refine failureShape_newOrAssert (by rfl) _ _ _ ?_
    refine failureShape_newOrAssert (by rfl) _ _ _ ?_
    refine failureShape_newOrAssert (by rfl) _ _ _ ?_
    refine failureShape_newOrAssert (by rfl) _ _ _ ?_
    exact True.intro

/-- A `new ... while (nullptr == ...)` step ends bring-up at the first failure. -/
theorem endsAt_newOrSpin {heap : Heap} {o : Obj} (ho : o.guardedBySpin = true)
    (objs : List Obj) (p st : Platform) (k : Platform → InitResult)
    (hk : EndsAtFirstFailure heap objs (k st)) :
    EndsAtFirstFailure heap (o :: objs) (newOrSpin heap o p st k) := by
  unfold EndsAtFirstFailure firstFailure at *
  cases h : heap o
  · rw [newOrSpin_neg h]
    simp only [List.find?, h, Bool.not_false]
    exact ⟨p, by rw [if_pos ho]⟩
  · rw [newOrSpin_pos h]
    simp only [List.find?, h, Bool.not_true]
    exact hk

/-- A `new ... MURASAKI_ASSERT` step ends bring-up at the first failure. -/
theorem endsAt_newOrAssert {heap : Heap} {o : Obj} (ho : o.guardedBySpin = false)
    (objs : List Obj) (p st : Platform) (k : Platform → InitResult)
    (hk : EndsAtFirstFailure heap objs (k st)) :
    EndsAtFirstFailure heap (o :: objs) (newOrAssert heap o p st k) := by
  unfold EndsAtFirstFailure firstFailure at *
  cases h : heap o
  · rw [newOrAssert_neg h]
    simp only [List.find?, h, Bool.not_false]
    exact ⟨p, by rw [if_neg (by rw [ho]; exact Bool.false_ne_true)]⟩
  · rw [newOrAssert_pos h]
    simp only [List.find?, h, Bool.not_true]
    exact hk

/-- Bring-up of every board file ends at the first allocation that fails. -/
theorem variant_InitPlatform_endsAt (v : Variant) (addr : Linkage) (heap : Heap) :
    EndsAtFirstFailure heap v.objects (v.InitPlatform addr heap) := by
  cases v
  · unfold Variant.InitPlatform F446re.InitPlatform Variant.objects
    refine endsAt_newOrSpin (by rfl) _ _ _ _ ?_
    refine endsAt_newOrSpin (by rfl) _ _ _ _ ?_
    refine endsAt_newOrSpin (by rfl) _ _ _ _ ?_
    refine endsAt_newOrAssert (by rfl) _ _ _ _ ?_
    refine endsAt_newOrAssert (by rfl) _ _ _ _ ?_
    refine endsAt_newOrAssert (by rfl) _ _ _ _ ?_
    refine endsAt_newOrAssert (by rfl) _ _ _ _ ?_
    refine endsAt_newOrAssert (by rfl) _ _ _ _ ?_
    refine endsAt_newOrAssert (by rfl) _ _ _ _ ?_
    refine endsAt_newOrAssert (by rfl) _ _ _ _ ?_
    refine endsAt_newOrAssert (by rfl) _ _ _ _ ?_
    refine endsAt_newOrAssert (by rfl) _ _ _ _ ?_
    exact ⟨_, rfl⟩
  · unfold Variant.InitPlatform F722.InitPlatform Variant.objects
    refine endsAt_newOrSpin (by rfl) _ _ _ _ ?_
    refine endsAt_newOrSpin (by rfl) _ _ _ _ ?_
    refine endsAt_newOrSpin (by rfl) _ _ _ _ ?_
    refine endsAt_newOrAssert (by rfl) _ _ _ _ ?_
    refine endsAt_newOrAssert (by rfl) _ _ _ _ ?_
    refine endsAt_newOrAssert (by rfl) _ _ _ _ ?_
    refine endsAt_newOrAssert (by rfl) _ _ _ _ ?_
    refine endsAt_newOrAssert (by rfl) _ _ _ _ ?_
    refine endsAt_newOrAssert (by rfl) _ _ _ _ ?_
    refine endsAt_newOrAssert (by rfl) _ _ _ _ ?_
    refine endsAt_newOrAssert (by rfl) _ _ _ _ ?_
    refine endsAt_newOrAssert (by rfl) _ _ _ _ ?_
    exact ⟨_, rfl⟩
  · unfold Variant.InitPlatform H743.InitPlatform Variant.objects
    refine endsAt_newOrSpin (by rfl) _ _ _ _ ?_
    refine endsAt_newOrSpin (by rfl) _ _ _ _ ?_
    refine endsAt_newOrSpin (by rfl) _ _ _ _ ?_
    refine endsAt_newOrAssert (by rfl) _ _ _ _ ?_
    refine endsAt_newOrAssert (by rfl) _ _ _ _ ?_
    refine endsAt_newOrAssert (by rfl) _ _ _ _ ?_
    refine endsAt_newOrAssert (by rfl) _ _ _ _ ?_
    refine endsAt_newOrAssert (by rfl) _ _ _ _ ?_
    refine endsAt_newOrAssert (by rfl) _ _ _ _ ?_
    refine endsAt_newOrAssert (by rfl) _ _ _ _ ?_
    refine endsAt_newOrAssert (by rfl) _ _ _ _ ?_
    exact ⟨_, rfl⟩

/-- No allocation of a list fails exactly when each of them succeeds. -/
theorem firstFailure_eq_none (heap : Heap) (objs : List Obj) :
    firstFailure heap objs = none ↔ ∀ o ∈ objs, heap o = true := by
  unfold firstFailure
  rw [List.find?_eq_none]
  constructor
  · intro h o ho
    have := h o ho
    cases hh : heap o
    · rw [hh] at this
      exact absurd rfl this
    · rfl
  · intro h o ho
    rw [h o ho]
    exact Bool.false_ne_true

/-- Claim C16 fails on the code. When the allocation of the console UART fails, bring-up
of the h743 board and of the f446re board ends in the `while (nullptr == ...)` loop that
follows it: the run spins, and no error is handed back to the caller. -/
theorem C16_null_console_spins :
    H743.InitPlatform demoLinkage noConsoleHeap = InitResult.spin Obj.uart_console {} ∧
      F446re.InitPlatform demoLinkage noConsoleHeap = InitResult.spin Obj.uart_console {} := by
  decide

/-- Claim C16 as amended. In every board file and under every heap, bring-up ends at the
first allocation, in the order of the `new` expressions, that fails: when it is the
console UART, the logger or the debugger, `InitPlatform` spins forever in the
`while (nullptr == ...)` loop that follows the allocation; when it is any later object,
the `MURASAKI_ASSERT` that follows the allocation fails; and `InitPlatform` completes
only when every allocation succeeded, so a failed allocation never passes unnoticed.
Bring-up spins on no other object than the first three. A run of the `void` function
`InitPlatform` thus completes, spins or fails an assertion: it has no error result. -/
theorem C16_failed_allocation_spins_or_asserts (v : Variant) (addr : Linkage) (heap : Heap) :
    (heap Obj.uart_console = false →
        v.InitPlatform addr heap = InitResult.spin Obj.uart_console {}) ∧
      (heap Obj.uart_console = true → heap Obj.logger = false →
        ∃ p, v.InitPlatform addr heap = InitResult.spin Obj.logger p) ∧
      (heap Obj.uart_console = true → heap Obj.logger = true → heap Obj.debugger = false →
        ∃ p, v.InitPlatform addr heap = InitResult.spin Obj.debugger p) ∧
      (∀ o p, v.InitPlatform addr heap = InitResult.spin o p →
        heap o = false ∧ o.guardedBySpin = true) ∧
      (∀ o p, v.InitPlatform addr heap = InitResult.assertFailed o p →
        heap o = false ∧ o.guardedBySpin = false) ∧
      (∀ o, firstFailure heap v.objects = some o → o.guardedBySpin = true →
        ∃ p, v.InitPlatform addr heap = InitResult.spin o p) ∧
      (∀ o, firstFailure heap v.objects = some o → o.guardedBySpin = false →
        ∃ p, v.InitPlatform addr heap = InitResult.assertFailed o p) ∧
      ((∀ o ∈ v.objects, heap o = true) →
        v.InitPlatform addr heap = InitResult.completed (v.readyPlatform addr)) ∧
      (∀ o ∈ v.objects, heap o = false →
        ∀ p, v.InitPlatform addr heap ≠ InitResult.completed p) := by
  have hend := variant_InitPlatform_endsAt v addr heap
  unfold EndsAtFirstFailure at hend
  refine ⟨fun h1 => ?_, fun h1 h2 => ?_, fun h1 h2 h3 => ?_, fun o p h => ?_, fun o p h => ?_,
    fun o ho hg => ?_, fun o ho hg => ?_, fun hall => ?_, fun o ho hf p hp => ?_⟩
  · cases v <;>
      simp only [Variant.InitPlatform, F446re.InitPlatform, F722.InitPlatform,
        H743.InitPlatform] <;>
      rw [newOrSpin_neg h1]
  · cases v <;>
      simp only [Variant.InitPlatform, F446re.InitPlatform, F722.InitPlatform,
        H743.InitPlatform] <;>
      rw [newOrSpin_pos h1, newOrSpin_neg h2] <;> exact ⟨_, rfl⟩
  · cases v <;>
      simp only [Variant.InitPlatform, F446re.InitPlatform, F722.InitPlatform,
        H743.InitPlatform] <;>
      rw [newOrSpin_pos h1, newOrSpin_pos h2, newOrSpin_neg h3] <;> exact ⟨_, rfl⟩
  · have hs := variant_InitPlatform_shape v addr heap
    rw [h] at hs
    exact hs
  · have hs := variant_InitPlatform_shape v addr heap
    rw [h] at hs
    exact hs
  · rw [ho] at hend
    obtain ⟨p, hp⟩ := hend
    exact ⟨p, by rw [hp, if_pos hg]⟩
  · rw [ho] at hend
    obtain ⟨p, hp⟩ := hend
    exact ⟨p, by rw [hp, if_neg (by rw [hg]; exact Bool.false_ne_true)]⟩
  · rw [(firstFailure_eq_none heap v.objects).mpr hall] at hend
    obtain ⟨p, hp⟩ := hend
    rw [hp, variant_InitPlatform_completed hp]
  · have hnone : firstFailure heap v.objects ≠ none := fun hn =>
      absurd ((firstFailure_eq_none heap v.objects).mp hn o ho) (by rw [hf]; exact Bool.false_ne_true)
    cases hff : firstFailure heap v.objects with
    | none => exact hnone hff
    | some x =>
      rw [hff] at hend
      obtain ⟨q, hq⟩ := hend
      rw [hq] at hp
      split at hp <;> cases hp

/-- Claim C16 as amended, at the f722 board with a heap that fails the allocation of
the codec, and at the h743 board with a heap that fails the allocation of the audio
task, the last one: in both the assertion after the allocation fails and bring-up does
not complete. -/
theorem C16_failed_allocation_spins_or_asserts_witness :
    (firstFailure noCodecHeap Variant.f722.objects = some Obj.codec ∧
      Obj.codec.guardedBySpin = false ∧
      ∃ p, Variant.f722.InitPlatform demoLinkage noCodecHeap =
        InitResult.assertFailed Obj.codec p) ∧
    (Obj.audio_task ∈ Variant.h743.objects ∧ noTaskHeap Obj.audio_task = false ∧
      (∃ p, Variant.h743.InitPlatform demoLinkage noTaskHeap =
        InitResult.assertFailed Obj.audio_task p) ∧
      ∀ p, Variant.h743.InitPlatform demoLinkage noTaskHeap ≠ InitResult.completed p) ∧
    ((∀ o ∈ Variant.f446re.objects, (fun _ => true : Heap) o = true) ∧
      Variant.f446re.InitPlatform demoLinkage (fun _ => true) =
        InitResult.completed (Variant.f446re.readyPlatform demoLinkage)) :=
  ⟨⟨rfl, rfl,
      (C16_failed_allocation_spins_or_asserts Variant.f722 demoLinkage noCodecHeap).2.2.2.2.2.2.1
        Obj.codec rfl rfl⟩,
    ⟨by decide, rfl,
      (C16_failed_allocation_spins_or_asserts Variant.h743 demoLinkage
        noTaskHeap).2.2.2.2.2.2.1 Obj.audio_task rfl rfl,
      (C16_failed_allocation_spins_or_asserts Variant.h743 demoLinkage
        noTaskHeap).2.2.2.2.2.2.2.2 Obj.audio_task (by decide) rfl⟩,
    ⟨fun _ _ => rfl,
      (C16_failed_allocation_spins_or_asserts Variant.f446re demoLinkage
        (fun _ => true)).2.2.2.2.2.2.2.1 (fun _ _ => rfl)⟩⟩

/-! ### Handles bound by bring-up -/

/-- The linkage of the concrete runs places distinct handle objects at distinct
addresses. -/
theorem demoLinkage_injective : Function.Injective demoLinkage := by
  intro a b h
  cases a <;> cases b <;> first | rfl | (exact absurd h (by decide))

/-- Claim C20. In every board file, when distinct handle objects have distinct
addresses, the handles a completed bring-up binds to driver instances, those of the
console UART, of the I2C master and of the TX and the RX side of the audio port, are
pairwise distinct; in particular TX differs from RX. Hence every handle is owned by at
most one of the driver instances that serve interrupts. -/
theorem C20_bound_handles_distinct (v : Variant) (addr : Linkage)
    (hinj : Function.Injective addr) (heap : Heap) (p : Platform)
    (hinit : v.InitPlatform addr heap = InitResult.completed p) :
    p.boundHandles.length = 4 ∧ p.boundHandles.Nodup ∧
      (∀ port, p.audio_port = some port → port.tx ≠ port.rx) ∧
      p.receivers.length = 3 ∧
      ∀ h : Handle, (p.receivers.filter fun r => r.owns h).length ≤ 1 := by
  rw [variant_InitPlatform_completed hinit]
  have ne : ∀ a b : HalSymbol, a ≠ b → addr a ≠ addr b := fun a b hab h => hab (hinj h)
  cases v
  · have h1 := ne HalSymbol.huart2 HalSymbol.hi2c1 (by decide)
    have h2 := ne HalSymbol.huart2 HalSymbol.hi2s2 (by decide)
    have h3 := ne HalSymbol.huart2 HalSymbol.hi2s3 (by decide)
    have h4 := ne HalSymbol.hi2c1 HalSymbol.hi2s2 (by decide)
    have h5 := ne HalSymbol.hi2c1 HalSymbol.hi2s3 (by decide)
    have h6 := ne HalSymbol.hi2s2 HalSymbol.hi2s3 (by decide)
    refine ⟨rfl, ?_, ?_, rfl, fun h => ?_⟩
    · simp [Platform.boundHandles, Variant.readyPlatform, F446re.readyPlatform, h1, h2, h3,
        h4, h5, h6]
    · intro port hp
      simp only [Variant.readyPlatform, F446re.readyPlatform, Option.some.injEq] at hp
      subst hp
      exact h6
    · simp only [Platform.receivers, Variant.readyPlatform, F446re.readyPlatform,
        Option.map_some', Option.toList_some, List.singleton_append, List.filter_cons,
        Receiver.owns, List.filter_nil]
      by_cases e1 : h = addr HalSymbol.huart2
      · subst e1; simp [h1, h2, h3]
      · by_cases e2 : h = addr HalSymbol.hi2c1
        · subst e2; simp [Ne.symm h1, h4, h5]
        · simp [e1, e2]
          exact List.length_filter_le _ [_]
  · have h1 := ne HalSymbol.huart3 HalSymbol.hi2c1 (by decide)
    have h2 := ne HalSymbol.huart3 HalSymbol.hi2s1 (by decide)
    have h3 := ne HalSymbol.huart3 HalSymbol.hi2s2 (by decide)
    have h4 := ne HalSymbol.hi2c1 HalSymbol.hi2s1 (by decide)
    have h5 := ne HalSymbol.hi2c1 HalSymbol.hi2s2 (by decide)
    have h6 := ne HalSymbol.hi2s1 HalSymbol.hi2s2 (by decide)
    refine ⟨rfl, ?_, ?_, rfl, fun h => ?_⟩
    · simp [Platform.boundHandles, Variant.readyPlatform, F722.readyPlatform, h1, h2, h3,
        h4, h5, h6]
    · intro port hp
      simp only [Variant.readyPlatform, F722.readyPlatform, Option.some.injEq] at hp
      subst hp
      exact h6
    · simp only [Platform.receivers, Variant.readyPlatform, F722.readyPlatform,
        Option.map_some', Option.toList_some, List.singleton_append, List.filter_cons,
        Receiver.owns, List.filter_nil]
      by_cases e1 : h = addr HalSymbol.huart3
      · subst e1; simp [h1, h2, h3]
      · by_cases e2 : h = addr HalSymbol.hi2c1
        · subst e2; simp [Ne.symm h1, h4, h5]
        · simp [e1, e2]
          exact List.length_filter_le _ [_]
  · have h1 := ne HalSymbol.huart3 HalSymbol.hi2c1 (by decide)
    have h2 := ne HalSymbol.huart3 HalSymbol.hsai_BlockB1 (by decide)
    have h3 := ne HalSymbol.huart3 HalSymbol.hsai_BlockA1 (by decide)
    have h4 := ne HalSymbol.hi2c1 HalSymbol.hsai_BlockB1 (by decide)
    have h5 := ne HalSymbol.hi2c1 HalSymbol.hsai_BlockA1 (by decide)
    have h6 := ne HalSymbol.hsai_BlockB1 HalSymbol.hsai_BlockA1 (by decide)
    refine ⟨rfl, ?_, ?_, rfl, fun h => ?_⟩
    · simp [Platform.boundHandles, Variant.readyPlatform, H743.readyPlatform, h1, h2, h3,
        h4, h5, h6]
    · intro port hp
      simp only [Variant.readyPlatform, H743.readyPlatform, Option.some.injEq] at hp
      subst hp
      exact h6
    · simp only [Platform.receivers, Variant.readyPlatform, H743.readyPlatform,
        Option.map_some', Option.toList_some, List.singleton_append, List.filter_cons,
        Receiver.owns, List.filter_nil]
      by_cases e1 : h = addr HalSymbol.huart3
      · subst e1; simp [h1, h2, h3]
      · by_cases e2 : h = addr HalSymbol.hi2c1
        · subst e2; simp [Ne.symm h1, h4, h5]
        · simp [e1, e2]
          exact List.length_filter_le _ [_]

/-- Claim C20 at the h743 board with the linkage of the concrete runs. -/
theorem C20_bound_handles_distinct_witness :
    Function.Injective demoLinkage ∧
      Variant.h743.InitPlatform demoLinkage (fun _ => true) =
        InitResult.completed (H743.readyPlatform demoLinkage) ∧
      (H743.readyPlatform demoLinkage).boundHandles =
        [0x20000080, 0x20000180, 0x20000400, 0x20000380] ∧
      ((H743.readyPlatform demoLinkage).boundHandles.length = 4 ∧
        (H743.readyPlatform demoLinkage).boundHandles.Nodup ∧
        (∀ port, (H743.readyPlatform demoLinkage).audio_port = some port →
          port.tx ≠ port.rx) ∧
        (H743.readyPlatform demoLinkage).receivers.length = 3 ∧
        ∀ h : Handle,
          ((H743.readyPlatform demoLinkage).receivers.filter fun r => r.owns h).length ≤ 1) :=
  ⟨demoLinkage_injective, rfl, rfl,
    C20_bound_handles_distinct Variant.h743 demoLinkage demoLinkage_injective (fun _ => true)
      (H743.readyPlatform demoLinkage) rfl⟩

/-! ### The zero-fill loop -/

/-- The zero-fill loop, started at index `i` with the first `i` samples already zero,
ends with both arrays all zero. -/
theorem zeroFill_loop (len : Nat) :
    ∀ (n i : Nat) (tl tr : List Sample), i + n = len → tl.length = len → tr.length = len →
      (∀ j, j < i → tl[j]? = some 0) → (∀ j, j < i → tr[j]? = some 0) →
      forLoop (fun i (st : List Sample × List Sample) =>
          (store st.1 i 0).bind fun l =>
          (store st.2 i 0).bind fun r =>
          some (l, r)) i n (tl, tr) = some (List.replicate len 0, List.replicate len 0) := by
  intro n
  induction n with
  | zero =>
    intro i tl tr hi hl hr hpl hpr
    have e1 : tl = List.replicate len 0 := by
      apply List.ext_getElem?
      intro j
      rw [List.getElem?_replicate]
      by_cases hj : j < i
      · rw [hpl j hj, if_pos (by omega)]
      · rw [List.getElem?_eq_none (by omega), if_neg (by omega)]
    have e2 : tr = List.replicate len 0 := by
      apply List.ext_getElem?
      intro j
      rw [List.getElem?_replicate]
      by_cases hj : j < i
      · rw [hpr j hj, if_pos (by omega)]
      · rw [List.getElem?_eq_none (by omega), if_neg (by omega)]
    rw [e1, e2]
    rfl
  | succ n ih =>
    intro i tl tr hi hl hr hpl hpr
    have h3 : store tl i 0 = some (tl.set i 0) := by
      unfold store
      rw [if_pos (by omega)]
    have h4 : store tr i 0 = some (tr.set i 0) := by
      unfold store
      rw [if_pos (by omega)]
    rw [forLoop]
    simp only [h3, h4, Option.some_bind, Option.bind_eq_bind]
    apply ih (i + 1) _ _ (by omega) (by simpa using hl) (by simpa using hr)
    · intro j hj
      by_cases hji : i = j
      · subst hji
        rw [List.getElem?_set_self (by omega)]
      · rw [List.getElem?_set_ne hji]
        exact hpl j (by omega)
    · intro j hj
      by_cases hji : i = j
      · subst hji
        rw [List.getElem?_set_self (by omega)]
      · rw [List.getElem?_set_ne hji]
        exact hpr j (by omega)

/-- A fresh array has the length asked for. -/
theorem newFloatArray_length (n : Nat) (content : Nat → Sample) :
    (newFloatArray n content).length = n := by
  simp [newFloatArray]

/-- On two fresh arrays of `AUDIO_CHANNEL_LEN` samples the zero-fill loop succeeds and
leaves zeros, whatever the arrays held. -/
theorem zeroFill_fresh (a b : Nat → Sample) :
    zeroFill (newFloatArray AUDIO_CHANNEL_LEN a, newFloatArray AUDIO_CHANNEL_LEN b) =
      some (zeroBlock, zeroBlock) := by
  unfold zeroFill zeroBlock
  exact zeroFill_loop AUDIO_CHANNEL_LEN AUDIO_CHANNEL_LEN 0 _ _ (by omega)
    (newFloatArray_length _ _) (newFloatArray_length _ _)
    (fun j hj => absurd hj (Nat.not_lt_zero j)) (fun j hj => absurd hj (Nat.not_lt_zero j))

/-- The zero block has `AUDIO_CHANNEL_LEN` samples. -/
theorem zeroBlock_length : zeroBlock.length = AUDIO_CHANNEL_LEN := by
  simp [zeroBlock]

/-! ### Absence of crashes and array lengths -/

/-- A statement of `ExecPlatform` keeps `SoundInv`. -/
theorem soundInv_exec (v : Variant) (addr : Linkage) (s : Sys) (h : SoundInv v addr s) :
    SoundInv v addr (v.ExecPlatform s) := by
  obtain ⟨h0, h1, h2, h3, h4, h5, h6, h7, h8, h9⟩ := h
  cases v
  · simp only [Variant.readyPlatform, F446re.readyPlatform] at h1 h2 h3 h4 h5 h6
    obtain ⟨g, hg⟩ := Option.ne_none_iff_exists'.mp (h7 rfl)
    simp only [Variant.ExecPlatform, F446re.ExecPlatform]
    split
    case h_2 =>
      simp only [withPtr, hg]
      rcases g with ⟨_ | _⟩
      · exact ⟨h0, h1, h2, h3, h4, h5, h6, h7, h8, h9⟩
      · show SoundInv _ _ { emit Event.syncWait s with
          platform := { s.platform with codec_ready := some ⟨true⟩ }, execPc := ExecPc.sleep30 }
        constructor <;>
          first
          | assumption
          | (intro l r hm
             simp only [emit, List.mem_append, List.mem_singleton, reduceCtorEq, or_false] at hm
             exact h9 l r hm)
          | simp_all [emit, Variant.readyPlatform, F446re.readyPlatform]
    all_goals try simp only [withPtr, h1, h2, h3, h4, h5, h6]
    all_goals first
      | exact ⟨h0, h1, h2, h3, h4, h5, h6, h7, h8, h9⟩
      | (constructor <;>
          first
          | assumption
          | (intro l r hm
             simp only [emit, List.mem_append, List.mem_singleton, reduceCtorEq, or_false] at hm
             exact h9 l r hm))
  · simp only [Variant.readyPlatform, F722.readyPlatform] at h1 h2 h3 h4 h5 h6
    obtain ⟨g, hg⟩ := Option.ne_none_iff_exists'.mp (h7 rfl)
    simp only [Variant.ExecPlatform, F722.ExecPlatform]
    split
    case h_2 =>
      simp only [withPtr, hg]
      rcases g with ⟨_ | _⟩
      · exact ⟨h0, h1, h2, h3, h4, h5, h6, h7, h8, h9⟩
      · show SoundInv _ _ { emit Event.syncWait s with
          platform := { s.platform with codec_ready := some ⟨true⟩ }, execPc := ExecPc.sleep30 }
        constructor <;>
          first
          | assumption
          | (intro l r hm
             simp only [emit, List.mem_append, List.mem_singleton, reduceCtorEq, or_false] at hm
             exact h9 l r hm)
          | simp_all [emit, Variant.readyPlatform, F722.readyPlatform]
    all_goals try simp only [withPtr, h1, h2, h3, h4, h5, h6]
    all_goals first
      | exact ⟨h0, h1, h2, h3, h4, h5, h6, h7, h8, h9⟩
      | (constructor <;>
          first
          | assumption
          | (intro l r hm
             simp only [emit, List.mem_append, List.mem_singleton, reduceCtorEq, or_false] at hm
             exact h9 l r hm))
  · simp only [Variant.readyPlatform, H743.readyPlatform] at h1 h2 h3 h4 h5 h6
    simp only [Variant.ExecPlatform, H743.ExecPlatform]
    split
    all_goals try simp only [withPtr, h1, h2, h3, h4, h5, h6]
    all_goals first
      | exact ⟨h0, h1, h2, h3, h4, h5, h6, h7, h8, h9⟩
      | (constructor <;>
          first
          | assumption
          | (intro l r hm
             simp only [emit, List.mem_append, List.mem_singleton, reduceCtorEq, or_false] at hm
             exact h9 l r hm))

/-- A statement of `TaskBodyFunction` keeps `SoundInv`. -/
theorem soundInv_task (v : Variant) (addr : Linkage) (w : World) (s : Sys)
    (h : SoundInv v addr s) : SoundInv v addr (v.TaskBodyFunction w s) := by
  obtain ⟨h0, h1, h2, h3, h4, h5, h6, h7, h8, h9⟩ := h
  have hL := leftSamples_length (w.input s.received)
  have hR := rightSamples_length (w.input s.received)
  have haudio : ∃ d, s.platform.audio = some d ∧ d.channel_len = AUDIO_CHANNEL_LEN := by
    cases v <;> exact ⟨_, h6, rfl⟩
  have hled0 : ∃ b, s.platform.led_st0 = some b := by
    cases v <;> exact ⟨_, h4⟩
  have hled1 : ∃ b, s.platform.led_st1 = some b := by
    cases v <;> exact ⟨_, h5⟩
  obtain ⟨d, hd, hdl⟩ := haudio
  obtain ⟨b0, hb0⟩ := hled0
  obtain ⟨b1, hb1⟩ := hled1
  by_cases hpc1 : s.taskPc = TaskPc.transmitAndReceive
  · obtain ⟨l1, l2, l3, l4⟩ := h8 (by rw [hpc1]; decide)
    rw [task_step_transmitAndReceive v w s d hpc1 hd hdl l1 l2 l3 l4]
    constructor <;>
      first
      | (intro _; exact ⟨l1, l2, hL, hR⟩)
      | (intro l r hm
         simp only [emit, List.mem_append, List.mem_singleton, Event.transmitAndReceive.injEq]
           at hm
         rcases hm with hm | ⟨e1, e2⟩
         · exact h9 l r hm
         · subst e1 e2
           exact ⟨l1, l2⟩)
      | assumption
  by_cases hpc2 : s.taskPc = TaskPc.copy
  · obtain ⟨l1, l2, l3, l4⟩ := h8 (by rw [hpc2]; decide)
    rw [task_step_copy v w s hpc2 l1 l2 l3 l4]
    constructor <;>
      first
      | (intro _; exact ⟨l3, l4, l3, l4⟩)
      | assumption
  by_cases hpc3 : s.taskPc = TaskPc.toggle0
  · rw [task_step_toggle0 v w s b0 hpc3 hb0]
    constructor <;>
      first
      | (intro _; exact h8 (by rw [hpc3]; decide))
      | (intro l r hm
         simp only [emit, List.mem_append, List.mem_singleton, reduceCtorEq, or_false] at hm
         exact h9 l r hm)
      | assumption
  by_cases hpc4 : s.taskPc = TaskPc.toggle1
  · rw [task_step_toggle1 v w s b1 hpc4 hb1]
    constructor <;>
      first
      | (intro _; exact h8 (by rw [hpc4]; decide))
      | (intro l r hm
         simp only [emit, List.mem_append, List.mem_singleton, reduceCtorEq, or_false] at hm
         exact h9 l r hm)
      | assumption
  clear hL hR
  cases v
  · simp only [Variant.readyPlatform, F446re.readyPlatform] at h1 h2 h3 h4 h5 h6
    obtain ⟨g, hg⟩ := Option.ne_none_iff_exists'.mp (h7 rfl)
    simp only [Variant.TaskBodyFunction, F446re.TaskBodyFunction]
    split
    all_goals try first
      | exact absurd (by assumption) hpc1
      | exact absurd (by assumption) hpc2
      | exact absurd (by assumption) hpc3
      | exact absurd (by assumption) hpc4
    all_goals try simp only [withPtr, h2, h4, h5, zeroFill_fresh, hg]
    all_goals first
      | exact ⟨h0, h1, h2, h3, h4, h5, h6, h7, h8, h9⟩
      | (constructor <;>
          first
          | (intro _
             exact ⟨zeroBlock_length, zeroBlock_length, newFloatArray_length _ _,
               newFloatArray_length _ _⟩)
          | (intro l r hm
             simp only [emit, List.mem_append, List.mem_singleton, reduceCtorEq, or_false] at hm
             exact h9 l r hm)
          | assumption
          | (simp_all [emit, Variant.readyPlatform, F446re.readyPlatform]))
  · simp only [Variant.readyPlatform, F722.readyPlatform] at h1 h2 h3 h4 h5 h6
    obtain ⟨g, hg⟩ := Option.ne_none_iff_exists'.mp (h7 rfl)
    simp only [Variant.TaskBodyFunction, F722.TaskBodyFunction]
    split
    all_goals try first
      | exact absurd (by assumption) hpc1
      | exact absurd (by assumption) hpc2
      | exact absurd (by assumption) hpc3
      | exact absurd (by assumption) hpc4
    all_goals try simp only [withPtr, h2, h4, h5, zeroFill_fresh, hg]
    all_goals first
      | exact ⟨h0, h1, h2, h3, h4, h5, h6, h7, h8, h9⟩
      | (constructor <;>
          first
          | (intro _
             exact ⟨zeroBlock_length, zeroBlock_length, newFloatArray_length _ _,
               newFloatArray_length _ _⟩)
          | (intro l r hm
             simp only [emit, List.mem_append, List.mem_singleton, reduceCtorEq, or_false] at hm
             exact h9 l r hm)
          | assumption
          | (simp_all [emit, Variant.readyPlatform, F722.readyPlatform]))
  · simp only [Variant.readyPlatform, H743.readyPlatform] at h1 h2 h3 h4 h5 h6
    simp only [Variant.TaskBodyFunction, H743.TaskBodyFunction]
    split
    all_goals try first
      | exact absurd (by assumption) hpc1
      | exact absurd (by assumption) hpc2
      | exact absurd (by assumption) hpc3
      | exact absurd (by assumption) hpc4
    all_goals try simp only [withPtr, h2, h4, h5, zeroFill_fresh]
    all_goals first
      | exact ⟨h0, h1, h2, h3, h4, h5, h6, h7, h8, h9⟩
      | (constructor <;>
          first
          | (intro _
             exact ⟨zeroBlock_length, zeroBlock_length, newFloatArray_length _ _,
               newFloatArray_length _ _⟩)
          | (intro l r hm
             simp only [emit, List.mem_append, List.mem_singleton, reduceCtorEq, or_false] at hm
             exact h9 l r hm)
          | assumption
          | (simp_all [emit, Variant.readyPlatform, H743.readyPlatform]))

/-- Every step keeps `SoundInv`. -/
theorem soundInv_step (v : Variant) (addr : Linkage) (w : World) {s : Sys}
    (h : SoundInv v addr s) (t : Tid) : SoundInv v addr (step v w s t) := by
  unfold step
  split
  · exact h
  · cases t with
    | exec => exact soundInv_exec v addr s h
    | audio =>
      show SoundInv v addr (if s.taskRunning = true then v.TaskBodyFunction w s else s)
      split
      · exact soundInv_task v addr w s h
      · exact h

/-- Every state of a run that starts in a state with `SoundInv` has it. -/
theorem soundInv_run (v : Variant) (addr : Linkage) (w : World) (sched : List Tid) :
    ∀ {s : Sys}, SoundInv v addr s → SoundInv v addr (run v w sched s) := by
  induction sched with
  | nil => intro s h; exact h
  | cons t ts ih => intro s h; exact ih (soundInv_step v addr w h t)

/-- The state in which `ExecPlatform` is entered after a completed bring-up has
`SoundInv`. -/
theorem soundInv_boot (v : Variant) (addr : Linkage) (pins : Pin → Bool) :
    SoundInv v addr (boot v (v.readyPlatform addr) pins) := by
  refine ⟨rfl, rfl, rfl, rfl, rfl, rfl, rfl, ?_, fun h => absurd rfl h, ?_⟩
  · intro hv
    cases v
    · exact fun h => Option.noConfusion h
    · exact fun h => Option.noConfusion h
    · cases hv
  · intro l r hm
    cases hm

/-- The first transmit of a trace extended by one event. -/
theorem firstTransmit_snoc (tr : List Event) (e : Event) :
    firstTransmit (tr ++ [e]) = (firstTransmit tr).or e.transmitted := by
  unfold firstTransmit
  rw [List.findSome?_append]
  cases h : e.transmitted <;> simp [List.findSome?, h]

/-- A statement of `ExecPlatform` keeps `ZeroInv`. -/
theorem zeroInv_exec (v : Variant) (s : Sys) (h : ZeroInv s) : ZeroInv (v.ExecPlatform s) := by
  obtain ⟨i1, i2, i3, i4⟩ := h
  cases v <;>
    simp only [Variant.ExecPlatform, F446re.ExecPlatform, F722.ExecPlatform,
      H743.ExecPlatform] <;>
    split <;>
    (try unfold withPtr) <;>
    (try split) <;>
    (try beta_reduce) <;>
    (try split) <;>
    first
    | exact ⟨i1, i2, i3, i4⟩
    | (constructor <;>
        simp only [emit, firstTransmit_snoc, Event.transmitted, Option.or_none] <;>
        assumption)

/-- A statement of `TaskBodyFunction` keeps `ZeroInv`. -/
theorem zeroInv_task (v : Variant) (w : World) (s : Sys) (h : ZeroInv s) :
    ZeroInv (v.TaskBodyFunction w s) := by
  obtain ⟨i1, i2, i3, i4⟩ := h
  cases v <;>
    simp only [Variant.TaskBodyFunction, F446re.TaskBodyFunction, F722.TaskBodyFunction,
      H743.TaskBodyFunction, zeroFill_fresh] <;>
    split <;>
    (try unfold withPtr) <;>
    (try split) <;>
    (try beta_reduce) <;>
    (try split) <;>
    first
    | exact ⟨i1, i2, i3, i4⟩
    | (constructor <;>
        simp only [emit, firstTransmit_snoc, Event.transmitted, Option.or_none] <;>
        first
        | assumption
        | (intro hp
           simp_all
           done)
        | (intro hp
           by_cases hr : s.received = 0 <;> simp_all))


/-- Every step keeps `ZeroInv`. -/
theorem zeroInv_step (v : Variant) (w : World) {s : Sys} (h : ZeroInv s) (t : Tid) :
    ZeroInv (step v w s t) := by
  unfold step
  split
  · exact h
  · cases t with
    | exec => exact zeroInv_exec v s h
    | audio =>
      show ZeroInv (if s.taskRunning = true then v.TaskBodyFunction w s else s)
      split
      · exact zeroInv_task v w s h
      · exact h

/-- Every state of a run that starts in a state with `ZeroInv` has it. -/
theorem zeroInv_run (v : Variant) (w : World) (sched : List Tid) :
    ∀ {s : Sys}, ZeroInv s → ZeroInv (run v w sched s) := by
  induction sched with
  | nil => intro s h; exact h
  | cons t ts ih => intro s h; exact ih (zeroInv_step v w h t)

/-- The state in which `ExecPlatform` is entered has `ZeroInv`. -/
theorem zeroInv_boot (v : Variant) (p : Platform) (pins : Pin → Bool) :
    ZeroInv (boot v p pins) := by
  refine ⟨fun _ => rfl, fun _ h => absurd rfl h, fun h => absurd rfl h, ?_⟩
  intro h
  rcases h with h | h | h <;> cases h

/-- Claim C19. In every board file, under every world, so whatever the freshly
allocated arrays hold, and under every schedule: a run has either made no
`TransmitAndReceive` call yet, or its first call was given `tx_left` and `tx_right` with
all 128 samples zero; and as long as no call has returned, the transmit arrays, once
filled, hold 128 zeros each. -/
theorem C19_first_block_is_zero (v : Variant) (p : Platform) (w : World) (pins : Pin → Bool)
    (sched : List Tid) :
    (firstTransmit (run v w sched (boot v p pins)).trace = none ∨
        firstTransmit (run v w sched (boot v p pins)).trace = some (zeroBlock, zeroBlock)) ∧
      ((run v w sched (boot v p pins)).received = 0 →
        (run v w sched (boot v p pins)).taskPc ≠ TaskPc.entry →
        (run v w sched (boot v p pins)).tx_left = zeroBlock ∧
          (run v w sched (boot v p pins)).tx_right = zeroBlock) ∧
      zeroBlock.length = 128 ∧ ∀ i, i < 128 → zeroBlock[i]? = some 0 := by
  have h := zeroInv_run v w sched (zeroInv_boot v p pins)
  refine ⟨?_, h.zeros, zeroBlock_length, fun i hi => ?_⟩
  · by_cases hr : (run v w sched (boot v p pins)).received = 0
    · exact Or.inl (h.none_yet hr)
    · exact Or.inr (h.first hr)
  · unfold zeroBlock
    rw [List.getElem?_replicate]
    exact if_pos hi

set_option maxRecDepth 100000 in
/-- Claim C19 at two concrete runs of the f446re board file: one that stops before the
first `TransmitAndReceive` call, with the transmit arrays filled, and one that makes two
calls, the first one with zeros. -/
theorem C19_first_block_is_zero_witness :
    demoLoopState.received = 0 ∧ demoLoopState.taskPc ≠ TaskPc.entry ∧
      (demoLoopState.tx_left = zeroBlock ∧ demoLoopState.tx_right = zeroBlock) ∧
      (run Variant.f446re demoWorld demoLoopSchedule
        (boot Variant.f446re (F446re.readyPlatform demoLinkage) pinsLow)).received = 2 ∧
      firstTransmit (run Variant.f446re demoWorld demoLoopSchedule
          (boot Variant.f446re (F446re.readyPlatform demoLinkage) pinsLow)).trace =
        some (zeroBlock, zeroBlock) ∧
      ((firstTransmit (run Variant.f446re demoWorld demoLoopSchedule
            (boot Variant.f446re (F446re.readyPlatform demoLinkage) pinsLow)).trace = none ∨
          firstTransmit (run Variant.f446re demoWorld demoLoopSchedule
            (boot Variant.f446re (F446re.readyPlatform demoLinkage) pinsLow)).trace =
            some (zeroBlock, zeroBlock)) ∧
        ((run Variant.f446re demoWorld demoLoopSchedule
            (boot Variant.f446re (F446re.readyPlatform demoLinkage) pinsLow)).received = 0 →
          (run Variant.f446re demoWorld demoLoopSchedule
            (boot Variant.f446re (F446re.readyPlatform demoLinkage) pinsLow)).taskPc ≠
              TaskPc.entry →
          (run Variant.f446re demoWorld demoLoopSchedule
            (boot Variant.f446re (F446re.readyPlatform demoLinkage) pinsLow)).tx_left =
              zeroBlock ∧
            (run Variant.f446re demoWorld demoLoopSchedule
              (boot Variant.f446re (F446re.readyPlatform demoLinkage) pinsLow)).tx_right =
              zeroBlock) ∧
        zeroBlock.length = 128 ∧ ∀ i, i < 128 → zeroBlock[i]? = some 0) :=
  ⟨rfl, by decide,
    (C19_first_block_is_zero Variant.f446re (F446re.readyPlatform demoLinkage) demoWorld
      pinsLow demoSchedule).2.1 rfl (by decide),
    rfl, rfl,
    C19_first_block_is_zero Variant.f446re (F446re.readyPlatform demoLinkage) demoWorld
      pinsLow demoLoopSchedule⟩

/-! ### The startup protocol across the board files -/

set_option maxRecDepth 100000 in
/-- Claim C15 fails on the code. The first six statements of `TaskBodyFunction` perform
the protocol operations Start, SetGain, SetGain, Release in the f446re board file and
Start, SetGain, SetGain, Mute, Mute in the h743 board file; under one schedule the whole
f446re system goes through the gate and the h743 system performs no gate operation. -/
theorem C15_h743_protocol_differs :
    ((Variant.f446re.TaskBodyFunction demoWorld)^[6]
          (boot Variant.f446re (F446re.readyPlatform demoLinkage) pinsLow)).trace.filter
        isProtocol =
        [Event.codecStart, Event.setGain CodecChannel.kccLineInput 0 0,
          Event.setGain CodecChannel.kccHeadphoneOutput 0 0, Event.syncRelease] ∧
      ((Variant.h743.TaskBodyFunction demoWorld)^[6]
          (boot Variant.h743 (H743.readyPlatform demoLinkage) pinsLow)).trace.filter
        isProtocol =
        [Event.codecStart, Event.setGain CodecChannel.kccLineInput 0 0,
          Event.setGain CodecChannel.kccHeadphoneOutput 0 0,
          Event.mute CodecChannel.kccLineInput false,
          Event.mute CodecChannel.kccHeadphoneOutput false] ∧
      (run Variant.f446re demoWorld demoSchedule
          (boot Variant.f446re (F446re.readyPlatform demoLinkage) pinsLow)).trace.filter
        isProtocol ≠
      (run Variant.h743 demoWorld demoSchedule
          (boot Variant.h743 (H743.readyPlatform demoLinkage) pinsLow)).trace.filter
        isProtocol := by
  refine ⟨rfl, rfl, ?_⟩
  intro h
  have h2 := congrArg List.length h
  revert h2
  decide

/-- The f722 board file has the statements of the f446re board file in
`ExecPlatform`. -/
theorem f722_ExecPlatform_eq : F722.ExecPlatform = F446re.ExecPlatform := rfl

/-- The f722 board file has the statements of the f446re board file in
`TaskBodyFunction`. -/
theorem f722_TaskBodyFunction_eq : F722.TaskBodyFunction = F446re.TaskBodyFunction := rfl

/-- The f722 and the f446re system take the same steps. -/
theorem f722_step_eq (w : World) (s : Sys) (t : Tid) :
    step Variant.f722 w s t = step Variant.f446re w s t := by
  unfold step
  simp only [Variant.ExecPlatform, Variant.TaskBodyFunction, f722_ExecPlatform_eq,
    f722_TaskBodyFunction_eq]

/-- The f722 and the f446re system have the same runs. -/
theorem f722_run_eq (w : World) (sched : List Tid) :
    ∀ s : Sys, run Variant.f722 w sched s = run Variant.f446re w sched s := by
  induction sched with
  | nil => intro s; rfl
  | cons t ts ih =>
    intro s
    show run Variant.f722 w ts (step Variant.f722 w s t) =
      run Variant.f446re w ts (step Variant.f446re w s t)
    rw [f722_step_eq, ih]

/-- No statement of `H743.ExecPlatform` performs a protocol operation. -/
theorem h743_exec_no_protocol (s : Sys) :
    (H743.ExecPlatform s).trace.filter isProtocol = s.trace.filter isProtocol := by
  unfold H743.ExecPlatform
  split <;> (try unfold withPtr) <;> (try split) <;>
    first
    | rfl
    | simp [emit, List.filter_append, isProtocol]

/-- No statement of `H743.TaskBodyFunction` performs a gate operation. -/
theorem h743_task_no_gate (w : World) (s : Sys) :
    (H743.TaskBodyFunction w s).trace.filter isGateOp = s.trace.filter isGateOp := by
  unfold H743.TaskBodyFunction
  split <;> (try unfold withPtr) <;> (try split) <;> (try beta_reduce) <;> (try split) <;>
    first
    | rfl
    | simp [emit, List.filter_append, isGateOp]

/-- No statement of `H743.ExecPlatform` performs a gate operation. -/
theorem h743_exec_no_gate (s : Sys) :
    (H743.ExecPlatform s).trace.filter isGateOp = s.trace.filter isGateOp := by
  unfold H743.ExecPlatform
  split <;> (try unfold withPtr) <;> (try split) <;>
    first
    | rfl
    | simp [emit, List.filter_append, isGateOp]

/-- No statement of `F446re.TaskBodyFunction` is an unmute call. -/
theorem f446re_task_no_unmute (w : World) (s : Sys) :
    (F446re.TaskBodyFunction w s).trace.filter isUnmute = s.trace.filter isUnmute := by
  unfold F446re.TaskBodyFunction
  split <;> (try unfold withPtr) <;> (try split) <;> (try beta_reduce) <;> (try split) <;>
    first
    | rfl
    | simp [emit, List.filter_append, isUnmute]

/-- No run of the h743 system performs a gate operation. -/
theorem h743_run_no_gate (w : World) (sched : List Tid) :
    ∀ s : Sys, (run Variant.h743 w sched s).trace.filter isGateOp =
      s.trace.filter isGateOp := by
  induction sched with
  | nil => intro s; rfl
  | cons t ts ih =>
    intro s
    show (run Variant.h743 w ts (step Variant.h743 w s t)).trace.filter isGateOp = _
    rw [ih]
    unfold step
    split
    · rfl
    · cases t with
      | exec => exact h743_exec_no_gate s
      | audio =>
        show (if s.taskRunning = true then H743.TaskBodyFunction w s else s).trace.filter
          isGateOp = _
        split
        · exact h743_task_no_gate w s
        · rfl

/-- Claim C15 as amended. The f446re and the f722 board file implement the startup
protocol identically: their `ExecPlatform` and `TaskBodyFunction` are the same statement
for statement, so under every world and schedule their runs are the same, and in them the
audio task makes no unmute call. The h743 board file differs: no run of it performs an
operation on a readiness gate, its `ExecPlatform` performs no operation of the protocol at
all, and its `TaskBodyFunction` performs the codec operations, unmute calls included,
without any gate operation. -/
theorem C15_gated_boards_agree (w : World) (sched : List Tid) (p : Platform)
    (pins : Pin → Bool) (s : Sys) :
    run Variant.f722 w sched (boot Variant.f722 p pins) =
        run Variant.f446re w sched (boot Variant.f446re p pins) ∧
      (F446re.TaskBodyFunction w s).trace.filter isUnmute = s.trace.filter isUnmute ∧
      (run Variant.h743 w sched (boot Variant.h743 p pins)).trace.filter isGateOp = [] ∧
      (H743.ExecPlatform s).trace.filter isProtocol = s.trace.filter isProtocol ∧
      (H743.TaskBodyFunction w s).trace.filter isGateOp = s.trace.filter isGateOp :=
  ⟨f722_run_eq w sched _, f446re_task_no_unmute w s, h743_run_no_gate w sched _,
    h743_exec_no_protocol s, h743_task_no_gate w s⟩

/-! ### The stream of transmitted blocks -/

/-- The transmits of a trace extended by one event. -/
theorem transmits_snoc (tr : List Event) (e : Event) :
    transmits (tr ++ [e]) = transmits tr ++ e.transmitted.toList := by
  unfold transmits
  rw [List.filterMap_append]
  cases h : e.transmitted <;> simp [List.filterMap, h]

/-- A statement of `ExecPlatform` keeps `StreamInv`. -/
theorem streamInv_exec (v : Variant) (w : World) (s : Sys) (h : StreamInv w s) :
    StreamInv w (v.ExecPlatform s) := by
  obtain ⟨i1, i2, i3, i4⟩ := h
  cases v <;>
    simp only [Variant.ExecPlatform, F446re.ExecPlatform, F722.ExecPlatform,
      H743.ExecPlatform] <;>
    split <;>
    (try unfold withPtr) <;>
    (try split) <;>
    (try beta_reduce) <;>
    (try split) <;>
    first
    | exact ⟨i1, i2, i3, i4⟩
    | (constructor <;>
        simp only [emit, transmits_snoc, Event.transmitted, Option.toList_none,
          List.append_nil] <;>
        assumption)

/-- A statement of `TaskBodyFunction` keeps `StreamInv`, in a state that has `SoundInv`
and `ZeroInv`. -/
theorem streamInv_task (v : Variant) (addr : Linkage) (w : World) (s : Sys)
    (hS : SoundInv v addr s) (hZ : ZeroInv s) (h : StreamInv w s) :
    StreamInv w (v.TaskBodyFunction w s) := by
  obtain ⟨i1, i2, i3, i4⟩ := h
  have haudio : ∃ d, s.platform.audio = some d ∧ d.channel_len = AUDIO_CHANNEL_LEN := by
    cases v <;> exact ⟨_, hS.audio, rfl⟩
  have hled0 : ∃ b, s.platform.led_st0 = some b := by
    cases v <;> exact ⟨_, hS.led_st0⟩
  have hled1 : ∃ b, s.platform.led_st1 = some b := by
    cases v <;> exact ⟨_, hS.led_st1⟩
  obtain ⟨d, hd, hdl⟩ := haudio
  obtain ⟨b0, hb0⟩ := hled0
  obtain ⟨b1, hb1⟩ := hled1
  by_cases hpc1 : s.taskPc = TaskPc.transmitAndReceive
  · obtain ⟨l1, l2, l3, l4⟩ := hS.buffers (by rw [hpc1]; decide)
    rw [task_step_transmitAndReceive v w s d hpc1 hd hdl l1 l2 l3 l4]
    have htx := i3 (Or.inr (Or.inr hpc1))
    refine ⟨?_, fun _ => rfl, fun hp => ?_, fun _ => Or.inr (Or.inl rfl)⟩
    · show transmits (s.trace ++ [Event.transmitAndReceive s.tx_left s.tx_right]) = _
      rw [transmits_snoc, i1, List.range_succ, List.map_append]
      show _ ++ [(s.tx_left, s.tx_right)] = _
      rw [htx]
      rfl
    · rcases hp with hp | hp | hp <;> cases hp
  by_cases hpc2 : s.taskPc = TaskPc.copy
  · obtain ⟨l1, l2, l3, l4⟩ := hS.buffers (by rw [hpc2]; decide)
    rw [task_step_copy v w s hpc2 l1 l2 l3 l4]
    refine ⟨i1, fun hp => (by cases hp), fun _ => i2 hpc2, fun _ => Or.inr (Or.inr (Or.inl rfl))⟩
  by_cases hpc3 : s.taskPc = TaskPc.toggle0
  · rw [task_step_toggle0 v w s b0 hpc3 hb0]
    refine ⟨?_, fun hp => (by cases hp), fun _ => i3 (Or.inl hpc3),
      fun _ => Or.inr (Or.inr (Or.inr rfl))⟩
    show transmits (s.trace ++ [Event.ledToggle b0.pin]) = _
    rw [transmits_snoc]
    simpa [Event.transmitted] using i1
  by_cases hpc4 : s.taskPc = TaskPc.toggle1
  · rw [task_step_toggle1 v w s b1 hpc4 hb1]
    refine ⟨?_, fun hp => (by cases hp), fun _ => i3 (Or.inr (Or.inl hpc4)),
      fun _ => Or.inl rfl⟩
    show transmits (s.trace ++ [Event.ledToggle b1.pin]) = _
    rw [transmits_snoc]
    simpa [Event.transmitted] using i1
  have hr0 : s.received = 0 := by
    by_contra hne
    rcases i4 hne with h | h | h | h
    · exact hpc1 h
    · exact hpc2 h
    · exact hpc3 h
    · exact hpc4 h
  have hzero := hZ.zeros hr0
  obtain ⟨h0, h1, h2, h3, h4, h5, h6, h7, h8, h9⟩ := hS
  clear hZ
  cases v
  · simp only [Variant.readyPlatform, F446re.readyPlatform] at h1 h2 h3 h4 h5 h6
    obtain ⟨g, hg⟩ := Option.ne_none_iff_exists'.mp (h7 rfl)
    simp only [Variant.TaskBodyFunction, F446re.TaskBodyFunction]
    split
    all_goals try first
      | exact absurd (by assumption) hpc1
      | exact absurd (by assumption) hpc2
      | exact absurd (by assumption) hpc3
      | exact absurd (by assumption) hpc4
    all_goals try simp only [withPtr, h2, h4, h5, zeroFill_fresh, hg]
    all_goals first
      | exact ⟨i1, i2, i3, i4⟩
      | (constructor <;>
          simp only [emit, transmits_snoc, Event.transmitted, Option.toList_none,
            List.append_nil] <;>
          first
          | assumption
          | (intro hp
             simp_all [expectedTransmit]))
  · simp only [Variant.readyPlatform, F722.readyPlatform] at h1 h2 h3 h4 h5 h6
    obtain ⟨g, hg⟩ := Option.ne_none_iff_exists'.mp (h7 rfl)
    simp only [Variant.TaskBodyFunction, F722.TaskBodyFunction]
    split
    all_goals try first
      | exact absurd (by assumption) hpc1
      | exact absurd (by assumption) hpc2
      | exact absurd (by assumption) hpc3
      | exact absurd (by assumption) hpc4
    all_goals try simp only [withPtr, h2, h4, h5, zeroFill_fresh, hg]
    all_goals first
      | exact ⟨i1, i2, i3, i4⟩
      | (constructor <;>
          simp only [emit, transmits_snoc, Event.transmitted, Option.toList_none,
            List.append_nil] <;>
          first
          | assumption
          | (intro hp
             simp_all [expectedTransmit]))
  · simp only [Variant.readyPlatform, H743.readyPlatform] at h1 h2 h3 h4 h5 h6
    simp only [Variant.TaskBodyFunction, H743.TaskBodyFunction]
    split
    all_goals try first
      | exact absurd (by assumption) hpc1
      | exact absurd (by assumption) hpc2
      | exact absurd (by assumption) hpc3
      | exact absurd (by assumption) hpc4
    all_goals try simp only [withPtr, h2, h4, h5, zeroFill_fresh]
    all_goals first
      | exact ⟨i1, i2, i3, i4⟩
      | (constructor <;>
          simp only [emit, transmits_snoc, Event.transmitted, Option.toList_none,
            List.append_nil] <;>
          first
          | assumption
          | (intro hp
             simp_all [expectedTransmit]))

/-- The state in which `ExecPlatform` is entered has `StreamInv`. -/
theorem streamInv_boot (v : Variant) (w : World) (p : Platform) (pins : Pin → Bool) :
    StreamInv w (boot v p pins) := by
  refine ⟨rfl, fun h => (by cases h), fun h => ?_, fun h => absurd rfl h⟩
  rcases h with h | h | h <;> cases h

/-- Every state of a run that starts in a state with the three invariants has
`StreamInv`. -/
theorem streamInv_run (v : Variant) (addr : Linkage) (w : World) (sched : List Tid) :
    ∀ {s : Sys}, SoundInv v addr s → ZeroInv s → StreamInv w s →
      StreamInv w (run v w sched s) := by
  induction sched with
  | nil => intro s _ _ h; exact h
  | cons t ts ih =>
    intro s hS hZ h
    refine ih (soundInv_step v addr w hS t) (zeroInv_step v w hZ t) ?_
    unfold step
    split
    · exact h
    · cases t with
      | exec => exact streamInv_exec v w s h
      | audio =>
        show StreamInv w (if s.taskRunning = true then v.TaskBodyFunction w s else s)
        split
        · exact streamInv_task v addr w s hS hZ h
        · exact h

/-- Claim C21. In every board file, after a bring-up that completed, for every stream
of blocks the transport returns and under every schedule: the transmit arrays of the
`TransmitAndReceive` calls of a run are, call after call, zeros and then the blocks
returned by the calls before, in their order. There is one transmitted block per call;
the first one is zero, and the block transmitted at call `n + 1` is the block received
at call `n` on both channels, the content of the receive arrays when call `n` has
returned: none is dropped, duplicated or reordered, and the delay is one block. -/
theorem C21_one_block_delay (v : Variant) (addr : Linkage) (heap : Heap) (p : Platform)
    (hinit : v.InitPlatform addr heap = InitResult.completed p)
    (w : World) (pins : Pin → Bool) (sched : List Tid) :
    transmits (run v w sched (boot v p pins)).trace =
        (List.range (run v w sched (boot v p pins)).received).map (expectedTransmit w) ∧
      (transmits (run v w sched (boot v p pins)).trace).length =
        (run v w sched (boot v p pins)).received ∧
      (0 < (run v w sched (boot v p pins)).received →
        (transmits (run v w sched (boot v p pins)).trace)[0]? = some (zeroBlock, zeroBlock)) ∧
      (∀ n, n + 1 < (run v w sched (boot v p pins)).received →
        (transmits (run v w sched (boot v p pins)).trace)[n + 1]? =
          some ((w.input n).leftSamples, (w.input n).rightSamples)) ∧
      ∀ n, (run v w sched (boot v p pins)).taskPc = TaskPc.copy →
        (run v w sched (boot v p pins)).received = n + 1 →
        (run v w sched (boot v p pins)).rx_left = (w.input n).leftSamples ∧
          (run v w sched (boot v p pins)).rx_right = (w.input n).rightSamples := by
  rw [variant_InitPlatform_completed hinit]
  have hinv := streamInv_run v addr w sched (soundInv_boot v addr pins)
    (zeroInv_boot v _ pins) (streamInv_boot v w _ pins)
  have h := hinv.stream
  refine ⟨h, ?_, fun h0 => ?_, fun n hn => ?_, fun n hpc hr => ?_⟩
  · rw [h, List.length_map, List.length_range]
  · rw [h, List.getElem?_map, List.getElem?_range h0]
    rfl
  · rw [h, List.getElem?_map, List.getElem?_range hn]
    rfl
  · have hc := hinv.atCopy hpc
    rw [hr] at hc
    exact ⟨(congrArg Prod.fst hc :), (congrArg Prod.snd hc :)⟩

set_option maxRecDepth 100000 in
/-- Claim C21 at a concrete run of the f446re board file that makes two calls: zeros,
then the block the first call returned; the second call has returned block 1. -/
theorem C21_one_block_delay_witness :
    Variant.f446re.InitPlatform demoLinkage (fun _ => true) =
        InitResult.completed (F446re.readyPlatform demoLinkage) ∧
      (run Variant.f446re demoWorld demoLoopSchedule
        (boot Variant.f446re (F446re.readyPlatform demoLinkage) pinsLow)).received = 2 ∧
      (transmits (run Variant.f446re demoWorld demoLoopSchedule
        (boot Variant.f446re (F446re.readyPlatform demoLinkage) pinsLow)).trace)[0]? =
        some (zeroBlock, zeroBlock) ∧
      (transmits (run Variant.f446re demoWorld demoLoopSchedule
        (boot Variant.f446re (F446re.readyPlatform demoLinkage) pinsLow)).trace)[0 + 1]? =
        some ((demoWorld.input 0).leftSamples, (demoWorld.input 0).rightSamples) ∧
      (run Variant.f446re demoWorld demoLoopSchedule
          (boot Variant.f446re (F446re.readyPlatform demoLinkage) pinsLow)).rx_left =
        (demoWorld.input 1).leftSamples :=
  ⟨rfl, rfl,
    (C21_one_block_delay Variant.f446re demoLinkage (fun _ => true)
      (F446re.readyPlatform demoLinkage) rfl demoWorld pinsLow demoLoopSchedule).2.2.1
      (by decide),
    (C21_one_block_delay Variant.f446re demoLinkage (fun _ => true)
      (F446re.readyPlatform demoLinkage) rfl demoWorld pinsLow demoLoopSchedule).2.2.2.1 0
      (by decide),
    ((C21_one_block_delay Variant.f446re demoLinkage (fun _ => true)
      (F446re.readyPlatform demoLinkage) rfl demoWorld pinsLow demoLoopSchedule).2.2.2.2 1
      rfl rfl).1⟩

/-! ## Pointers used after bring-up -/

/-- A statement of `ExecPlatform` changes no platform pointer; at most the state of the
readiness gate changes. -/
theorem exec_platform_eq (v : Variant) (s : Sys) :
    (v.ExecPlatform s).platform =
      { s.platform with codec_ready := (v.ExecPlatform s).platform.codec_ready } ∧
    (s.platform.codec_ready = none ↔ (v.ExecPlatform s).platform.codec_ready = none) := by
  cases v <;>
    simp only [Variant.ExecPlatform, F446re.ExecPlatform, F722.ExecPlatform,
      H743.ExecPlatform] <;>
    split <;>
    (try unfold withPtr) <;>
    (try split) <;>
    (try beta_reduce) <;>
    (try split) <;>
    first
    | exact ⟨rfl, Iff.rfl⟩
    | (refine ⟨rfl, ?_⟩
       simp_all [emit, crash])

/-- A statement of `TaskBodyFunction` changes no platform pointer; at most the state of
the readiness gate changes. -/
theorem task_platform_eq (v : Variant) (w : World) (s : Sys) :
    (v.TaskBodyFunction w s).platform =
      { s.platform with codec_ready := (v.TaskBodyFunction w s).platform.codec_ready } ∧
    (s.platform.codec_ready = none ↔ (v.TaskBodyFunction w s).platform.codec_ready = none) := by
  cases v <;>
    simp only [Variant.TaskBodyFunction, F446re.TaskBodyFunction, F722.TaskBodyFunction,
      H743.TaskBodyFunction, zeroFill_fresh] <;>
    split <;>
    (try unfold withPtr) <;>
    (try split) <;>
    (try beta_reduce) <;>
    (try split) <;>
    first
    | exact ⟨rfl, Iff.rfl⟩
    | (refine ⟨rfl, ?_⟩
       simp_all [emit, crash])

/-- A step changes no platform pointer. -/
theorem step_platform_eq (v : Variant) (w : World) (s : Sys) (t : Tid) :
    (step v w s t).platform =
      { s.platform with codec_ready := (step v w s t).platform.codec_ready } ∧
    (s.platform.codec_ready = none ↔ (step v w s t).platform.codec_ready = none) := by
  unfold step
  split
  · exact ⟨rfl, Iff.rfl⟩
  · cases t with
    | exec => exact exec_platform_eq v s
    | audio =>
      show (if s.taskRunning = true then v.TaskBodyFunction w s else s).platform = _ ∧
        (_ ↔ (if s.taskRunning = true then v.TaskBodyFunction w s else s).platform.codec_ready
          = none)
      split
      · exact task_platform_eq v w s
      · exact ⟨rfl, Iff.rfl⟩

/-- A run changes no platform pointer. -/
theorem run_platform_eq (v : Variant) (w : World) (sched : List Tid) :
    ∀ s : Sys, (run v w sched s).platform =
        { s.platform with codec_ready := (run v w sched s).platform.codec_ready } ∧
      (s.platform.codec_ready = none ↔ (run v w sched s).platform.codec_ready = none) := by
  induction sched with
  | nil => intro s; exact ⟨rfl, Iff.rfl⟩
  | cons t ts ih =>
    intro s
    have h1 := step_platform_eq v w s t
    have h2 := ih (step v w s t)
    refine ⟨?_, h1.2.trans h2.2⟩
    show (run v w ts (step v w s t)).platform = _
    rw [h2.1, h1.1]
    rfl

/-- An invocation whose continuation returns does not end on a null pointer. -/
theorem invoke_ret_exit (env : Env) (c : Call) :
    (invoke env c fun hit => if hit then ret else ret).exit ≠ Exit.nullDeref := by
  unfold invoke
  cases env c with
  | returns b => cases b <;> simp [ret]
  | fatal => simp

/-- Claim C22. In every board file, after a bring-up that completed and under every stream
of blocks and every schedule, no statement of `ExecPlatform` or of `TaskBodyFunction`
dereferences a null pointer (nor leaves an array): the run is not stopped. Every pointer
of the platform stays the one bring-up assigned, only the state of the readiness gate
changes, and a pointer that bring-up left null stays null, so a pointer the statements
use is one that `InitPlatform` of the same board file constructed. In the h743 board
file, the only one with interrupt entry points, at every point of a run none of the
nine entry points that poll a driver ends on a null pointer, whatever the handlers answer,
and the four entry points with an empty body return. -/
theorem C22_pointers_assigned_by_bring_up (v : Variant) (addr : Linkage) (heap : Heap)
    (p : Platform) (hinit : v.InitPlatform addr heap = InitResult.completed p)
    (w : World) (pins : Pin → Bool) (sched : List Tid) :
    (run v w sched (boot v p pins)).crashed = false ∧
      (run v w sched (boot v p pins)).platform =
        { p with codec_ready := (run v w sched (boot v p pins)).platform.codec_ready } ∧
      (p.codec_ready = none ↔ (run v w sched (boot v p pins)).platform.codec_ready = none) ∧
      (v = Variant.h743 →
        (∀ (e : H743.EntryPoint) (env : Env) (h : Handle),
          (e.run (run v w sched (boot v p pins)).platform env h).exit ≠ Exit.nullDeref) ∧
        ∀ (e : H743.IdleEntryPoint) (env : Env) (h : Handle),
          e.run (run v w sched (boot v p pins)).platform env h = ret) := by
  have hp := variant_InitPlatform_completed hinit
  subst hp
  have hrun := run_platform_eq v w sched (boot v (v.readyPlatform addr) pins)
  refine ⟨(soundInv_run v addr w sched (soundInv_boot v addr pins)).running, hrun.1, hrun.2,
    ?_⟩
  intro hv
  subst hv
  have hnone : (run Variant.h743 w sched
      (boot Variant.h743 (Variant.h743.readyPlatform addr) pins)).platform.codec_ready = none :=
    hrun.2.mp rfl
  have hplat : (run Variant.h743 w sched
      (boot Variant.h743 (Variant.h743.readyPlatform addr) pins)).platform =
      H743.readyPlatform addr := by
    rw [hrun.1, hnone]
    rfl
  refine ⟨fun e env h => ?_, fun e env h => ?_⟩
  · rw [hplat]
    obtain ⟨d, -, hd⟩ := h743_entry_readyPlatform addr e env h
    rw [hd]
    exact invoke_ret_exit env _
  · cases e <;> rfl

set_option maxRecDepth 100000 in
/-- Claim C22 at concrete runs of the f446re and of the h743 board file. On a platform
whose pointers are null the first statement of `ExecPlatform` stops the run and an entry
point ends on the null pointer, and `ExecPlatform` of the f446re board file stops on the
platform of the h743 bring-up, which has no readiness gate. -/
theorem C22_pointers_assigned_by_bring_up_witness :
    (Variant.f446re.InitPlatform demoLinkage (fun _ => true) =
        InitResult.completed (F446re.readyPlatform demoLinkage) ∧
      (run Variant.f446re demoWorld demoLoopSchedule
        (boot Variant.f446re (F446re.readyPlatform demoLinkage) pinsLow)).crashed = false) ∧
    (Variant.h743.InitPlatform demoLinkage (fun _ => true) =
        InitResult.completed (H743.readyPlatform demoLinkage) ∧
      (run Variant.h743 demoWorld demoLoopSchedule
        (boot Variant.h743 (H743.readyPlatform demoLinkage) pinsLow)).crashed = false ∧
      (H743.EntryPoint.saiRxCplt.run (run Variant.h743 demoWorld demoLoopSchedule
        (boot Variant.h743 (H743.readyPlatform demoLinkage) pinsLow)).platform declineEnv
          0x20000380).exit ≠ Exit.nullDeref) ∧
    (step Variant.h743 demoWorld (boot Variant.h743 {} pinsLow) Tid.exec).crashed = true ∧
    (H743.EntryPoint.saiRxCplt.run {} declineEnv 0x20000380).exit = Exit.nullDeref ∧
    (run Variant.f446re demoWorld [Tid.exec, Tid.exec]
      (boot Variant.f446re (H743.readyPlatform demoLinkage) pinsLow)).crashed = true :=
  ⟨⟨rfl, (C22_pointers_assigned_by_bring_up Variant.f446re demoLinkage (fun _ => true)
      (F446re.readyPlatform demoLinkage) rfl demoWorld pinsLow demoLoopSchedule).1⟩,
    ⟨rfl, (C22_pointers_assigned_by_bring_up Variant.h743 demoLinkage (fun _ => true)
      (H743.readyPlatform demoLinkage) rfl demoWorld pinsLow demoLoopSchedule).1,
      ((C22_pointers_assigned_by_bring_up Variant.h743 demoLinkage (fun _ => true)
        (H743.readyPlatform demoLinkage) rfl demoWorld pinsLow demoLoopSchedule).2.2.2 rfl).1
        H743.EntryPoint.saiRxCplt declineEnv 0x20000380⟩,
    rfl, rfl, rfl⟩

/-! ## The status LEDs -/

/-- The `Toggle()` calls of a trace with one more call. -/
theorem toggles_snoc (pin : Pin) (tr : List Event) (e : Event) :
    toggles pin (tr ++ [e]) = toggles pin tr + if e = Event.ledToggle pin then 1 else 0 := by
  unfold toggles
  rw [List.count_append, List.count_singleton]
  congr 1
  by_cases h : e = Event.ledToggle pin <;> simp [h]

/-- The f722 and the f446re board file have the same invariant of the status LEDs. -/
theorem ledInv_f722_iff (b0 b1 : BitOut) (s : Sys) :
    LedInv Variant.f722 b0 b1 s ↔ LedInv Variant.f446re b0 b1 s :=
  ⟨fun h => ⟨h.1, h.2, h.3, h.4, h.5, h.6, h.7, h.8, h.9⟩,
    fun h => ⟨h.1, h.2, h.3, h.4, h.5, h.6, h.7, h.8, h.9⟩⟩

set_option maxHeartbeats 4000000 in
/-- A statement of `ExecPlatform` of the f446re board file keeps `LedInv`. -/
theorem ledInv_exec_f446re (b0 b1 : BitOut) (s : Sys)
    (h : LedInv Variant.f446re b0 b1 s) :
    LedInv Variant.f446re b0 b1 (F446re.ExecPlatform s) := by
  obtain ⟨i1, i2, i3, i4, i5, i6, i7, i8, i9⟩ := h
  unfold F446re.ExecPlatform
  split <;>
    (try unfold withPtr) <;>
    (try split) <;>
    (try beta_reduce) <;>
    (try split) <;>
    first
    | exact ⟨i1, i2, i3, i4, i5, i6, i7, i8, i9⟩
    | (constructor <;>
        first
        | assumption
        | simp_all [emit, crash, toggles_snoc, TaskPc.pendingToggles, TaskPc.inLoop, TaskPc.ledLevels,
            Variant.ledsHalf, Variant.ledsReady, Nat.bodd_succ])

set_option maxHeartbeats 4000000 in
/-- A statement of `ExecPlatform` of the h743 board file keeps `LedInv`. -/
theorem ledInv_exec_h743 (b0 b1 : BitOut) (hne : b0.pin ≠ b1.pin) (s : Sys)
    (h : LedInv Variant.h743 b0 b1 s) :
    LedInv Variant.h743 b0 b1 (H743.ExecPlatform s) := by
  have hne2 := Ne.symm hne
  obtain ⟨i1, i2, i3, i4, i5, i6, i7, i8, i9⟩ := h
  unfold H743.ExecPlatform
  split <;>
    (try unfold withPtr) <;>
    (try split) <;>
    first
    | exact ⟨i1, i2, i3, i4, i5, i6, i7, i8, i9⟩
    | (constructor <;>
        first
        | assumption
        | simp_all [emit, crash, toggles_snoc, TaskPc.pendingToggles, TaskPc.inLoop, TaskPc.ledLevels,
            Variant.ledsHalf, Variant.ledsReady, Function.update_apply])

/-- A statement of `ExecPlatform` keeps `LedInv`. -/
theorem ledInv_exec (v : Variant) (b0 b1 : BitOut) (hne : b0.pin ≠ b1.pin) (s : Sys)
    (h : LedInv v b0 b1 s) : LedInv v b0 b1 (v.ExecPlatform s) := by
  cases v with
  | f446re => exact ledInv_exec_f446re b0 b1 s h
  | f722 =>
    exact (ledInv_f722_iff b0 b1 _).mpr
      (ledInv_exec_f446re b0 b1 s ((ledInv_f722_iff b0 b1 s).mp h))
  | h743 => exact ledInv_exec_h743 b0 b1 hne s h

set_option maxHeartbeats 4000000 in
/-- A statement of `TaskBodyFunction` of the f446re board file keeps `LedInv`. -/
theorem ledInv_task_f446re (b0 b1 : BitOut) (hne : b0.pin ≠ b1.pin) (w : World) (s : Sys)
    (hrun : s.taskRunning = true) (h : LedInv Variant.f446re b0 b1 s) :
    LedInv Variant.f446re b0 b1 (F446re.TaskBodyFunction w s) := by
  have hne2 := Ne.symm hne
  obtain ⟨i1, i2, i3, i4, i5, i6, i7, i8, i9⟩ := h
  simp only [F446re.TaskBodyFunction, zeroFill_fresh]
  split <;>
    (try unfold withPtr) <;>
    (try split) <;>
    (try beta_reduce) <;>
    (try split) <;>
    first
    | exact ⟨i1, i2, i3, i4, i5, i6, i7, i8, i9⟩
    | (constructor <;>
        first
        | assumption
        | simp_all [emit, crash, toggles_snoc, TaskPc.pendingToggles, TaskPc.inLoop, TaskPc.ledLevels,
            Variant.ledsHalf, Variant.ledsReady, Function.update_apply, Nat.bodd_succ])

set_option maxHeartbeats 4000000 in
/-- A statement of `TaskBodyFunction` of the h743 board file, run by the started task,
keeps `LedInv`. -/
theorem ledInv_task_h743 (b0 b1 : BitOut) (hne : b0.pin ≠ b1.pin) (w : World) (s : Sys)
    (hrun : s.taskRunning = true) (h : LedInv Variant.h743 b0 b1 s) :
    LedInv Variant.h743 b0 b1 (H743.TaskBodyFunction w s) := by
  have hne2 := Ne.symm hne
  obtain ⟨i1, i2, i3, i4, i5, i6, i7, i8, i9⟩ := h
  simp only [H743.TaskBodyFunction, zeroFill_fresh]
  split <;>
    (try unfold withPtr) <;>
    (try split) <;>
    (try beta_reduce) <;>
    (try split) <;>
    first
    | exact ⟨i1, i2, i3, i4, i5, i6, i7, i8, i9⟩
    | (constructor <;>
        first
        | assumption
        | simp_all [emit, crash, toggles_snoc, TaskPc.pendingToggles, TaskPc.inLoop, TaskPc.ledLevels,
            Variant.ledsHalf, Variant.ledsReady, Function.update_apply, Nat.bodd_succ])

/-- A statement of `TaskBodyFunction`, run by the started task, keeps `LedInv`. -/
theorem ledInv_task (v : Variant) (b0 b1 : BitOut) (hne : b0.pin ≠ b1.pin) (w : World)
    (s : Sys) (hrun : s.taskRunning = true) (h : LedInv v b0 b1 s) :
    LedInv v b0 b1 (v.TaskBodyFunction w s) := by
  cases v with
  | f446re => exact ledInv_task_f446re b0 b1 hne w s hrun h
  | f722 =>
    exact (ledInv_f722_iff b0 b1 _).mpr
      (ledInv_task_f446re b0 b1 hne w s hrun ((ledInv_f722_iff b0 b1 s).mp h))
  | h743 => exact ledInv_task_h743 b0 b1 hne w s hrun h

/-- Every step keeps `LedInv`. -/
theorem ledInv_step (v : Variant) (b0 b1 : BitOut) (hne : b0.pin ≠ b1.pin) (w : World)
    {s : Sys} (h : LedInv v b0 b1 s) (t : Tid) : LedInv v b0 b1 (step v w s t) := by
  unfold step
  split
  · exact h
  · cases t with
    | exec => exact ledInv_exec v b0 b1 hne s h
    | audio =>
      show LedInv v b0 b1 (if s.taskRunning = true then v.TaskBodyFunction w s else s)
      split
      · exact ledInv_task v b0 b1 hne w s (by assumption) h
      · exact h

/-- Every state of a run that starts in a state with `LedInv` has it. -/
theorem ledInv_run (v : Variant) (b0 b1 : BitOut) (hne : b0.pin ≠ b1.pin) (w : World)
    (sched : List Tid) : ∀ {s : Sys}, LedInv v b0 b1 s → LedInv v b0 b1 (run v w sched s) := by
  induction sched with
  | nil => intro s h; exact h
  | cons t ts ih => intro s h; exact ih (ledInv_step v b0 b1 hne w h t)

/-- The state in which `ExecPlatform` is entered has `LedInv`. -/
theorem ledInv_boot (v : Variant) (p : Platform) (b0 b1 : BitOut)
    (h0 : p.led_st0 = some b0) (h1 : p.led_st1 = some b1) (pins : Pin → Bool) :
    LedInv v b0 b1 (boot v p pins) := by
  cases v <;>
    refine ⟨h0, h1, fun _ => rfl, fun _ => rfl, rfl, rfl, fun _ => rfl, ?_, ?_⟩ <;>
    intro h <;>
    simp [Variant.ledsHalf, Variant.ledsReady, boot, Variant.execEntry, F446re.execEntry,
      F722.execEntry, H743.execEntry, TaskPc.inLoop] at h

/-- The two status LEDs bring-up binds, on different pins. -/
theorem variant_status_leds (v : Variant) (addr : Linkage) :
    ∃ b0 b1, (v.readyPlatform addr).led_st0 = some b0 ∧
      (v.readyPlatform addr).led_st1 = some b1 ∧ b0.pin ≠ b1.pin := by
  cases v <;> exact ⟨_, _, rfl, rfl, by decide⟩

/-- The low bit of a number is set when the number is odd. -/
theorem bodd_iff_odd (n : Nat) : Nat.bodd n = true ↔ Odd n := by
  rw [Nat.odd_iff, Nat.mod_two_of_bodd]
  cases Nat.bodd n <;> simp

/-- The low bit of a number is clear when the number is even. -/
theorem not_bodd_iff_even (n : Nat) : (!Nat.bodd n) = true ↔ Even n := by
  rw [Nat.even_iff, Nat.mod_two_of_bodd]
  cases Nat.bodd n <;> simp

/-- Claim C23. In every board file, after a bring-up that completed, for every stream of
blocks and every schedule: whenever the audio task is at the top of an iteration of its
loop, about to call `TransmitAndReceive`, with `n` calls returned so far, the output of
`led_st0` is high exactly when `n` is odd and the output of `led_st1` exactly when `n` is
even, so the two are opposite; before the first block `led_st0` is low and `led_st1`
high; and the trace holds `n` calls of `Toggle()` on each of the two, one per block. -/
theorem C23_status_leds_alternate (v : Variant) (addr : Linkage) (heap : Heap)
    (p : Platform) (hinit : v.InitPlatform addr heap = InitResult.completed p)
    (w : World) (pins : Pin → Bool) (sched : List Tid) (s : Sys)
    (hs : s = run v w sched (boot v p pins))
    (htop : s.taskPc = TaskPc.transmitAndReceive) :
    ∃ b0 b1, s.platform.led_st0 = some b0 ∧ s.platform.led_st1 = some b1 ∧
      (s.pins b0.pin = true ↔ Odd s.received) ∧
      (s.pins b1.pin = true ↔ Even s.received) ∧
      s.pins b0.pin ≠ s.pins b1.pin ∧
      (s.received = 0 → s.pins b0.pin = false ∧ s.pins b1.pin = true) ∧
      toggles b0.pin s.trace = s.received ∧ toggles b1.pin s.trace = s.received := by
  have hp := variant_InitPlatform_completed hinit
  subst hp
  obtain ⟨b0, b1, h0, h1, hne⟩ := variant_status_leds v addr
  have hinv : LedInv v b0 b1 s := by
    rw [hs]
    exact ledInv_run v b0 b1 hne w sched (ledInv_boot v _ b0 b1 h0 h1 pins)
  have hrunning : s.taskRunning = true := by
    cases hr : s.taskRunning with
    | true => rfl
    | false =>
      have := hinv.idle hr
      rw [htop] at this
      cases this
  have hready : v.ledsReady s := by
    cases v
    · show s.taskPc.inLoop = true
      rw [htop]
      rfl
    · show s.taskPc.inLoop = true
      rw [htop]
      rfl
    · refine ⟨fun h => ?_, fun h => ?_⟩
      · have := hinv.notStarted (Or.inl h)
        rw [hrunning] at this
        cases this
      · have := hinv.notStarted (Or.inr (Or.inl h))
        rw [hrunning] at this
        cases this
  obtain ⟨hp0, hp1⟩ := hinv.ready hready
  have hc0 := hinv.count0
  have hc1 := hinv.count1
  rw [htop] at hp0 hp1 hc0 hc1
  simp only [TaskPc.ledLevels, TaskPc.pendingToggles, Nat.add_zero] at hp0 hp1 hc0 hc1
  refine ⟨b0, b1, hinv.led0, hinv.led1, ?_, ?_, ?_, ?_, hc0, hc1⟩
  · rw [hp0]
    exact bodd_iff_odd _
  · rw [hp1]
    exact not_bodd_iff_even _
  · rw [hp0, hp1]
    cases Nat.bodd s.received <;> decide
  · intro hz
    rw [hp0, hp1, hz]
    exact ⟨rfl, rfl⟩

set_option maxRecDepth 100000 in
/-- Claim C23 at concrete runs of the f446re and of the h743 board file that are back at
the top of the loop after one block: `led_st0` is high and `led_st1` low, with one
`Toggle()` each. -/
theorem C23_status_leds_alternate_witness :
    ((run Variant.f446re demoWorld demoIterationSchedule
        (boot Variant.f446re (F446re.readyPlatform demoLinkage) pinsLow)).received = 1 ∧
      (run Variant.f446re demoWorld demoIterationSchedule
        (boot Variant.f446re (F446re.readyPlatform demoLinkage) pinsLow)).pins Pin.LED1 = true ∧
      (run Variant.f446re demoWorld demoIterationSchedule
        (boot Variant.f446re (F446re.readyPlatform demoLinkage) pinsLow)).pins Pin.LED2 = false ∧
      ∃ b0 b1,
        (run Variant.f446re demoWorld demoIterationSchedule
          (boot Variant.f446re (F446re.readyPlatform demoLinkage) pinsLow)).platform.led_st0 =
          some b0 ∧
        (run Variant.f446re demoWorld demoIterationSchedule
          (boot Variant.f446re (F446re.readyPlatform demoLinkage) pinsLow)).platform.led_st1 =
          some b1 ∧
        ((run Variant.f446re demoWorld demoIterationSchedule
          (boot Variant.f446re (F446re.readyPlatform demoLinkage) pinsLow)).pins b0.pin = true ↔
          Odd (run Variant.f446re demoWorld demoIterationSchedule
            (boot Variant.f446re (F446re.readyPlatform demoLinkage) pinsLow)).received)) ∧
    ((run Variant.h743 demoWorld h743IterationSchedule
        (boot Variant.h743 (H743.readyPlatform demoLinkage) pinsLow)).received = 1 ∧
      (run Variant.h743 demoWorld h743IterationSchedule
        (boot Variant.h743 (H743.readyPlatform demoLinkage) pinsLow)).pins Pin.ST0 = true ∧
      (run Variant.h743 demoWorld h743IterationSchedule
        (boot Variant.h743 (H743.readyPlatform demoLinkage) pinsLow)).pins Pin.ST1 = false ∧
      ∃ b0 b1,
        (run Variant.h743 demoWorld h743IterationSchedule
          (boot Variant.h743 (H743.readyPlatform demoLinkage) pinsLow)).platform.led_st0 =
          some b0 ∧
        (run Variant.h743 demoWorld h743IterationSchedule
          (boot Variant.h743 (H743.readyPlatform demoLinkage) pinsLow)).platform.led_st1 =
          some b1 ∧
        ((run Variant.h743 demoWorld h743IterationSchedule
          (boot Variant.h743 (H743.readyPlatform demoLinkage) pinsLow)).pins b0.pin = true ↔
          Odd (run Variant.h743 demoWorld h743IterationSchedule
            (boot Variant.h743 (H743.readyPlatform demoLinkage) pinsLow)).received)) :=
  ⟨⟨rfl, rfl, rfl,
      (C23_status_leds_alternate Variant.f446re demoLinkage (fun _ => true)
        (F446re.readyPlatform demoLinkage) rfl demoWorld pinsLow demoIterationSchedule _ rfl
        rfl).imp fun _ h => h.imp fun _ h => ⟨h.1, h.2.1, h.2.2.1⟩⟩,
    ⟨rfl, rfl, rfl,
      (C23_status_leds_alternate Variant.h743 demoLinkage (fun _ => true)
        (H743.readyPlatform demoLinkage) rfl demoWorld pinsLow h743IterationSchedule _ rfl
        rfl).imp fun _ h => h.imp fun _ h => ⟨h.1, h.2.1, h.2.2.1⟩⟩⟩

/-! ## Correspondence of the f446re and the f722 board file -/

/-- Exchanging the LED pins of the two boards twice gives the pin back. -/
theorem boardPin_involutive : Function.Involutive boardPin := by
  intro x
  cases x <;> rfl

/-- An output written through a renaming of the pins. -/
theorem update_comp_involutive {r : Pin → Pin} (hr : Function.Involutive r)
    (f : Pin → Bool) (x : Pin) (b : Bool) :
    Function.update (f ∘ r) (r x) b = Function.update f x b ∘ r := by
  funext y
  simp only [Function.update_apply, Function.comp]
  by_cases h : y = r x
  · subst h
    simp [hr x]
  · have h2 : r y ≠ x := fun h3 => h (by rw [← h3, hr y])
    simp [h, h2]

/-- A `new ... while (nullptr == ...)` step on the other board. -/
theorem rebind_newOrSpin (h : Handle → Handle) (r : Pin → Pin) (heap : Heap) (o : Obj)
    (p st p2 st2 : Platform) (k k2 : Platform → InitResult)
    (hp : p2 = p.rebind h r) (hk : k2 st2 = (k st).rebind h r) :
    newOrSpin heap o p2 st2 k2 = (newOrSpin heap o p st k).rebind h r := by
  unfold newOrSpin
  split
  · exact hk
  · rw [hp]
    rfl

/-- A `new ... MURASAKI_ASSERT` step on the other board. -/
theorem rebind_newOrAssert (h : Handle → Handle) (r : Pin → Pin) (heap : Heap) (o : Obj)
    (p st p2 st2 : Platform) (k k2 : Platform → InitResult)
    (hp : p2 = p.rebind h r) (hk : k2 st2 = (k st).rebind h r) :
    newOrAssert heap o p2 st2 k2 = (newOrAssert heap o p st k).rebind h r := by
  unfold newOrAssert
  split
  · exact hk
  · rw [hp]
    rfl

/-- Bring-up of the f722 board is bring-up of the f446re board with the handles and the
LED pins of the f722 board bound, whatever allocation fails. -/
theorem f722_InitPlatform_rebind (addr : Linkage) (heap : Heap) :
    F722.InitPlatform addr heap =
      (F446re.InitPlatform (addr ∘ boardSymbol) heap).rebind id boardPin := by
  unfold F722.InitPlatform F446re.InitPlatform
  refine rebind_newOrSpin _ _ _ _ _ _ _ _ _ _ (by rfl) ?_
  refine rebind_newOrSpin _ _ _ _ _ _ _ _ _ _ (by rfl) ?_
  refine rebind_newOrSpin _ _ _ _ _ _ _ _ _ _ (by rfl) ?_
  refine rebind_newOrAssert _ _ _ _ _ _ _ _ _ _ (by rfl) ?_
  refine rebind_newOrAssert _ _ _ _ _ _ _ _ _ _ (by rfl) ?_
  refine rebind_newOrAssert _ _ _ _ _ _ _ _ _ _ (by rfl) ?_
  refine rebind_newOrAssert _ _ _ _ _ _ _ _ _ _ (by rfl) ?_
  refine rebind_newOrAssert _ _ _ _ _ _ _ _ _ _ (by rfl) ?_
  refine rebind_newOrAssert _ _ _ _ _ _ _ _ _ _ (by rfl) ?_
  refine rebind_newOrAssert _ _ _ _ _ _ _ _ _ _ (by rfl) ?_
  refine rebind_newOrAssert _ _ _ _ _ _ _ _ _ _ (by rfl) ?_
  refine rebind_newOrAssert _ _ _ _ _ _ _ _ _ _ (by rfl) ?_
  rfl

/-- A statement of `ExecPlatform` does on the other board what it does on this one. -/
theorem exec_rebind (h : Handle → Handle) (r : Pin → Pin) (s : Sys) :
    F446re.ExecPlatform (s.rebind h r) = (F446re.ExecPlatform s).rebind h r := by
  cases hpc : s.execPc <;>
    simp only [F446re.ExecPlatform, Sys.rebind, Platform.rebind, hpc, withPtr]
  case taskStart =>
    cases hptr : s.platform.audio_task <;>
      simp [hptr, hpc, emit, crash, Sys.rebind, Platform.rebind, Event.repin]
  case wait =>
    cases hptr : s.platform.codec_ready with
    | none => simp [hptr, hpc, emit, crash, Sys.rebind, Platform.rebind, Event.repin]
    | some g =>
      cases hg : g.Wait <;>
        simp [hptr, hg, hpc, emit, crash, Sys.rebind, Platform.rebind, Event.repin]
  case sleep30 => simp [hpc, emit, crash, Sys.rebind, Platform.rebind, Event.repin]
  case muteLine =>
    cases hptr : s.platform.codec <;>
      simp [hptr, hpc, emit, crash, Sys.rebind, Platform.rebind, Event.repin]
  case muteHp =>
    cases hptr : s.platform.codec <;>
      simp [hptr, hpc, emit, crash, Sys.rebind, Platform.rebind, Event.repin]
  case hello =>
    cases hptr : s.platform.debugger <;>
      simp [hptr, hpc, emit, crash, Sys.rebind, Platform.rebind, Event.repin]
  case sleep500 => simp [hpc, emit, crash, Sys.rebind, Platform.rebind, Event.repin]

/-- A statement of `TaskBodyFunction` does on the other board what it does on this
one. -/
theorem task_rebind (h : Handle → Handle) {r : Pin → Pin} (hr : Function.Involutive r)
    (w : World) (s : Sys) :
    F446re.TaskBodyFunction w (s.rebind h r) = (F446re.TaskBodyFunction w s).rebind h r := by
  cases hpc : s.taskPc <;>
    simp only [F446re.TaskBodyFunction, Sys.rebind, Platform.rebind, hpc, withPtr,
      zeroFill_fresh]
  case codecStart =>
    cases hptr : s.platform.codec <;>
      simp [hptr, hpc, emit, crash, Sys.rebind, Platform.rebind, Event.repin]
  case gainLine =>
    cases hptr : s.platform.codec <;>
      simp [hptr, hpc, emit, crash, Sys.rebind, Platform.rebind, Event.repin]
  case gainHp =>
    cases hptr : s.platform.codec <;>
      simp [hptr, hpc, emit, crash, Sys.rebind, Platform.rebind, Event.repin]
  case release =>
    cases hptr : s.platform.codec_ready <;>
      simp [hptr, hpc, emit, crash, Sys.rebind, Platform.rebind, Event.repin]
  case ledClear =>
    cases hptr : s.platform.led_st0 <;>
      simp [hptr, hpc, emit, crash, Sys.rebind, Platform.rebind, Event.repin,
        update_comp_involutive hr]
  case ledSet =>
    cases hptr : s.platform.led_st1 <;>
      simp [hptr, hpc, emit, crash, Sys.rebind, Platform.rebind, Event.repin,
        update_comp_involutive hr]
  case transmitAndReceive =>
    cases hptr : s.platform.audio with
    | none => simp [hptr, hpc, emit, crash, Sys.rebind, Platform.rebind, Event.repin]
    | some d =>
      have hd : DuplexAudio.TransmitAndReceive
          ⟨⟨h d.port.tx, h d.port.rx⟩, d.channel_len⟩ (w.input s.received) s.tx_left
            s.tx_right s.rx_left s.rx_right =
          d.TransmitAndReceive (w.input s.received) s.tx_left s.tx_right s.rx_left
            s.rx_right := rfl
      simp only [Option.map_some', hd]
      cases hres : d.TransmitAndReceive (w.input s.received) s.tx_left s.tx_right s.rx_left
          s.rx_right <;>
        simp [hptr, hpc, emit, crash, Sys.rebind, Platform.rebind, Event.repin]
  case copy =>
    cases hres : talkThrough s.rx_left s.rx_right (s.tx_left, s.tx_right) <;>
      simp [hpc, emit, crash, Sys.rebind, Platform.rebind, Event.repin]
  case toggle0 =>
    cases hptr : s.platform.led_st0 <;>
      simp [hptr, hpc, emit, crash, Sys.rebind, Platform.rebind, Event.repin,
        update_comp_involutive hr, hr _]
  case toggle1 =>
    cases hptr : s.platform.led_st1 <;>
      simp [hptr, hpc, emit, crash, Sys.rebind, Platform.rebind, Event.repin,
        update_comp_involutive hr, hr _]

/-- A step does on the other board what it does on this one. -/
theorem step_rebind (h : Handle → Handle) {r : Pin → Pin} (hr : Function.Involutive r)
    (w : World) (s : Sys) (t : Tid) :
    step Variant.f446re w (s.rebind h r) t = (step Variant.f446re w s t).rebind h r := by
  unfold step
  show (if s.crashed = true then s.rebind h r else _) = _
  split
  · rfl
  · cases t with
    | exec => exact exec_rebind h r s
    | audio =>
      show (if s.taskRunning = true then F446re.TaskBodyFunction w (s.rebind h r)
        else s.rebind h r) =
        (if s.taskRunning = true then F446re.TaskBodyFunction w s else s).rebind h r
      split
      · exact task_rebind h hr w s
      · rfl

/-- A run does on the other board what it does on this one. -/
theorem run_rebind (h : Handle → Handle) {r : Pin → Pin} (hr : Function.Involutive r)
    (w : World) (sched : List Tid) :
    ∀ s : Sys, run Variant.f446re w sched (s.rebind h r) =
      (run Variant.f446re w sched s).rebind h r := by
  induction sched with
  | nil => intro s; rfl
  | cons t ts ih =>
    intro s
    show run Variant.f446re w ts (step Variant.f446re w (s.rebind h r) t) =
      (run Variant.f446re w ts (step Variant.f446re w s t)).rebind h r
    rw [step_rebind h hr, ih]

/-- Renaming no pin leaves a call as it is. -/
theorem repin_id (e : Event) : e.repin id = e := by
  cases e <;> rfl

/-- The f722 system and the f446re system after bring-up, each with its own linkage, are
the same system once handles are forgotten and LED pins are matched. -/
theorem boot_rebind (addr1 addr2 : Linkage) (pins : Pin → Bool) :
    (boot Variant.f722 (F722.readyPlatform addr2) pins).rebind (fun _ => 0) id =
      (boot Variant.f446re (F446re.readyPlatform addr1) (pins ∘ boardPin)).rebind
        (fun _ => 0) boardPin := by
  have hp : (pins ∘ boardPin) ∘ boardPin = pins := by
    funext x
    simp only [Function.comp, boardPin_involutive x]
  simp only [boot, Sys.rebind, hp]
  rfl

/-- The runs of the two boards, each from its own bring-up, correspond. -/
theorem run_f722_rebind (addr1 addr2 : Linkage) (w : World) (pins : Pin → Bool)
    (sched : List Tid) :
    (run Variant.f722 w sched (boot Variant.f722 (F722.readyPlatform addr2) pins)).rebind
        (fun _ => 0) id =
      (run Variant.f446re w sched
        (boot Variant.f446re (F446re.readyPlatform addr1) (pins ∘ boardPin))).rebind
        (fun _ => 0) boardPin := by
  rw [f722_run_eq, ← run_rebind _ (fun x => rfl), ← run_rebind _ boardPin_involutive,
    boot_rebind addr1 addr2]

/-- Claim C24. The f446re and the f722 board file are the same program on two boards.
`ExecPlatform` and `TaskBodyFunction` are the same statement for statement. `InitPlatform`
of the f722 board file is `InitPlatform` of the f446re board file with `huart3` bound
for `huart2`, `hi2s1` and `hi2s2` for `hi2s2` and `hi2s3`, and the LED pins `ST0`,
`ST1` for `LED1`, `LED2`, whatever allocation fails. After bring-up of each board
under its own linkage, for every stream of blocks and every schedule, the two runs make
the same calls in the same order with the same arguments on the codec, the gate, the
transport and the console, and the same LED calls on the LEDs that correspond; they are
at the same program points with the same buffers, counters and gate state, and the LED
outputs that correspond have the same level. -/
theorem C24_f446re_f722_equivalent (addr1 addr2 : Linkage) (heap1 heap2 : Heap)
    (p1 p2 : Platform)
    (hinit1 : F446re.InitPlatform addr1 heap1 = InitResult.completed p1)
    (hinit2 : F722.InitPlatform addr2 heap2 = InitResult.completed p2)
    (w : World) (pins : Pin → Bool) (sched : List Tid) (s1 s2 : Sys)
    (hs1 : s1 = run Variant.f446re w sched (boot Variant.f446re p1 (pins ∘ boardPin)))
    (hs2 : s2 = run Variant.f722 w sched (boot Variant.f722 p2 pins)) :
    (F722.ExecPlatform = F446re.ExecPlatform ∧
        F722.TaskBodyFunction = F446re.TaskBodyFunction) ∧
      (∀ addr heap, F722.InitPlatform addr heap =
        (F446re.InitPlatform (addr ∘ boardSymbol) heap).rebind id boardPin) ∧
      s2.trace = s1.trace.map (Event.repin boardPin) ∧
      s2.pins = s1.pins ∘ boardPin ∧
      s2.execPc = s1.execPc ∧ s2.taskPc = s1.taskPc ∧ s2.taskRunning = s1.taskRunning ∧
      s2.count = s1.count ∧ s2.received = s1.received ∧ s2.crashed = s1.crashed ∧
      s2.tx_left = s1.tx_left ∧ s2.tx_right = s1.tx_right ∧
      s2.rx_left = s1.rx_left ∧ s2.rx_right = s1.rx_right ∧
      s2.platform.codec_ready = s1.platform.codec_ready := by
  have e1 := f446re_InitPlatform_completed hinit1
  have e2 := f722_InitPlatform_completed hinit2
  subst e1 e2
  have key : s2.rebind (fun _ => 0) id = s1.rebind (fun _ => 0) boardPin := by
    rw [hs1, hs2]
    exact run_f722_rebind addr1 addr2 w pins sched
  have htrace : s2.trace = s1.trace.map (Event.repin boardPin) := by
    have h := congrArg Sys.trace key
    simp only [Sys.rebind] at h
    rw [← h, show Event.repin id = id from funext repin_id, List.map_id]
  exact ⟨⟨rfl, rfl⟩, f722_InitPlatform_rebind, htrace, (congrArg Sys.pins key :),
    (congrArg Sys.execPc key :), (congrArg Sys.taskPc key :),
    (congrArg Sys.taskRunning key :), (congrArg Sys.count key :),
    (congrArg Sys.received key :), (congrArg Sys.crashed key :),
    (congrArg Sys.tx_left key :), (congrArg Sys.tx_right key :),
    (congrArg Sys.rx_left key :), (congrArg Sys.rx_right key :),
    (congrArg (fun s => s.platform.codec_ready) key :)⟩

set_option maxRecDepth 100000 in
/-- Claim C24 at concrete runs of the two board files through two calls of
`TransmitAndReceive`: the traces agree call for call, with `led_st0` cleared on pin
`ST0` of the f722 board and on pin `LED1` of the f446re board. -/
theorem C24_f446re_f722_equivalent_witness :
    F446re.InitPlatform demoLinkage (fun _ => true) =
        InitResult.completed (F446re.readyPlatform demoLinkage) ∧
      F722.InitPlatform demoLinkage (fun _ => true) =
        InitResult.completed (F722.readyPlatform demoLinkage) ∧
      (run Variant.f722 demoWorld demoLoopSchedule
          (boot Variant.f722 (F722.readyPlatform demoLinkage) pinsLow)).trace =
        (run Variant.f446re demoWorld demoLoopSchedule
          (boot Variant.f446re (F446re.readyPlatform demoLinkage)
            (pinsLow ∘ boardPin))).trace.map (Event.repin boardPin) ∧
      (run Variant.f722 demoWorld demoLoopSchedule
          (boot Variant.f722 (F722.readyPlatform demoLinkage) pinsLow)).trace[10]? =
        some (Event.ledClear Pin.ST0) ∧
      (run Variant.f446re demoWorld demoLoopSchedule
          (boot Variant.f446re (F446re.readyPlatform demoLinkage)
            (pinsLow ∘ boardPin))).trace[10]? =
        some (Event.ledClear Pin.LED1) :=
  ⟨rfl, rfl,
    (C24_f446re_f722_equivalent demoLinkage demoLinkage (fun _ => true) (fun _ => true)
      (F446re.readyPlatform demoLinkage) (F722.readyPlatform demoLinkage) rfl rfl demoWorld
      pinsLow demoLoopSchedule _ _ rfl rfl).2.2.1,
    rfl, rfl⟩

end Murasaki
